import Mathlib

/-!
Vectorized CAST evaluation (`expression/builtin_cast_vec.go`).

A shallow embedding of the vectorized cast signatures of the expression
package, and theorems about them.

Conventions of the embedding.

* Go `int64` values are `Int`; `uint64(v)` is `v % 2 ^ 64`.
* A Go `error` is a value of `Error`; `nil` is `none`.
* The handlers mutate the destination column, the statement context and the
  buffer allocator through pointers.  Here every handler returns an `Outcome`
  holding the returned error together with the destination column, the
  statement context and the allocator as they are when the handler returns,
  on the error paths as well.
* The child expression, the allocator's next buffer and the conversion
  routines of the `types` package are not defined in this file of the
  repository: they are parameters.
* A slice read `xs[i]` is `List.getD`, a slice write `xs[i] = v` is `List.set`.
  The child expression is expected to write one row per input row
  (`Column.HasRows`); the theorems on the buffered handlers assume it, so that
  no index of a loop is out of range.
* A `float64` is kept by its three IEEE 754 fields; the conversion of an
  integer rounds to nearest, ties to even.
* The statements on the rounding of Time → Duration and on the row-at-a-time
  path need code that is not in this file (the temporal routines of the
  `types` package, the scalar casts).  It is modelled from the spec, in
  definitions whose comment says so.
-/

set_option linter.dupNamespace false

namespace expression

/-! ## Errors and the statement context -/

/-- Go error values seen by the cast signatures.  `overflow d` stands for an error
for which `types.ErrOverflow.Equal` holds, `notImplemented` for
`errors.Errorf("not implemented")`, `other c` for any other error. -/
inductive Error where
  | overflow (detail : Nat)
  | notImplemented
  | other (code : Nat)
deriving DecidableEq, Repr

/-- The test `types.ErrOverflow.Equal(err)`. -/
def ErrOverflow.Equal : Error → Bool
  | Error.overflow _ => true
  | _ => false

/-- The statement context reached by `b.ctx.GetSessionVars().StmtCtx`: the overflow mode
and the warnings recorded so far (oldest first). -/
structure StatementContext where
  OverflowAsWarning : Bool
  warnings : List Error
deriving DecidableEq, Repr

/-- Modelled from the spec: `handle_overflow(error, error)` of the execution context,
which is not defined in this file.  It "returns Ok to suppress-as-warning, Err to
propagate": in warning mode the second error is recorded as a warning and `nil` is
returned, in strict mode the first error is returned and nothing is recorded. -/
def StatementContext.HandleOverflow (sc : StatementContext) (err warnErr : Error) :
    Option Error × StatementContext :=
  if sc.OverflowAsWarning then
    (none, { sc with warnings := sc.warnings ++ [warnErr] })
  else
    (some err, sc)

/-! ## Columns -/

/-- A column of a batch (`chunk.Column`) over a fixed-width element type: one null bit
per row (`true` = the row is null) and one stored value per row. -/
structure Column (α : Type) where
  nullBitmap : List Bool
  data : List α
deriving DecidableEq, Repr

namespace Column

variable {α : Type}

/-- Modelled from the spec: `resize(type, n, _)` of the batch container, not defined in
this file.  After it "backing store length and null-bitmap length both equal n"; every
null bit is the flag passed (the handlers pass `false`); the stored values are whatever
the backing store held, padded with zero values. -/
def resize [Inhabited α] (c : Column α) (n : Nat) (isNull : Bool) : Column α :=
  { nullBitmap := List.replicate n isNull
    data := c.data.take n ++ List.replicate (n - c.data.length) default }

/-- Modelled from the spec: `is_null(row)`. -/
def IsNull (c : Column α) (i : Nat) : Bool :=
  c.nullBitmap.getD i false

/-- Modelled from the spec: `set_null(row, bool)`, "marks a single row null post-hoc". -/
def SetNull (c : Column α) (i : Nat) (isNull : Bool) : Column α :=
  { c with nullBitmap := c.nullBitmap.set i isNull }

/-- Modelled from the spec: `merge_nulls(source, destination)`: "for every row, if source
is null, destination becomes null; rows not null in source are left for the handler to
fill".  The stored values are not touched. -/
def MergeNulls {β : Type} (c : Column α) (src : Column β) : Column α :=
  { c with
    nullBitmap := (List.range c.nullBitmap.length).map
      (fun i => c.IsNull i || src.IsNull i) }

/-- The write `xs[i] = v` through a typed view (`GoDurations()`, `Float64s()`, ...) of
the column's backing store. -/
def setValue (c : Column α) (i : Nat) (v : α) : Column α :=
  { c with data := c.data.set i v }

/-- The read `xs[i]` through a typed view of the column's backing store. -/
def value [Inhabited α] (c : Column α) (i : Nat) : α :=
  c.data.getD i default

/-- Well-formed for a batch of `n` rows: `n` null bits and `n` stored values. -/
def HasRows (c : Column α) (n : Nat) : Prop :=
  c.nullBitmap.length = n ∧ c.data.length = n

instance (c : Column α) (n : Nat) : Decidable (c.HasRows n) := by
  unfold HasRows; exact inferInstance

end Column

/-- The batch of input rows (`chunk.Chunk`).  The cast signatures only ask for its row
count and hand it to the child expression; a row is kept as its list of cells. -/
structure Chunk where
  rows : List (List Int)
deriving DecidableEq, Repr

/-- The call `input.NumRows()`. -/
def Chunk.NumRows (input : Chunk) : Nat := input.rows.length

/-! ## The child expression and the buffer allocator -/

/-- What a call `b.args[0].VecEvalX(b.ctx, input, buf)` leaves behind: the returned error,
the column it wrote to, and the statement context. -/
structure EvalResult (α : Type) where
  err : Option Error
  col : Column α
  sc : StatementContext

/-- A child expression's vectorized evaluation, `VecEvalInt`, `VecEvalReal`,
`VecEvalDecimal` or `VecEvalTime` according to the element type. -/
abbrev VecEval (α : Type) := StatementContext → Chunk → Column α → EvalResult α

/-- Modelled from the spec: the buffer pool (`b.bufAllocator`), not defined in this file:
it "lends and reclaims reusable typed column buffers".  `next` is what the next
acquisition hands out (a scratch column, or an error); `checkedOut` counts the buffers
lent and not yet returned, `puts` counts the calls of `put`. -/
structure columnBufferAllocator (α : Type) where
  next : Except Error (Column α)
  checkedOut : Nat
  puts : Nat

/-- The call `b.bufAllocator.get(evalType, n)`. -/
def columnBufferAllocator.get {α : Type} (p : columnBufferAllocator α) (_n : Nat) :
    Except Error (Column α) × columnBufferAllocator α :=
  match p.next with
  | Except.error e => (Except.error e, p)
  | Except.ok buf => (Except.ok buf, { p with checkedOut := p.checkedOut + 1 })

/-- The call `b.bufAllocator.put(buf)`. -/
def columnBufferAllocator.put {α : Type} (p : columnBufferAllocator α) (_buf : Column α) :
    columnBufferAllocator α :=
  { p with checkedOut := p.checkedOut - 1, puts := p.puts + 1 }

/-- The fields of a cast signature (`baseBuiltinFunc` and `baseBuiltinCastFunc`) that the
vectorized handlers read: the UNION flag, the destination type's flag word and `Decimal`,
the flag word of the argument's type, and the argument itself. -/
structure baseBuiltinCastFunc (α : Type) where
  inUnion : Bool
  tpFlag : Nat
  tpDecimal : Int
  argFlag : Nat
  arg0 : VecEval α

/-- The constant `mysql.UnsignedFlag` (bit 5 of a field type's flag word). -/
def UnsignedFlag : Nat := 32

/-- The test `mysql.HasUnsignedFlag(flag)`. -/
def HasUnsignedFlag (flag : Nat) : Bool :=
  flag &&& UnsignedFlag != 0

/-- The Go conversion `int8(x)`. -/
def int8 (x : Int) : Int := (x + 128) % 256 - 128

/-- The state of a handler when it returns: the error returned, the destination column,
the statement context and the buffer allocator. -/
structure Outcome (α β : Type) where
  err : Option Error
  result : Column β
  sc : StatementContext
  pool : columnBufferAllocator α

/-- The loop `for i := lo; i < lo + k; i++ { body }` over a state `σ`, where the body
either falls through or `continue`s (`none`) or makes the function return an error
(`some e`).  The state reached is returned in both cases. -/
def forLoop {σ : Type} (body : Nat → σ → Option Error × σ) : Nat → Nat → σ → Option Error × σ
  | 0, _, s => (none, s)
  | k + 1, i, s =>
    match body i s with
    | (some e, s') => (some e, s')
    | (none, s') => forLoop body k (i + 1) s'

/-! ## Int → Duration -/

/-- A `types.Duration`: the elapsed time in nanoseconds and the fractional-second
precision. -/
structure Duration where
  Duration : Int
  Fsp : Int
deriving DecidableEq, Repr

/-- The body of the loop of `builtinCastIntAsDurationSig.vecEvalDuration` (lines 38-54).
`NumberToDuration` is `types.NumberToDuration`. -/
def castIntAsDurationBody (NumberToDuration : Int → Int → Except Error Duration)
    (b : baseBuiltinCastFunc Int) (i64s : List Int) (i : Nat)
    (s : Column Int × StatementContext) : Option Error × (Column Int × StatementContext) :=
  let (result, sc) := s
  if result.IsNull i then
    (none, (result, sc))
  else
    match NumberToDuration (i64s.getD i 0) (int8 b.tpDecimal) with
    | Except.error err =>
      let (err', sc') :=
        if ErrOverflow.Equal err then sc.HandleOverflow err err else (some err, sc)
      match err' with
      | some e => (some e, (result, sc'))
      | none => (none, (result.SetNull i true, sc'))
    | Except.ok dur => (none, (result.setValue i dur.Duration, sc))

/-- The method `builtinCastIntAsDurationSig.vecEvalDuration` (lines 23-56). -/
def builtinCastIntAsDurationSig.vecEvalDuration
    (NumberToDuration : Int → Int → Except Error Duration)
    (b : baseBuiltinCastFunc Int) (pool : columnBufferAllocator Int)
    (sc : StatementContext) (input : Chunk) (result : Column Int) : Outcome Int Int :=
  let n := input.NumRows
  match pool.get n with
  | (Except.error err, pool) => { err := some err, result := result, sc := sc, pool := pool }
  | (Except.ok buf, pool) =>
    -- `defer b.bufAllocator.put(buf)`: runs on every return below
    let r := b.arg0 sc input buf
    match r.err with
    | some err => { err := some err, result := result, sc := r.sc, pool := pool.put r.col }
    | none =>
      let buf := r.col
      let result := result.resize n false
      let result := result.MergeNulls buf
      let i64s := buf.data
      let (err, (result, sc)) :=
        forLoop (castIntAsDurationBody NumberToDuration b i64s) n 0 (result, r.sc)
      { err := err, result := result, sc := sc, pool := pool.put buf }

/-! ## Int → Int -/

/-- The method `builtinCastIntAsIntSig.vecEvalInt` (lines 62-77).  The child writes to the
destination column itself; no scratch buffer is used. -/
def builtinCastIntAsIntSig.vecEvalInt (b : baseBuiltinCastFunc Int)
    (sc : StatementContext) (input : Chunk) (result : Column Int) : EvalResult Int :=
  let r := b.arg0 sc input result
  match r.err with
  | some err => { err := some err, col := r.col, sc := r.sc }
  | none =>
    if b.inUnion && HasUnsignedFlag b.tpFlag then
      -- `for i := range i64s { if i64s[i] < 0 { i64s[i] = 0 } }`
      { err := none
        col := { r.col with data := r.col.data.map (fun v => if v < 0 then 0 else v) }
        sc := r.sc }
    else
      { err := none, col := r.col, sc := r.sc }

/-! ## Float64 -/

/-- An IEEE 754 binary64 value by its three fields: the sign bit, the biased exponent
(11 bits) and the fraction (52 bits). -/
structure Float64 where
  sign : Bool
  exp : Nat
  frac : Nat
deriving DecidableEq, Repr

/-- The float `+0`, the value of the Go constant `0` assigned to a `float64`. -/
def Float64.zero : Float64 := ⟨false, 0, 0⟩

instance : Inhabited Float64 := ⟨Float64.zero⟩

/-- A finite float: not an infinity and not a NaN, with a fraction of 52 bits. -/
def Float64.IsFinite (f : Float64) : Prop := f.exp < 2047 ∧ f.frac < 2 ^ 52

instance (f : Float64) : Decidable f.IsFinite := by
  unfold Float64.IsFinite; exact inferInstance

/-- The value of a finite float, times `2 ^ 1074`: an integer, since the smallest
positive float is `2 ^ (-1074)`. -/
def Float64.scaled (f : Float64) : Int :=
  let m : Int := if f.exp = 0 then f.frac else 2 ^ 52 + f.frac
  let v : Int := m * 2 ^ (if f.exp = 0 then 0 else f.exp - 1)
  if f.sign then -v else v

/-- The value of a finite float. -/
def Float64.toRat (f : Float64) : ℚ := (f.scaled : ℚ) / 2 ^ 1074

/-- The comparison `f < 0` of Go: false for both zeros and for a NaN. -/
def Float64.ltZero (f : Float64) : Bool :=
  f.sign && !(f.exp == 0 && f.frac == 0) && !(f.exp == 2047 && f.frac != 0)

/-- The position of the highest set bit of `x` among the bits below `fuel`
(0 when there is none). -/
def highBit : Nat → Nat → Nat
  | 0, _ => 0
  | k + 1, x => if 2 ^ k ≤ x then k else highBit k x

/-- The Go conversion of an unsigned 64-bit magnitude `x < 2 ^ 64` to `float64`, with the
sign given: the nearest float, ties to the even significand. -/
def float64OfMagnitude (neg : Bool) (x : Nat) : Float64 :=
  if x = 0 then Float64.zero
  else
    let e := highBit 64 x
    if e ≤ 52 then ⟨neg, e + 1023, x * 2 ^ (52 - e) - 2 ^ 52⟩
    else
      let s := e - 52
      let q := x / 2 ^ s
      let r := x % 2 ^ s
      let q' := if 2 ^ (s - 1) < r ∨ (r = 2 ^ (s - 1) ∧ q % 2 = 1) then q + 1 else q
      if q' = 2 ^ 53 then ⟨neg, e + 1 + 1023, 0⟩ else ⟨neg, e + 1023, q' - 2 ^ 52⟩

/-- The integer that the float `float64OfMagnitude _ x` stands for, up to its sign. -/
def roundMagnitude (x : Nat) : Nat :=
  let e := highBit 64 x
  if e ≤ 52 then x
  else
    let s := e - 52
    let q := x / 2 ^ s
    let r := x % 2 ^ s
    (if 2 ^ (s - 1) < r ∨ (r = 2 ^ (s - 1) ∧ q % 2 = 1) then q + 1 else q) * 2 ^ s

/-- The Go conversion `uint64(v)` of an `int64`. -/
def uint64 (v : Int) : Nat := (v % 2 ^ 64).toNat

/-- The Go conversion `float64(v)` of an `int64`. -/
def float64OfInt64 (v : Int) : Float64 := float64OfMagnitude (decide (v < 0)) v.natAbs

/-- The Go conversion `float64(u)` of a `uint64`. -/
def float64OfUint64 (u : Nat) : Float64 := float64OfMagnitude false u

/-! ## Int → Real -/

/-- The body of the loop of `builtinCastIntAsRealSig.vecEvalReal` (lines 103-115). -/
def castIntAsRealBody (b : baseBuiltinCastFunc Int) (i64s : List Int) (i : Nat)
    (result : Column Float64) : Option Error × Column Float64 :=
  let hasUnsignedFlag0 := HasUnsignedFlag b.tpFlag
  let hasUnsignedFlag1 := HasUnsignedFlag b.argFlag
  if result.IsNull i then
    (none, result)
  else if !hasUnsignedFlag0 && !hasUnsignedFlag1 then
    (none, result.setValue i (float64OfInt64 (i64s.getD i 0)))
  else if b.inUnion && decide (i64s.getD i 0 < 0) then
    (none, result.setValue i Float64.zero)
  else
    (none, result.setValue i (float64OfUint64 (uint64 (i64s.getD i 0))))

/-- The method `builtinCastIntAsRealSig.vecEvalReal` (lines 83-117). -/
def builtinCastIntAsRealSig.vecEvalReal
    (b : baseBuiltinCastFunc Int) (pool : columnBufferAllocator Int)
    (sc : StatementContext) (input : Chunk) (result : Column Float64) : Outcome Int Float64 :=
  let n := input.NumRows
  match pool.get n with
  | (Except.error err, pool) => { err := some err, result := result, sc := sc, pool := pool }
  | (Except.ok buf, pool) =>
    let r := b.arg0 sc input buf
    match r.err with
    | some err => { err := some err, result := result, sc := r.sc, pool := pool.put r.col }
    | none =>
      let buf := r.col
      let result := result.resize n false
      let result := result.MergeNulls buf
      let i64s := buf.data
      let (err, result) := forLoop (castIntAsRealBody b i64s) n 0 result
      { err := err, result := result, sc := r.sc, pool := pool.put buf }

/-! ## Real → Real -/

/-- The body of the loop of `builtinCastRealAsRealSig.vecEvalReal` (lines 133-140). -/
def castRealAsRealBody (i : Nat) (result : Column Float64) : Option Error × Column Float64 :=
  if result.IsNull i then
    (none, result)
  else if (result.value i).ltZero then
    (none, result.setValue i Float64.zero)
  else
    (none, result)

/-- The method `builtinCastRealAsRealSig.vecEvalReal` (lines 123-142). -/
def builtinCastRealAsRealSig.vecEvalReal (b : baseBuiltinCastFunc Float64)
    (sc : StatementContext) (input : Chunk) (result : Column Float64) : EvalResult Float64 :=
  let r := b.arg0 sc input result
  match r.err with
  | some err => { err := some err, col := r.col, sc := r.sc }
  | none =>
    let n := input.NumRows
    let conditionUnionAndUnsigned := b.inUnion && HasUnsignedFlag b.tpFlag
    if !conditionUnionAndUnsigned then
      { err := none, col := r.col, sc := r.sc }
    else
      let (err, result) := forLoop castRealAsRealBody n 0 r.col
      { err := err, col := result, sc := r.sc }

/-! ## Time → Duration -/

/-- A `types.Time` value: the calendar fields, the time type and the fractional-second
precision. -/
structure Time where
  year : Nat
  month : Nat
  day : Nat
  hour : Nat
  minute : Nat
  second : Nat
  microsecond : Nat
  tp : Nat
  fsp : Int
deriving DecidableEq, Repr

instance : Inhabited Time := ⟨⟨0, 0, 0, 0, 0, 0, 0, 0, 0⟩⟩

/-- The body of the loop of `builtinCastTimeAsDurationSig.vecEvalDuration`
(lines 382-395).  `ConvertToDuration` is `types.Time.ConvertToDuration` and `RoundFrac`
is `types.Duration.RoundFrac`. -/
def castTimeAsDurationBody (ConvertToDuration : Time → Except Error Duration)
    (RoundFrac : Duration → Int → Except Error Duration)
    (b : baseBuiltinCastFunc Time) (arg0s : List Time) (i : Nat)
    (result : Column Int) : Option Error × Column Int :=
  let t := arg0s.getD i default
  if result.IsNull i then
    (none, result)
  else
    match ConvertToDuration t with
    | Except.error err => (some err, result)
    | Except.ok d =>
      match RoundFrac d (int8 b.tpDecimal) with
      | Except.error err => (some err, result)
      | Except.ok d => (none, result.setValue i d.Duration)

/-- The method `builtinCastTimeAsDurationSig.vecEvalDuration` (lines 368-397).  The loop
ranges over the rows of the scratch column. -/
def builtinCastTimeAsDurationSig.vecEvalDuration
    (ConvertToDuration : Time → Except Error Duration)
    (RoundFrac : Duration → Int → Except Error Duration)
    (b : baseBuiltinCastFunc Time) (pool : columnBufferAllocator Time)
    (sc : StatementContext) (input : Chunk) (result : Column Int) : Outcome Time Int :=
  let n := input.NumRows
  match pool.get n with
  | (Except.error err, pool) => { err := some err, result := result, sc := sc, pool := pool }
  | (Except.ok arg0, pool) =>
    let r := b.arg0 sc input arg0
    match r.err with
    | some err => { err := some err, result := result, sc := r.sc, pool := pool.put r.col }
    | none =>
      let arg0 := r.col
      let arg0s := arg0.data
      let result := result.resize n false
      let result := result.MergeNulls arg0
      let (err, result) :=
        forLoop (castTimeAsDurationBody ConvertToDuration RoundFrac b arg0s)
          arg0s.length 0 result
      { err := err, result := result, sc := r.sc, pool := pool.put arg0 }

/-! ## Decimal → Real -/

/-- A `types.MyDecimal` value: the sign, and the magnitude `coeff * 10 ^ exp10`. -/
structure MyDecimal where
  negative : Bool
  coeff : Nat
  exp10 : Int
deriving DecidableEq, Repr

instance : Inhabited MyDecimal := ⟨⟨false, 0, 0⟩⟩

/-- The method `types.MyDecimal.IsNegative`. -/
def MyDecimal.IsNegative (d : MyDecimal) : Bool := d.negative

/-- The body of the loop of `builtinCastDecimalAsRealSig.vecEvalReal` (lines 437-457).
`ToFloat64` is `types.MyDecimal.ToFloat64`. -/
def castDecimalAsRealBody (ToFloat64 : MyDecimal → Except Error Float64)
    (b : baseBuiltinCastFunc MyDecimal) (d : List MyDecimal) (i : Nat)
    (s : Column Float64 × StatementContext) :
    Option Error × (Column Float64 × StatementContext) :=
  let inUnionAndUnsigned := b.inUnion && HasUnsignedFlag b.tpFlag
  let (result, sc) := s
  if result.IsNull i then
    (none, (result, sc))
  else if inUnionAndUnsigned && (d.getD i default).IsNegative then
    (none, (result.setValue i Float64.zero, sc))
  else
    match ToFloat64 (d.getD i default) with
    | Except.error err =>
      let (err', sc') :=
        if ErrOverflow.Equal err then sc.HandleOverflow err err else (some err, sc)
      match err' with
      | some e => (some e, (result, sc'))
      | none => (none, (result.SetNull i true, sc'))
    | Except.ok res => (none, (result.setValue i res, sc))

/-- The method `builtinCastDecimalAsRealSig.vecEvalReal` (lines 419-459). -/
def builtinCastDecimalAsRealSig.vecEvalReal
    (ToFloat64 : MyDecimal → Except Error Float64)
    (b : baseBuiltinCastFunc MyDecimal) (pool : columnBufferAllocator MyDecimal)
    (sc : StatementContext) (input : Chunk) (result : Column Float64) :
    Outcome MyDecimal Float64 :=
  let n := input.NumRows
  match pool.get n with
  | (Except.error err, pool) => { err := some err, result := result, sc := sc, pool := pool }
  | (Except.ok buf, pool) =>
    let r := b.arg0 sc input buf
    match r.err with
    | some err => { err := some err, result := result, sc := r.sc, pool := pool.put r.col }
    | none =>
      let buf := r.col
      let result := result.resize n false
      let result := result.MergeNulls buf
      let d := buf.data
      let (err, (result, sc)) :=
        forLoop (castDecimalAsRealBody ToFloat64 b d) n 0 (result, r.sc)
      { err := err, result := result, sc := sc, pool := pool.put buf }

/-! ## Row actions

The loops of the buffered handlers treat row `i` in one of four ways.  The row actions
name them, so that the loops can be analysed once. -/

/-- What one iteration of a handler's loop does with its row. -/
inductive RowAct (β : Type) where
  | skip
  | store (v : β)
  | null (w : Error)
  | fail (e : Error)

/-- The effect of a row action at row `i` on the destination column and the statement
context. -/
def RowAct.apply {β : Type} (a : RowAct β) (i : Nat) (s : Column β × StatementContext) :
    Option Error × (Column β × StatementContext) :=
  match a with
  | RowAct.skip => (none, s)
  | RowAct.store v => (none, (s.1.setValue i v, s.2))
  | RowAct.null w => (none, (s.1.SetNull i true, { s.2 with warnings := s.2.warnings ++ [w] }))
  | RowAct.fail e => (some e, s)

/-- The warning a row action records, if any. -/
def RowAct.warning {β : Type} : RowAct β → Option Error
  | RowAct.null w => some w
  | _ => none

/-- The row action nulls its row. -/
def RowAct.isNull {β : Type} : RowAct β → Bool
  | RowAct.null _ => true
  | _ => false

/-- The row action makes the handler return an error. -/
def RowAct.isFail {β : Type} : RowAct β → Bool
  | RowAct.fail _ => true
  | _ => false

/-- The row action of a conversion that may fail: the result is stored; an overflow
error is handed to `HandleOverflow` (a warning and a null row in warning mode, the error
in strict mode); any other error is returned. -/
def convAct {β : Type} (warn : Bool) : Except Error β → RowAct β
  | Except.ok v => RowAct.store v
  | Except.error e =>
    if ErrOverflow.Equal e then (if warn then RowAct.null e else RowAct.fail e)
    else RowAct.fail e

/-- The row action of Int → Duration at row `i`, given the row's null bit and the
overflow mode. -/
def castIntAsDurationAct (NumberToDuration : Int → Int → Except Error Duration)
    (b : baseBuiltinCastFunc Int) (i64s : List Int) (isNull warn : Bool) (i : Nat) :
    RowAct Int :=
  if isNull then RowAct.skip
  else convAct warn
    ((NumberToDuration (i64s.getD i 0) (int8 b.tpDecimal)).map (fun dur => dur.Duration))

/-- The row action of Decimal → Real at row `i`. -/
def castDecimalAsRealAct (ToFloat64 : MyDecimal → Except Error Float64)
    (b : baseBuiltinCastFunc MyDecimal) (d : List MyDecimal) (isNull warn : Bool) (i : Nat) :
    RowAct Float64 :=
  if isNull then RowAct.skip
  else if (b.inUnion && HasUnsignedFlag b.tpFlag) && (d.getD i default).IsNegative then
    RowAct.store Float64.zero
  else convAct warn (ToFloat64 (d.getD i default))

/-- The value that Int → Real stores for a non-null row holding `v` (lines 107-114). -/
def castIntAsRealValue (b : baseBuiltinCastFunc Int) (v : Int) : Float64 :=
  if !HasUnsignedFlag b.tpFlag && !HasUnsignedFlag b.argFlag then float64OfInt64 v
  else if b.inUnion && decide (v < 0) then Float64.zero
  else float64OfUint64 (uint64 v)

/-- The row action of Int → Real at row `i`. -/
def castIntAsRealAct (b : baseBuiltinCastFunc Int) (i64s : List Int) (isNull : Bool)
    (i : Nat) : RowAct Float64 :=
  if isNull then RowAct.skip
  else if !HasUnsignedFlag b.tpFlag && !HasUnsignedFlag b.argFlag then
    RowAct.store (float64OfInt64 (i64s.getD i 0))
  else if b.inUnion && decide (i64s.getD i 0 < 0) then RowAct.store Float64.zero
  else RowAct.store (float64OfUint64 (uint64 (i64s.getD i 0)))

/-- The row action of Time → Duration at row `i`: every conversion error is returned. -/
def castTimeAsDurationAct (ConvertToDuration : Time → Except Error Duration)
    (RoundFrac : Duration → Int → Except Error Duration)
    (b : baseBuiltinCastFunc Time) (arg0s : List Time) (isNull : Bool) (i : Nat) :
    RowAct Int :=
  if isNull then RowAct.skip
  else
    match ConvertToDuration (arg0s.getD i default) with
    | Except.error e => RowAct.fail e
    | Except.ok d =>
      match RoundFrac d (int8 b.tpDecimal) with
      | Except.error e => RowAct.fail e
      | Except.ok d => RowAct.store d.Duration

/-- The error raised by the conversion that Decimal → Real attempts at row `i` of the
child's output `col`; `none` when no conversion is attempted (the row is null, or negative
and clamped) or when it succeeds. -/
def castDecimalAsRealError (ToFloat64 : MyDecimal → Except Error Float64)
    (b : baseBuiltinCastFunc MyDecimal) (col : Column MyDecimal) (i : Nat) : Option Error :=
  if col.IsNull i then none
  else if (b.inUnion && HasUnsignedFlag b.tpFlag) && (col.data.getD i default).IsNegative then
    none
  else
    match ToFloat64 (col.data.getD i default) with
    | Except.error e => some e
    | Except.ok _ => none

/-- The error raised by the conversion that Int → Duration attempts at row `i` of the
child's output `col`; `none` when the row is null or the conversion succeeds. -/
def castIntAsDurationError (NumberToDuration : Int → Int → Except Error Duration)
    (b : baseBuiltinCastFunc Int) (col : Column Int) (i : Nat) : Option Error :=
  if col.IsNull i then none
  else
    match NumberToDuration (col.data.getD i 0) (int8 b.tpDecimal) with
    | Except.error e => some e
    | Except.ok _ => none

/-- The error raised by the conversion that Time → Duration attempts at row `i` of the
child's output `col` (the extraction of the time of day, then the rounding); `none` when
the row is null or both steps succeed. -/
def castTimeAsDurationError (ConvertToDuration : Time → Except Error Duration)
    (RoundFrac : Duration → Int → Except Error Duration)
    (b : baseBuiltinCastFunc Time) (col : Column Time) (i : Nat) : Option Error :=
  if col.IsNull i then none
  else
    match ConvertToDuration (col.data.getD i default) with
    | Except.error e => some e
    | Except.ok d =>
      match RoundFrac d (int8 b.tpDecimal) with
      | Except.error e => some e
      | Except.ok _ => none

/-- A loop whose body at row `i` applies the row action chosen from the row's current
null bit and the current overflow mode. -/
def actLoop {β : Type} (act : Bool → Bool → Nat → RowAct β) :
    Nat → Nat → Column β × StatementContext → Option Error × (Column β × StatementContext) :=
  forLoop (fun i s => (act (s.1.IsNull i) s.2.OverflowAsWarning i).apply i s)

/-! ## Conversions and children used in the examples

The handlers take the conversion routines of the `types` package and the child
expression as parameters.  The examples instantiate them as follows. -/

/-- An integer-to-duration conversion: the number is read as HHMMSS; beyond
`838:59:59` it is an overflow error, minutes or seconds of 60 or more are an error of
another kind. -/
def exampleNumberToDuration (number fsp : Int) : Except Error Duration :=
  if number > 8385959 ∨ number < -8385959 then
    Except.error (Error.overflow number.natAbs)
  else
    let m := number.natAbs
    if m % 100 ≥ 60 ∨ m / 100 % 100 ≥ 60 then
      Except.error (Error.other m)
    else
      let ns : Int := ((m / 10000 * 3600 + m / 100 % 100 * 60 + m % 100 : Nat) : Int) * 1000000000
      Except.ok ⟨if number < 0 then -ns else ns, fsp⟩

/-- A decimal-to-float conversion: integers below `2 ^ 64` are converted, a decimal
exponent above 308 is an overflow error, anything else is an error of another kind. -/
def exampleToFloat64 (d : MyDecimal) : Except Error Float64 :=
  if d.exp10 = 0 ∧ d.coeff < 2 ^ 64 then
    Except.ok (float64OfMagnitude d.negative d.coeff)
  else if d.exp10 > 308 then
    Except.error (Error.overflow d.coeff)
  else
    Except.error (Error.other d.coeff)

/-- A time-to-duration extraction: the time of day in nanoseconds; a month above 12 is
an error. -/
def exampleConvertToDuration (t : Time) : Except Error Duration :=
  if t.month > 12 then Except.error (Error.other t.month)
  else
    Except.ok
      ⟨((t.hour * 3600 + t.minute * 60 + t.second : Nat) : Int) * 1000000000
        + (t.microsecond : Int) * 1000, t.fsp⟩

/-- A rounding of a duration to `fsp` fractional digits, half away from zero; a
precision outside `0..6` is an error. -/
def exampleRoundFrac (d : Duration) (fsp : Int) : Except Error Duration :=
  if fsp < 0 ∨ fsp > 6 then Except.error (Error.other fsp.natAbs)
  else
    let unit : Nat := 10 ^ (9 - fsp.toNat)
    let r : Int := (((d.Duration.natAbs + unit / 2) / unit * unit : Nat) : Int)
    Except.ok ⟨if d.Duration < 0 then -r else r, fsp⟩

/-- A child expression that succeeds and writes the given column. -/
def constChild {α : Type} (col : Column α) : VecEval α :=
  fun sc _ _ => { err := none, col := col, sc := sc }

/-- A child expression that fails with the given error, leaving the buffer as it was. -/
def failingChild {α : Type} (e : Error) : VecEval α :=
  fun sc _ buf => { err := some e, col := buf, sc := sc }

/-- A batch of `n` rows. -/
def exampleChunk (n : Nat) : Chunk := ⟨List.replicate n []⟩

/-- An allocator that hands out an empty scratch column. -/
def examplePool (α : Type) : columnBufferAllocator α :=
  { next := Except.ok ⟨[], []⟩, checkedOut := 0, puts := 0 }

/-- A statement context in warning mode, with no warning yet. -/
def warnCtx : StatementContext := ⟨true, []⟩

/-- A statement context in strict mode, with no warning yet. -/
def strictCtx : StatementContext := ⟨false, []⟩

/-- An Int → Duration signature over a child giving `12:34:56`, a null row, the number
`9000000` (beyond `838:59:59`) and `00:00:10`. -/
def exampleIntAsDuration : baseBuiltinCastFunc Int :=
  ⟨false, 0, 0, 0, constChild ⟨[false, true, false, false], [123456, 77, 9000000, 10]⟩⟩

/-- An Int → Real signature, source and destination unsigned, over a child giving `-1`,
a null row, `2 ^ 53 + 1` and `10`. -/
def exampleIntAsReal : baseBuiltinCastFunc Int :=
  ⟨false, 32, 0, 32, constChild ⟨[false, true, false, false], [-1, 77, 9007199254740993, 10]⟩⟩

/-- A Decimal → Real signature, UNION-sourced with an unsigned destination, over a child
giving `-1e400`, `7`, a null row and `1e400`. -/
def exampleDecimalAsReal : baseBuiltinCastFunc MyDecimal :=
  ⟨true, 32, 0, 0, constChild
    ⟨[false, false, true, false], [⟨true, 1, 400⟩, ⟨false, 7, 0⟩, ⟨false, 3, 0⟩, ⟨false, 1, 400⟩]⟩⟩

/-- A Time → Duration signature with 0 fractional digits over a child giving
`2019-11-04 12:34:56.5` and a null row. -/
def exampleTimeAsDuration : baseBuiltinCastFunc Time :=
  ⟨false, 0, 0, 0, constChild ⟨[false, true], [⟨2019, 11, 4, 12, 34, 56, 500000, 0, 6⟩, default]⟩⟩

/-! ## The capability flags and the signatures without a vectorized implementation

The file defines 49 cast signatures.  Each has a method `vectorized()` and one method
`vecEval*`, named after the evaluation type of its result. -/

/-- The evaluation types (`types.ETInt`, `types.ETReal`, ...) that name the `vecEval*`
methods and the typed buffers. -/
inductive EvalType where
  | ETInt
  | ETReal
  | ETDecimal
  | ETString
  | ETDatetime
  | ETDuration
  | ETJson
deriving DecidableEq, Repr

/-- A JSON value in its binary form (`json.BinaryJSON`): a type code and the encoded
bytes. -/
structure BinaryJSON where
  TypeCode : Nat
  Value : List Nat
deriving DecidableEq, Repr

/-- The element type of a column of each evaluation type: `int64`, `float64`, `MyDecimal`,
`string`, `Time`, `time.Duration` (an `int64` of nanoseconds) and `BinaryJSON`. -/
def EvalType.carrier : EvalType → Type
  | .ETInt => Int
  | .ETReal => Float64
  | .ETDecimal => MyDecimal
  | .ETString => String
  | .ETDatetime => Time
  | .ETDuration => Int
  | .ETJson => BinaryJSON

/-- The cast signatures defined in the file, in the order of the file. -/
inductive CastSig where
  | builtinCastIntAsDurationSig
  | builtinCastIntAsIntSig
  | builtinCastIntAsRealSig
  | builtinCastRealAsRealSig
  | builtinCastTimeAsJSONSig
  | builtinCastRealAsStringSig
  | builtinCastDecimalAsStringSig
  | builtinCastTimeAsDecimalSig
  | builtinCastDurationAsIntSig
  | builtinCastIntAsTimeSig
  | builtinCastRealAsJSONSig
  | builtinCastJSONAsRealSig
  | builtinCastJSONAsTimeSig
  | builtinCastRealAsTimeSig
  | builtinCastDecimalAsDecimalSig
  | builtinCastDurationAsTimeSig
  | builtinCastIntAsStringSig
  | builtinCastRealAsIntSig
  | builtinCastTimeAsRealSig
  | builtinCastStringAsJSONSig
  | builtinCastRealAsDecimalSig
  | builtinCastStringAsIntSig
  | builtinCastStringAsDurationSig
  | builtinCastDurationAsDecimalSig
  | builtinCastIntAsDecimalSig
  | builtinCastIntAsJSONSig
  | builtinCastJSONAsJSONSig
  | builtinCastJSONAsStringSig
  | builtinCastDurationAsRealSig
  | builtinCastJSONAsIntSig
  | builtinCastRealAsDurationSig
  | builtinCastTimeAsDurationSig
  | builtinCastDurationAsDurationSig
  | builtinCastDurationAsStringSig
  | builtinCastDecimalAsRealSig
  | builtinCastDecimalAsTimeSig
  | builtinCastTimeAsIntSig
  | builtinCastTimeAsTimeSig
  | builtinCastTimeAsStringSig
  | builtinCastJSONAsDecimalSig
  | builtinCastStringAsRealSig
  | builtinCastStringAsDecimalSig
  | builtinCastStringAsTimeSig
  | builtinCastDecimalAsIntSig
  | builtinCastDecimalAsDurationSig
  | builtinCastStringAsStringSig
  | builtinCastJSONAsDurationSig
  | builtinCastDecimalAsJSONSig
  | builtinCastDurationAsJSONSig
deriving DecidableEq, Repr

/-- The method `vectorized()` of each signature. -/
def CastSig.vectorized : CastSig → Bool
  | .builtinCastIntAsDurationSig => true
  | .builtinCastIntAsIntSig => true
  | .builtinCastIntAsRealSig => true
  | .builtinCastRealAsRealSig => true
  | .builtinCastTimeAsJSONSig => false
  | .builtinCastRealAsStringSig => false
  | .builtinCastDecimalAsStringSig => false
  | .builtinCastTimeAsDecimalSig => false
  | .builtinCastDurationAsIntSig => false
  | .builtinCastIntAsTimeSig => false
  | .builtinCastRealAsJSONSig => false
  | .builtinCastJSONAsRealSig => false
  | .builtinCastJSONAsTimeSig => false
  | .builtinCastRealAsTimeSig => false
  | .builtinCastDecimalAsDecimalSig => false
  | .builtinCastDurationAsTimeSig => false
  | .builtinCastIntAsStringSig => false
  | .builtinCastRealAsIntSig => false
  | .builtinCastTimeAsRealSig => false
  | .builtinCastStringAsJSONSig => false
  | .builtinCastRealAsDecimalSig => false
  | .builtinCastStringAsIntSig => false
  | .builtinCastStringAsDurationSig => false
  | .builtinCastDurationAsDecimalSig => false
  | .builtinCastIntAsDecimalSig => false
  | .builtinCastIntAsJSONSig => false
  | .builtinCastJSONAsJSONSig => false
  | .builtinCastJSONAsStringSig => false
  | .builtinCastDurationAsRealSig => false
  | .builtinCastJSONAsIntSig => false
  | .builtinCastRealAsDurationSig => false
  | .builtinCastTimeAsDurationSig => true
  | .builtinCastDurationAsDurationSig => false
  | .builtinCastDurationAsStringSig => false
  | .builtinCastDecimalAsRealSig => true
  | .builtinCastDecimalAsTimeSig => false
  | .builtinCastTimeAsIntSig => false
  | .builtinCastTimeAsTimeSig => false
  | .builtinCastTimeAsStringSig => false
  | .builtinCastJSONAsDecimalSig => false
  | .builtinCastStringAsRealSig => false
  | .builtinCastStringAsDecimalSig => false
  | .builtinCastStringAsTimeSig => false
  | .builtinCastDecimalAsIntSig => false
  | .builtinCastDecimalAsDurationSig => false
  | .builtinCastStringAsStringSig => false
  | .builtinCastJSONAsDurationSig => false
  | .builtinCastDecimalAsJSONSig => false
  | .builtinCastDurationAsJSONSig => false

/-- The evaluation type of the argument of each signature, the `X` of its name
`builtinCastXAsYSig`. -/
def CastSig.argType : CastSig → EvalType
  | .builtinCastIntAsDurationSig => .ETInt
  | .builtinCastIntAsIntSig => .ETInt
  | .builtinCastIntAsRealSig => .ETInt
  | .builtinCastRealAsRealSig => .ETReal
  | .builtinCastTimeAsJSONSig => .ETDatetime
  | .builtinCastRealAsStringSig => .ETReal
  | .builtinCastDecimalAsStringSig => .ETDecimal
  | .builtinCastTimeAsDecimalSig => .ETDatetime
  | .builtinCastDurationAsIntSig => .ETDuration
  | .builtinCastIntAsTimeSig => .ETInt
  | .builtinCastRealAsJSONSig => .ETReal
  | .builtinCastJSONAsRealSig => .ETJson
  | .builtinCastJSONAsTimeSig => .ETJson
  | .builtinCastRealAsTimeSig => .ETReal
  | .builtinCastDecimalAsDecimalSig => .ETDecimal
  | .builtinCastDurationAsTimeSig => .ETDuration
  | .builtinCastIntAsStringSig => .ETInt
  | .builtinCastRealAsIntSig => .ETReal
  | .builtinCastTimeAsRealSig => .ETDatetime
  | .builtinCastStringAsJSONSig => .ETString
  | .builtinCastRealAsDecimalSig => .ETReal
  | .builtinCastStringAsIntSig => .ETString
  | .builtinCastStringAsDurationSig => .ETString
  | .builtinCastDurationAsDecimalSig => .ETDuration
  | .builtinCastIntAsDecimalSig => .ETInt
  | .builtinCastIntAsJSONSig => .ETInt
  | .builtinCastJSONAsJSONSig => .ETJson
  | .builtinCastJSONAsStringSig => .ETJson
  | .builtinCastDurationAsRealSig => .ETDuration
  | .builtinCastJSONAsIntSig => .ETJson
  | .builtinCastRealAsDurationSig => .ETReal
  | .builtinCastTimeAsDurationSig => .ETDatetime
  | .builtinCastDurationAsDurationSig => .ETDuration
  | .builtinCastDurationAsStringSig => .ETDuration
  | .builtinCastDecimalAsRealSig => .ETDecimal
  | .builtinCastDecimalAsTimeSig => .ETDecimal
  | .builtinCastTimeAsIntSig => .ETDatetime
  | .builtinCastTimeAsTimeSig => .ETDatetime
  | .builtinCastTimeAsStringSig => .ETDatetime
  | .builtinCastJSONAsDecimalSig => .ETJson
  | .builtinCastStringAsRealSig => .ETString
  | .builtinCastStringAsDecimalSig => .ETString
  | .builtinCastStringAsTimeSig => .ETString
  | .builtinCastDecimalAsIntSig => .ETDecimal
  | .builtinCastDecimalAsDurationSig => .ETDecimal
  | .builtinCastStringAsStringSig => .ETString
  | .builtinCastJSONAsDurationSig => .ETJson
  | .builtinCastDecimalAsJSONSig => .ETDecimal
  | .builtinCastDurationAsJSONSig => .ETDuration

/-- The evaluation type of the result of each signature: the `Y` of the method `vecEvalY`
that the file defines for it. -/
def CastSig.retType : CastSig → EvalType
  | .builtinCastIntAsDurationSig => .ETDuration
  | .builtinCastIntAsIntSig => .ETInt
  | .builtinCastIntAsRealSig => .ETReal
  | .builtinCastRealAsRealSig => .ETReal
  | .builtinCastTimeAsJSONSig => .ETJson
  | .builtinCastRealAsStringSig => .ETString
  | .builtinCastDecimalAsStringSig => .ETString
  | .builtinCastTimeAsDecimalSig => .ETDecimal
  | .builtinCastDurationAsIntSig => .ETInt
  | .builtinCastIntAsTimeSig => .ETDatetime
  | .builtinCastRealAsJSONSig => .ETJson
  | .builtinCastJSONAsRealSig => .ETReal
  | .builtinCastJSONAsTimeSig => .ETDatetime
  | .builtinCastRealAsTimeSig => .ETDatetime
  | .builtinCastDecimalAsDecimalSig => .ETDecimal
  | .builtinCastDurationAsTimeSig => .ETDatetime
  | .builtinCastIntAsStringSig => .ETString
  | .builtinCastRealAsIntSig => .ETInt
  | .builtinCastTimeAsRealSig => .ETReal
  | .builtinCastStringAsJSONSig => .ETJson
  | .builtinCastRealAsDecimalSig => .ETDecimal
  | .builtinCastStringAsIntSig => .ETInt
  | .builtinCastStringAsDurationSig => .ETDuration
  | .builtinCastDurationAsDecimalSig => .ETDecimal
  | .builtinCastIntAsDecimalSig => .ETDecimal
  | .builtinCastIntAsJSONSig => .ETJson
  | .builtinCastJSONAsJSONSig => .ETJson
  | .builtinCastJSONAsStringSig => .ETString
  | .builtinCastDurationAsRealSig => .ETReal
  | .builtinCastJSONAsIntSig => .ETInt
  | .builtinCastRealAsDurationSig => .ETDuration
  | .builtinCastTimeAsDurationSig => .ETDuration
  | .builtinCastDurationAsDurationSig => .ETDuration
  | .builtinCastDurationAsStringSig => .ETString
  | .builtinCastDecimalAsRealSig => .ETReal
  | .builtinCastDecimalAsTimeSig => .ETDatetime
  | .builtinCastTimeAsIntSig => .ETInt
  | .builtinCastTimeAsTimeSig => .ETDatetime
  | .builtinCastTimeAsStringSig => .ETString
  | .builtinCastJSONAsDecimalSig => .ETDecimal
  | .builtinCastStringAsRealSig => .ETReal
  | .builtinCastStringAsDecimalSig => .ETDecimal
  | .builtinCastStringAsTimeSig => .ETDatetime
  | .builtinCastDecimalAsIntSig => .ETInt
  | .builtinCastDecimalAsDurationSig => .ETDuration
  | .builtinCastStringAsStringSig => .ETString
  | .builtinCastJSONAsDurationSig => .ETDuration
  | .builtinCastDecimalAsJSONSig => .ETJson
  | .builtinCastDurationAsJSONSig => .ETJson

/-- The body `return errors.Errorf("not implemented")` of the `vecEval*` method of a
signature without a vectorized implementation: the error is returned at once; neither
the destination column, nor the statement context, nor the allocator is used. -/
def vecEvalNotImplemented {α β : Type} (pool : columnBufferAllocator α)
    (sc : StatementContext) (_input : Chunk) (result : Column β) : Outcome α β :=
  { err := some Error.notImplemented, result := result, sc := sc, pool := pool }

/-- The outcome of a handler that does not use the allocator (Int → Int, Real → Real). -/
def Outcome.ofEvalResult {α β : Type} (r : EvalResult β) (pool : columnBufferAllocator α) :
    Outcome α β :=
  { err := r.err, result := r.col, sc := r.sc, pool := pool }

/-- The conversion routines of the `types` package that the handlers call. -/
structure CastRoutines where
  NumberToDuration : Int → Int → Except Error Duration
  ToFloat64 : MyDecimal → Except Error Float64
  ConvertToDuration : Time → Except Error Duration
  RoundFrac : Duration → Int → Except Error Duration

/-- The `vecEval*` method of each signature. -/
def CastSig.vecEval (rt : CastRoutines) :
    (s : CastSig) → baseBuiltinCastFunc s.argType.carrier →
      columnBufferAllocator s.argType.carrier → StatementContext → Chunk →
      Column s.retType.carrier → Outcome s.argType.carrier s.retType.carrier
  | .builtinCastIntAsDurationSig, b, pool, sc, input, result =>
    builtinCastIntAsDurationSig.vecEvalDuration rt.NumberToDuration b pool sc input result
  | .builtinCastIntAsIntSig, b, pool, sc, input, result =>
    Outcome.ofEvalResult (builtinCastIntAsIntSig.vecEvalInt b sc input result) pool
  | .builtinCastIntAsRealSig, b, pool, sc, input, result =>
    builtinCastIntAsRealSig.vecEvalReal b pool sc input result
  | .builtinCastRealAsRealSig, b, pool, sc, input, result =>
    Outcome.ofEvalResult (builtinCastRealAsRealSig.vecEvalReal b sc input result) pool
  | .builtinCastTimeAsJSONSig, _, pool, sc, input, result =>
    vecEvalNotImplemented pool sc input result
  | .builtinCastRealAsStringSig, _, pool, sc, input, result =>
    vecEvalNotImplemented pool sc input result
  | .builtinCastDecimalAsStringSig, _, pool, sc, input, result =>
    vecEvalNotImplemented pool sc input result
  | .builtinCastTimeAsDecimalSig, _, pool, sc, input, result =>
    vecEvalNotImplemented pool sc input result
  | .builtinCastDurationAsIntSig, _, pool, sc, input, result =>
    vecEvalNotImplemented pool sc input result
  | .builtinCastIntAsTimeSig, _, pool, sc, input, result =>
    vecEvalNotImplemented pool sc input result
  | .builtinCastRealAsJSONSig, _, pool, sc, input, result =>
    vecEvalNotImplemented pool sc input result
  | .builtinCastJSONAsRealSig, _, pool, sc, input, result =>
    vecEvalNotImplemented pool sc input result
  | .builtinCastJSONAsTimeSig, _, pool, sc, input, result =>
    vecEvalNotImplemented pool sc input result
  | .builtinCastRealAsTimeSig, _, pool, sc, input, result =>
    vecEvalNotImplemented pool sc input result
  | .builtinCastDecimalAsDecimalSig, _, pool, sc, input, result =>
    vecEvalNotImplemented pool sc input result
  | .builtinCastDurationAsTimeSig, _, pool, sc, input, result =>
    vecEvalNotImplemented pool sc input result
  | .builtinCastIntAsStringSig, _, pool, sc, input, result =>
    vecEvalNotImplemented pool sc input result
  | .builtinCastRealAsIntSig, _, pool, sc, input, result =>
    vecEvalNotImplemented pool sc input result
  | .builtinCastTimeAsRealSig, _, pool, sc, input, result =>
    vecEvalNotImplemented pool sc input result
  | .builtinCastStringAsJSONSig, _, pool, sc, input, result =>
    vecEvalNotImplemented pool sc input result
  | .builtinCastRealAsDecimalSig, _, pool, sc, input, result =>
    vecEvalNotImplemented pool sc input result
  | .builtinCastStringAsIntSig, _, pool, sc, input, result =>
    vecEvalNotImplemented pool sc input result
  | .builtinCastStringAsDurationSig, _, pool, sc, input, result =>
    vecEvalNotImplemented pool sc input result
  | .builtinCastDurationAsDecimalSig, _, pool, sc, input, result =>
    vecEvalNotImplemented pool sc input result
  | .builtinCastIntAsDecimalSig, _, pool, sc, input, result =>
    vecEvalNotImplemented pool sc input result
  | .builtinCastIntAsJSONSig, _, pool, sc, input, result =>
    vecEvalNotImplemented pool sc input result
  | .builtinCastJSONAsJSONSig, _, pool, sc, input, result =>
    vecEvalNotImplemented pool sc input result
  | .builtinCastJSONAsStringSig, _, pool, sc, input, result =>
    vecEvalNotImplemented pool sc input result
  | .builtinCastDurationAsRealSig, _, pool, sc, input, result =>
    vecEvalNotImplemented pool sc input result
  | .builtinCastJSONAsIntSig, _, pool, sc, input, result =>
    vecEvalNotImplemented pool sc input result
  | .builtinCastRealAsDurationSig, _, pool, sc, input, result =>
    vecEvalNotImplemented pool sc input result
  | .builtinCastTimeAsDurationSig, b, pool, sc, input, result =>
    builtinCastTimeAsDurationSig.vecEvalDuration rt.ConvertToDuration rt.RoundFrac b pool sc
      input result
  | .builtinCastDurationAsDurationSig, _, pool, sc, input, result =>
    vecEvalNotImplemented pool sc input result
  | .builtinCastDurationAsStringSig, _, pool, sc, input, result =>
    vecEvalNotImplemented pool sc input result
  | .builtinCastDecimalAsRealSig, b, pool, sc, input, result =>
    builtinCastDecimalAsRealSig.vecEvalReal rt.ToFloat64 b pool sc input result
  | .builtinCastDecimalAsTimeSig, _, pool, sc, input, result =>
    vecEvalNotImplemented pool sc input result
  | .builtinCastTimeAsIntSig, _, pool, sc, input, result =>
    vecEvalNotImplemented pool sc input result
  | .builtinCastTimeAsTimeSig, _, pool, sc, input, result =>
    vecEvalNotImplemented pool sc input result
  | .builtinCastTimeAsStringSig, _, pool, sc, input, result =>
    vecEvalNotImplemented pool sc input result
  | .builtinCastJSONAsDecimalSig, _, pool, sc, input, result =>
    vecEvalNotImplemented pool sc input result
  | .builtinCastStringAsRealSig, _, pool, sc, input, result =>
    vecEvalNotImplemented pool sc input result
  | .builtinCastStringAsDecimalSig, _, pool, sc, input, result =>
    vecEvalNotImplemented pool sc input result
  | .builtinCastStringAsTimeSig, _, pool, sc, input, result =>
    vecEvalNotImplemented pool sc input result
  | .builtinCastDecimalAsIntSig, _, pool, sc, input, result =>
    vecEvalNotImplemented pool sc input result
  | .builtinCastDecimalAsDurationSig, _, pool, sc, input, result =>
    vecEvalNotImplemented pool sc input result
  | .builtinCastStringAsStringSig, _, pool, sc, input, result =>
    vecEvalNotImplemented pool sc input result
  | .builtinCastJSONAsDurationSig, _, pool, sc, input, result =>
    vecEvalNotImplemented pool sc input result
  | .builtinCastDecimalAsJSONSig, _, pool, sc, input, result =>
    vecEvalNotImplemented pool sc input result
  | .builtinCastDurationAsJSONSig, _, pool, sc, input, result =>
    vecEvalNotImplemented pool sc input result

/-- The conversion routines used in the examples. -/
def exampleRoutines : CastRoutines :=
  ⟨exampleNumberToDuration, exampleToFloat64, exampleConvertToDuration, exampleRoundFrac⟩

/-- A child expression that is itself a cast without a vectorized implementation: the
method `vecEvalInt` of `builtinCastStringAsIntSig`, over a string column. -/
def exampleStringAsIntChild : VecEval Int :=
  fun sc input result =>
    let r := CastSig.vecEval exampleRoutines .builtinCastStringAsIntSig
      ⟨false, 0, 0, 0, constChild ⟨[], []⟩⟩ (examplePool String) sc input result
    { err := r.err, col := r.result, sc := r.sc }

/-! ## The temporal routines that Time → Duration calls

`Time.ConvertToDuration` and `Duration.RoundFrac` belong to the `types` package.  The
handler takes them as parameters; the definitions below say what the spec says of them,
for the statement about the rounding of `12:34:56.5`. -/

/-- Modelled from the spec: `Time.ConvertToDuration`, "extract the time-of-day component".
The duration is the time elapsed since midnight, in nanoseconds (the destination column is
a "duration-as-nanoseconds array"), and keeps the fractional-second precision of the
time. -/
def Time.ConvertToDuration (t : Time) : Except Error Duration :=
  Except.ok
    ⟨((t.hour * 3600 + t.minute * 60 + t.second : Nat) : Int) * 1000000000
      + (t.microsecond : Int) * 1000, t.fsp⟩

/-- Modelled from the spec: what `Duration.RoundFrac` returns, "round to the destination's
fractional-second precision".  The spec gives no rule for a tie and does not say which
precisions are invalid, so the rounding is a relation, not a function: `r` is a rounding
of `d` to `fsp` fractional digits when `r` is a whole number of units of `10 ^ (9 - fsp)`
nanoseconds and is at most half a unit away from `d`.  At a tie both neighbours are
roundings. -/
def Duration.IsRoundFrac (d : expression.Duration) (fsp : Int) (r : expression.Duration) :
    Prop :=
  r.Duration % ((10 ^ (9 - fsp.toNat) : Nat) : Int) = 0 ∧
  2 * (r.Duration - d.Duration) ≤ ((10 ^ (9 - fsp.toNat) : Nat) : Int) ∧
  2 * (d.Duration - r.Duration) ≤ ((10 ^ (9 - fsp.toNat) : Nat) : Int)

instance (d : expression.Duration) (fsp : Int) (r : expression.Duration) :
    Decidable (Duration.IsRoundFrac d fsp r) := by
  unfold Duration.IsRoundFrac; exact inferInstance

/-- A rounding of a duration to `fsp` fractional digits that breaks a tie towards the even
multiple; a precision outside `0..6` is an error.  (`exampleRoundFrac` breaks a tie away
from zero.) -/
def exampleRoundFracEven (d : Duration) (fsp : Int) : Except Error Duration :=
  if fsp < 0 ∨ fsp > 6 then Except.error (Error.other fsp.natAbs)
  else
    let unit : Nat := 10 ^ (9 - fsp.toNat)
    let q : Nat := d.Duration.natAbs / unit
    let rem : Nat := d.Duration.natAbs % unit
    let up : Bool := decide (2 * rem > unit) || (decide (2 * rem = unit) && decide (q % 2 = 1))
    let r : Int := (((if up then q + 1 else q) * unit : Nat) : Int)
    Except.ok ⟨if d.Duration < 0 then -r else r, fsp⟩

/-! ## The row-at-a-time path of the spec

The scalar single-value cast functions (`evalInt`, `evalReal`, `evalDuration` of the
signatures) and the adapter that runs them row by row are not defined in this file.
They are modelled here from the spec (§2, §3, §4.3, §4.4 and the table of §4.5), to be
compared with the vectorized handlers. -/

/-- Modelled from the spec: `OverflowOutcome`, the "result of a single conversion step —
one of {Value(v), Clamped(v, warning), Null(warning), Error(e)}". -/
inductive OverflowOutcome (β : Type) where
  | Value (v : β)
  | Clamped (v : β) (warning : expression.Error)
  | Null (warning : expression.Error)
  | Error (e : expression.Error)

/-- Modelled from the spec: the Overflow Policy of a family that nulls (§4.3), applied to
"a conversion attempt that produced either a valid value or a domain error".  A valid
value is kept.  On a domain error, in error mode "the batch evaluation aborts immediately
and surfaces the domain error"; in warning mode "the offending row's destination is set
null", "a warning is recorded" "and evaluation continues with the next row". -/
def overflowPolicy {β : Type} (warn : Bool) : Except Error β → OverflowOutcome β
  | Except.ok v => OverflowOutcome.Value v
  | Except.error e => if warn then OverflowOutcome.Null e else OverflowOutcome.Error e

/-- Modelled from the spec: the scalar cast Int → Int (§4.5): "copy value unchanged";
"if destination unsigned and UNION-sourced: negative → 0". -/
def scalarCastIntAsInt (b : baseBuiltinCastFunc Int) (_warn : Bool) (v : Int) :
    OverflowOutcome Int :=
  if (b.inUnion && HasUnsignedFlag b.tpFlag) && decide (v < 0) then OverflowOutcome.Value 0
  else OverflowOutcome.Value v

/-- Modelled from the spec: the scalar cast Int → Real (§4.5): "widen to floating point;
if either source or destination carries the unsigned attribute, reinterpret the bit
pattern as unsigned before widening (distinct from a signed widen)"; "if UNION-sourced and
signed value negative: result 0, bypassing the unsigned reinterpretation".  The UNION rule
takes the place of the unsigned reinterpretation, so it belongs to the unsigned path; with
neither type unsigned the value is widened as a signed integer. -/
def scalarCastIntAsReal (b : baseBuiltinCastFunc Int) (_warn : Bool) (v : Int) :
    OverflowOutcome Float64 :=
  if HasUnsignedFlag b.tpFlag || HasUnsignedFlag b.argFlag then
    if b.inUnion && decide (v < 0) then OverflowOutcome.Value Float64.zero
    else OverflowOutcome.Value (float64OfUint64 (uint64 v))
  else OverflowOutcome.Value (float64OfInt64 v)

/-- Modelled from the spec: the scalar cast Real → Real (§4.5): "copy unchanged"; "if
destination unsigned and UNION-sourced: negative → 0". -/
def scalarCastRealAsReal (b : baseBuiltinCastFunc Float64) (_warn : Bool) (v : Float64) :
    OverflowOutcome Float64 :=
  if (b.inUnion && HasUnsignedFlag b.tpFlag) && v.ltZero then
    OverflowOutcome.Value Float64.zero
  else OverflowOutcome.Value v

/-- Modelled from the spec: the scalar cast Decimal → Real (§4.5): "exact-to-approximate
conversion"; "out-of-range → Overflow Policy (null under warning mode)"; "if UNION-sourced
and destination unsigned and value negative: result 0, no conversion attempted".
Out-of-range is the only failure the spec hands to the policy for this family; an error
of another kind is returned. -/
def scalarCastDecimalAsReal (ToFloat64 : MyDecimal → Except Error Float64)
    (b : baseBuiltinCastFunc MyDecimal) (warn : Bool) (d : MyDecimal) :
    OverflowOutcome Float64 :=
  if (b.inUnion && HasUnsignedFlag b.tpFlag) && d.IsNegative then
    OverflowOutcome.Value Float64.zero
  else
    match ToFloat64 d with
    | Except.ok v => OverflowOutcome.Value v
    | Except.error e =>
      if ErrOverflow.Equal e then overflowPolicy warn (Except.error e)
      else OverflowOutcome.Error e

/-- Modelled from the spec: the scalar cast Int → Duration (§4.5): the "integer is
interpreted as an HHMMSS-encoded number, converted to elapsed time with a given
fractional-second display precision"; "invalid/out-of-range encoding → Overflow Policy
(null under warning mode)". -/
def scalarCastIntAsDuration (NumberToDuration : Int → Int → Except Error Duration)
    (b : baseBuiltinCastFunc Int) (warn : Bool) (v : Int) : OverflowOutcome Int :=
  overflowPolicy warn ((NumberToDuration v (int8 b.tpDecimal)).map (fun dur => dur.Duration))

/-- Modelled from the spec: the scalar cast Time → Duration (§4.5): "extract the
time-of-day component, then round to the destination's fractional-second precision";
"rounding/conversion error is fatal (always propagated, no warning-mode suppression)". -/
def scalarCastTimeAsDuration (ConvertToDuration : Time → Except Error Duration)
    (RoundFrac : Duration → Int → Except Error Duration) (b : baseBuiltinCastFunc Time)
    (_warn : Bool) (t : Time) : OverflowOutcome Int :=
  match ConvertToDuration t with
  | Except.error e => OverflowOutcome.Error e
  | Except.ok d =>
    match RoundFrac d (int8 b.tpDecimal) with
    | Except.error e => OverflowOutcome.Error e
    | Except.ok d => OverflowOutcome.Value d.Duration

/-- Modelled from the spec: the Row Fallback Adapter (§4.4): "iterate rows 0..n, invoking
the single-value scalar cast function per row, writing its result or null into the
destination column via the same Null-Mask Propagator primitives" (`merge_nulls` for the
rows that are null in the source, `set_null` for a row whose conversion "fails softly").
`src` is the column of source values, `sc` the statement context the conversion starts
from; the result is the error outcome, the destination column and the statement
context. -/
def rowFallback {α β : Type} [Inhabited α] [Inhabited β]
    (scalarCast : Bool → α → OverflowOutcome β) (src : Column α) (n : Nat)
    (sc : StatementContext) (result : Column β) :
    Option Error × (Column β × StatementContext) :=
  forLoop
    (fun i s =>
      if s.1.IsNull i then (none, s)
      else
        match scalarCast s.2.OverflowAsWarning (src.value i) with
        | OverflowOutcome.Value v => (none, (s.1.setValue i v, s.2))
        | OverflowOutcome.Clamped v w =>
          (none, (s.1.setValue i v, { s.2 with warnings := s.2.warnings ++ [w] }))
        | OverflowOutcome.Null w =>
          (none, (s.1.SetNull i true, { s.2 with warnings := s.2.warnings ++ [w] }))
        | OverflowOutcome.Error e => (some e, s))
    n 0 ((result.resize n false).MergeNulls src, sc)

/-- Modelled from the spec: the row-at-a-time evaluation of a signature that reads its
source through a scratch buffer.  The handler pulls the source values "by borrowing a
pooled buffer and recursively evaluating the child expression into it" (§2), the Row
Fallback Adapter converts the rows, and "pooled buffers are returned to the pool on
handler exit regardless of success or failure".  An error of the acquisition or of the
child is returned as it is, before the destination is resized. -/
def rowFallbackBuffered {α β : Type} [Inhabited α] [Inhabited β]
    (scalarCast : Bool → α → OverflowOutcome β) (b : baseBuiltinCastFunc α)
    (pool : columnBufferAllocator α) (sc : StatementContext) (input : Chunk)
    (result : Column β) : Outcome α β :=
  let n := input.NumRows
  match pool.get n with
  | (Except.error err, pool) => { err := some err, result := result, sc := sc, pool := pool }
  | (Except.ok buf, pool) =>
    let r := b.arg0 sc input buf
    match r.err with
    | some err => { err := some err, result := result, sc := r.sc, pool := pool.put r.col }
    | none =>
      let out := rowFallback scalarCast r.col n r.sc result
      { err := out.1, result := out.2.1, sc := out.2.2, pool := pool.put r.col }

/-- Modelled from the spec: the row-at-a-time evaluation of a signature whose source has
the type of its destination (Int → Int, Real → Real).  The handler pulls the source values
"directly (if already materialized as the needed type)" (§2): the child is evaluated into
the destination column and the Row Fallback Adapter converts its rows.  An error of the
child is returned as it is. -/
def rowFallbackInPlace {α : Type} [Inhabited α]
    (scalarCast : Bool → α → OverflowOutcome α) (b : baseBuiltinCastFunc α)
    (sc : StatementContext) (input : Chunk) (result : Column α) : EvalResult α :=
  let r := b.arg0 sc input result
  match r.err with
  | some err => { err := some err, col := r.col, sc := r.sc }
  | none =>
    let out := rowFallback scalarCast r.col input.NumRows r.sc r.col
    { err := out.1, col := out.2.1, sc := out.2.2 }

/-- Modelled from the spec: what the equivalence of the two paths compares on a batch of
`n` rows, "their outputs (values and null bits, and any recorded warnings)": the error
outcome, the statement context with its warnings, the null bit of every row and the value
of every row that is not null. -/
def SameOutput {β : Type} [Inhabited β] (n : Nat)
    (err : Option Error) (col : Column β) (sc : StatementContext)
    (err' : Option Error) (col' : Column β) (sc' : StatementContext) : Prop :=
  err = err' ∧ sc = sc' ∧
    ∀ i, i < n → col.IsNull i = col'.IsNull i ∧
      (col.IsNull i = false → col.value i = col'.value i)

/-- The row action that an outcome of the scalar cast stands for, when it is not
`Clamped`. -/
def OverflowOutcome.toRowAct {β : Type} : OverflowOutcome β → RowAct β
  | OverflowOutcome.Value v => RowAct.store v
  | OverflowOutcome.Clamped v _ => RowAct.store v
  | OverflowOutcome.Null w => RowAct.null w
  | OverflowOutcome.Error e => RowAct.fail e

/-- The outcome is `Clamped`. -/
def OverflowOutcome.isClamped {β : Type} : OverflowOutcome β → Bool
  | OverflowOutcome.Clamped _ _ => true
  | _ => false

/-! ## Lemmas on columns -/

namespace Column

variable {α : Type}

theorem IsNull_eq (c : Column α) (i : Nat) : c.IsNull i = c.nullBitmap[i]?.getD false := by
  simp [IsNull, List.getD_eq_getElem?_getD]

@[simp] theorem resize_nullBitmap_length [Inhabited α] (c : Column α) (n : Nat) (f : Bool) :
    (c.resize n f).nullBitmap.length = n := by
  simp [resize]

@[simp] theorem resize_data_length [Inhabited α] (c : Column α) (n : Nat) (f : Bool) :
    (c.resize n f).data.length = n := by
  simp [resize]; omega

@[simp] theorem resize_IsNull [Inhabited α] (c : Column α) (n i : Nat) :
    (c.resize n false).IsNull i = false := by
  simp [IsNull_eq, resize, List.getElem?_replicate]
  split <;> simp

@[simp] theorem MergeNulls_nullBitmap_length {β : Type} (c : Column α) (src : Column β) :
    (c.MergeNulls src).nullBitmap.length = c.nullBitmap.length := by
  simp [MergeNulls]

@[simp] theorem MergeNulls_data {β : Type} (c : Column α) (src : Column β) :
    (c.MergeNulls src).data = c.data := rfl

theorem MergeNulls_IsNull {β : Type} (c : Column α) (src : Column β) (i : Nat)
    (hi : i < c.nullBitmap.length) :
    (c.MergeNulls src).IsNull i = (c.IsNull i || src.IsNull i) := by
  rw [IsNull_eq (c.MergeNulls src)]
  simp [MergeNulls, List.getElem?_map, List.getElem?_range hi]

@[simp] theorem SetNull_nullBitmap_length (c : Column α) (i : Nat) (f : Bool) :
    (c.SetNull i f).nullBitmap.length = c.nullBitmap.length := by
  simp [SetNull]

@[simp] theorem SetNull_data (c : Column α) (i : Nat) (f : Bool) :
    (c.SetNull i f).data = c.data := rfl

theorem SetNull_IsNull (c : Column α) (i j : Nat) (f : Bool) :
    (c.SetNull i f).IsNull j =
      if i = j ∧ i < c.nullBitmap.length then f else c.IsNull j := by
  simp only [IsNull_eq, SetNull, List.getElem?_set]
  by_cases h : i = j
  · subst h
    by_cases h2 : i < c.nullBitmap.length
    · simp [h2]
    · simp [h2, List.getElem?_eq_none (Nat.le_of_not_lt h2)]
  · simp [h]

@[simp] theorem setValue_nullBitmap (c : Column α) (i : Nat) (v : α) :
    (c.setValue i v).nullBitmap = c.nullBitmap := rfl

@[simp] theorem setValue_IsNull (c : Column α) (i j : Nat) (v : α) :
    (c.setValue i v).IsNull j = c.IsNull j := rfl

@[simp] theorem setValue_data_length (c : Column α) (i : Nat) (v : α) :
    (c.setValue i v).data.length = c.data.length := by
  simp [setValue]

theorem setValue_data_get (c : Column α) (i j : Nat) (v : α) :
    (c.setValue i v).data[j]? =
      if i = j then (if i < c.data.length then some v else none) else c.data[j]? := by
  simp [setValue, List.getElem?_set]

end Column

/-! ## Lemmas on loops -/

theorem forLoop_succ {σ : Type} (body : Nat → σ → Option Error × σ) (k i : Nat) (s : σ) :
    forLoop body (k + 1) i s =
      match body i s with
      | (some e, s') => (some e, s')
      | (none, s') => forLoop body k (i + 1) s' := rfl

/-- A loop over a column alone is the loop over the column and a statement context that
the body does not touch. -/
theorem forLoop_pair {β : Type} (body1 : Nat → Column β → Option Error × Column β)
    (body2 : Nat → Column β × StatementContext → Option Error × (Column β × StatementContext))
    (h : ∀ i c sc, body2 i (c, sc) = ((body1 i c).1, ((body1 i c).2, sc)))
    (k lo : Nat) (c : Column β) (sc : StatementContext) :
    forLoop body2 k lo (c, sc) = ((forLoop body1 k lo c).1, ((forLoop body1 k lo c).2, sc)) := by
  induction k generalizing lo c with
  | zero => rfl
  | succ k ih =>
    rw [forLoop_succ, forLoop_succ, h]
    rcases hb : body1 lo c with ⟨e, c'⟩
    cases e with
    | none => simpa using ih (lo + 1) c'
    | some e => rfl

section ActLoop

variable {β : Type}

theorem RowAct.apply_frame (a : RowAct β) (i : Nat) (s : Column β × StatementContext) :
    (a.apply i s).2.1.nullBitmap.length = s.1.nullBitmap.length ∧
    (a.apply i s).2.1.data.length = s.1.data.length ∧
    (a.apply i s).2.2.OverflowAsWarning = s.2.OverflowAsWarning ∧
    ∀ j, j ≠ i → (a.apply i s).2.1.IsNull j = s.1.IsNull j ∧
      (a.apply i s).2.1.data[j]? = s.1.data[j]? := by
  cases a with
  | skip => simp [RowAct.apply]
  | store v =>
    refine ⟨by simp [RowAct.apply], by simp [RowAct.apply], by simp [RowAct.apply], ?_⟩
    intro j hj
    have : ¬ i = j := fun h => hj h.symm
    simp [RowAct.apply, Column.setValue_data_get, this]
  | null w =>
    refine ⟨by simp [RowAct.apply], by simp [RowAct.apply], by simp [RowAct.apply], ?_⟩
    intro j hj
    have : ¬ i = j := fun h => hj h.symm
    simp [RowAct.apply, Column.SetNull_IsNull, this]
  | fail e => simp [RowAct.apply]

theorem RowAct.apply_err (a : RowAct β) (i : Nat) (s : Column β × StatementContext) :
    (a.apply i s).1 = (match a with | RowAct.fail e => some e | _ => none) := by
  cases a <;> rfl

theorem actLoop_zero (act : Bool → Bool → Nat → RowAct β) (lo : Nat)
    (s : Column β × StatementContext) : actLoop act 0 lo s = (none, s) := rfl

theorem actLoop_succ_err (act : Bool → Bool → Nat → RowAct β) (k lo : Nat)
    (s s' : Column β × StatementContext) (e : Error)
    (h : (act (s.1.IsNull lo) s.2.OverflowAsWarning lo).apply lo s = (some e, s')) :
    actLoop act (k + 1) lo s = (some e, s') := by
  unfold actLoop
  rw [forLoop_succ]
  simp only [h]

theorem actLoop_succ_ok (act : Bool → Bool → Nat → RowAct β) (k lo : Nat)
    (s s' : Column β × StatementContext)
    (h : (act (s.1.IsNull lo) s.2.OverflowAsWarning lo).apply lo s = (none, s')) :
    actLoop act (k + 1) lo s = actLoop act k (lo + 1) s' := by
  unfold actLoop
  rw [forLoop_succ]
  simp only [h]

/-- Rows outside the range of the loop, the row counts and the overflow mode are left
as they were, whether the loop ends normally or not. -/
theorem actLoop_frame (act : Bool → Bool → Nat → RowAct β) (k lo : Nat)
    (s : Column β × StatementContext) :
    (actLoop act k lo s).2.1.nullBitmap.length = s.1.nullBitmap.length ∧
    (actLoop act k lo s).2.1.data.length = s.1.data.length ∧
    (actLoop act k lo s).2.2.OverflowAsWarning = s.2.OverflowAsWarning ∧
    ∀ j, (j < lo ∨ lo + k ≤ j) → (actLoop act k lo s).2.1.IsNull j = s.1.IsNull j ∧
      (actLoop act k lo s).2.1.data[j]? = s.1.data[j]? := by
  induction k generalizing lo s with
  | zero => simp [actLoop_zero]
  | succ k ih =>
    have hf := RowAct.apply_frame (act (s.1.IsNull lo) s.2.OverflowAsWarning lo) lo s
    rcases hb : (act (s.1.IsNull lo) s.2.OverflowAsWarning lo).apply lo s with ⟨e, s1⟩
    rw [hb] at hf
    obtain ⟨h1, h2, h3, h4⟩ := hf
    cases e with
    | some e =>
      rw [actLoop_succ_err act k lo s s1 e hb]
      refine ⟨h1, h2, h3, ?_⟩
      intro j hj
      exact h4 j (by omega)
    | none =>
      rw [actLoop_succ_ok act k lo s s1 hb]
      obtain ⟨i1, i2, i3, i4⟩ := ih (lo + 1) s1
      refine ⟨i1.trans h1, i2.trans h2, i3.trans h3, ?_⟩
      intro j hj
      have hA := i4 j (by omega)
      have hB := h4 j (by omega)
      exact ⟨hA.1.trans hB.1, hA.2.trans hB.2⟩

theorem RowAct.apply_row (a : RowAct β) (i : Nat) (s s1 : Column β × StatementContext)
    (hn : i < s.1.nullBitmap.length) (hd : i < s.1.data.length)
    (h : a.apply i s = (none, s1)) :
    a.isFail = false ∧
    s1.1.IsNull i = (s.1.IsNull i || a.isNull) ∧
    (∀ v, a = RowAct.store v → s1.1.data[i]? = some v) ∧
    ((∀ v, a ≠ RowAct.store v) → s1.1.data[i]? = s.1.data[i]?) ∧
    s1.2.warnings = s.2.warnings ++ a.warning.toList := by
  cases a with
  | skip =>
    simp only [RowAct.apply, Prod.mk.injEq, true_and] at h
    subst h
    simp [RowAct.isFail, RowAct.isNull, RowAct.warning]
  | store v =>
    simp only [RowAct.apply, Prod.mk.injEq, true_and] at h
    subst h
    refine ⟨rfl, by simp [RowAct.isNull], ?_, ?_, by simp [RowAct.warning]⟩
    · intro v' hv'
      cases hv'
      show (s.1.setValue i v).data[i]? = some v
      rw [Column.setValue_data_get]
      simp [hd]
    · intro hv
      exact absurd rfl (hv v)
  | null w =>
    simp only [RowAct.apply, Prod.mk.injEq, true_and] at h
    subst h
    simp [RowAct.isFail, RowAct.isNull, RowAct.warning, Column.SetNull_IsNull, hn]
  | fail e => simp [RowAct.apply] at h

/-- What a loop that ends normally has done to the rows of its range, and the warnings
it has recorded: one for each row it nulled, in row order. -/
theorem actLoop_ok (act : Bool → Bool → Nat → RowAct β) (k lo : Nat)
    (s s' : Column β × StatementContext)
    (hn : lo + k ≤ s.1.nullBitmap.length) (hd : lo + k ≤ s.1.data.length)
    (h : actLoop act k lo s = (none, s')) :
    (∀ j, lo ≤ j → j < lo + k →
      (act (s.1.IsNull j) s.2.OverflowAsWarning j).isFail = false ∧
      s'.1.IsNull j = (s.1.IsNull j || (act (s.1.IsNull j) s.2.OverflowAsWarning j).isNull) ∧
      (∀ v, act (s.1.IsNull j) s.2.OverflowAsWarning j = RowAct.store v →
        s'.1.data[j]? = some v) ∧
      ((∀ v, act (s.1.IsNull j) s.2.OverflowAsWarning j ≠ RowAct.store v) →
        s'.1.data[j]? = s.1.data[j]?)) ∧
    s'.2.warnings = s.2.warnings ++
      (List.range' lo k).filterMap
        (fun j => (act (s.1.IsNull j) s.2.OverflowAsWarning j).warning) := by
  induction k generalizing lo s with
  | zero =>
    rw [actLoop_zero] at h
    simp only [Prod.mk.injEq, true_and] at h
    subst h
    refine ⟨fun j h1 h2 => by omega, by simp⟩
  | succ k ih =>
    rcases hb : (act (s.1.IsNull lo) s.2.OverflowAsWarning lo).apply lo s with ⟨e, s1⟩
    cases e with
    | some e =>
      rw [actLoop_succ_err act k lo s s1 e hb] at h
      simp at h
    | none =>
      rw [actLoop_succ_ok act k lo s s1 hb] at h
      have hf := RowAct.apply_frame (act (s.1.IsNull lo) s.2.OverflowAsWarning lo) lo s
      rw [hb] at hf
      obtain ⟨f1, f2, f3, f4⟩ := hf
      have hr := RowAct.apply_row _ lo s s1 (by omega) (by omega) hb
      obtain ⟨r1, r2, r3, r4, r5⟩ := hr
      obtain ⟨i1, i2⟩ := ih (lo + 1) s1 (by simp only at f1; omega) (by simp only at f2; omega) h
      have hfr := actLoop_frame act k (lo + 1) s1
      rw [h] at hfr
      obtain ⟨_, _, _, g4⟩ := hfr
      simp only at f3 f4 g4
      constructor
      · intro j hj1 hj2
        by_cases hj : j = lo
        · subst hj
          have hg := g4 j (Or.inl (Nat.lt_succ_self j))
          refine ⟨r1, hg.1.trans r2, fun v hv => hg.2.trans (r3 v hv),
            fun hv => hg.2.trans (r4 hv)⟩
        · have hi := i1 j (by omega) (by omega)
          have hs := f4 j hj
          rw [hs.1, f3, hs.2] at hi
          exact hi
      · rw [i2, r5, List.range'_succ, List.filterMap_cons, List.append_assoc]
        congr 1
        have hc : List.filterMap
            (fun j => (act (s1.1.IsNull j) s1.2.OverflowAsWarning j).warning)
            (List.range' (lo + 1) k) =
          List.filterMap (fun j => (act (s.1.IsNull j) s.2.OverflowAsWarning j).warning)
            (List.range' (lo + 1) k) := by
          apply List.filterMap_congr
          intro j hj
          have hj' : lo + 1 ≤ j := (List.mem_range'_1.mp hj).1
          have hs := f4 j (by omega)
          rw [hs.1, f3]
        rw [hc]
        cases (act (s.1.IsNull lo) s.2.OverflowAsWarning lo).warning <;> simp

/-- A loop that returns an error has met a failing row, and has run normally over the
rows before it; the state is the one reached before that row. -/
theorem actLoop_err (act : Bool → Bool → Nat → RowAct β) (k lo : Nat)
    (s s' : Column β × StatementContext) (e : Error)
    (h : actLoop act k lo s = (some e, s')) :
    ∃ f, lo ≤ f ∧ f < lo + k ∧
      act (s.1.IsNull f) s.2.OverflowAsWarning f = RowAct.fail e ∧
      actLoop act (f - lo) lo s = (none, s') := by
  induction k generalizing lo s with
  | zero => rw [actLoop_zero] at h; simp at h
  | succ k ih =>
    rcases hb : (act (s.1.IsNull lo) s.2.OverflowAsWarning lo).apply lo s with ⟨e1, s1⟩
    cases e1 with
    | some e1 =>
      rw [actLoop_succ_err act k lo s s1 e1 hb] at h
      simp only [Prod.mk.injEq, Option.some.injEq] at h
      obtain ⟨he, hs⟩ := h
      subst he hs
      refine ⟨lo, le_refl _, by omega, ?_, ?_⟩
      · cases ha : act (s.1.IsNull lo) s.2.OverflowAsWarning lo with
        | fail e2 => rw [ha] at hb; simp [RowAct.apply] at hb; rw [hb.1]
        | skip => rw [ha] at hb; simp [RowAct.apply] at hb
        | store v => rw [ha] at hb; simp [RowAct.apply] at hb
        | null w => rw [ha] at hb; simp [RowAct.apply] at hb
      · rw [Nat.sub_self, actLoop_zero]
        cases ha : act (s.1.IsNull lo) s.2.OverflowAsWarning lo with
        | fail e2 => rw [ha] at hb; simp [RowAct.apply] at hb; rw [hb.2]
        | skip => rw [ha] at hb; simp [RowAct.apply] at hb
        | store v => rw [ha] at hb; simp [RowAct.apply] at hb
        | null w => rw [ha] at hb; simp [RowAct.apply] at hb
    | none =>
      rw [actLoop_succ_ok act k lo s s1 hb] at h
      have hf := RowAct.apply_frame (act (s.1.IsNull lo) s.2.OverflowAsWarning lo) lo s
      rw [hb] at hf
      obtain ⟨_, _, f3, f4⟩ := hf
      simp only at f3 f4
      obtain ⟨f, hf1, hf2, hf3, hf4⟩ := ih (lo + 1) s1 h
      refine ⟨f, by omega, by omega, ?_, ?_⟩
      · have hs := f4 f (by omega)
        rw [hs.1, f3] at hf3
        exact hf3
      · have : f - lo = (f - (lo + 1)) + 1 := by omega
        rw [this, actLoop_succ_ok act _ lo s s1 hb]
        exact hf4

/-- A loop over well-formed rows ends normally exactly when no row of its range fails. -/
theorem actLoop_ok_iff (act : Bool → Bool → Nat → RowAct β) (k lo : Nat)
    (s : Column β × StatementContext)
    (hn : lo + k ≤ s.1.nullBitmap.length) (hd : lo + k ≤ s.1.data.length) :
    (actLoop act k lo s).1 = none ↔
      ∀ j, lo ≤ j → j < lo + k →
        (act (s.1.IsNull j) s.2.OverflowAsWarning j).isFail = false := by
  constructor
  · intro h j h1 h2
    rcases hb : actLoop act k lo s with ⟨e, s'⟩
    rw [hb] at h
    simp only at h
    subst h
    exact ((actLoop_ok act k lo s s' hn hd hb).1 j h1 h2).1
  · intro h
    rcases hb : actLoop act k lo s with ⟨e, s'⟩
    cases e with
    | none => rfl
    | some e =>
      obtain ⟨f, h1, h2, h3, _⟩ := actLoop_err act k lo s s' e hb
      have := h f h1 h2
      rw [h3] at this
      simp [RowAct.isFail] at this

end ActLoop

/-! ## The loops of the handlers as loops of row actions -/

theorem castIntAsDurationBody_eq (NumberToDuration : Int → Int → Except Error Duration)
    (b : baseBuiltinCastFunc Int) (i64s : List Int) :
    forLoop (castIntAsDurationBody NumberToDuration b i64s) =
      actLoop (castIntAsDurationAct NumberToDuration b i64s) := by
  have hbody : castIntAsDurationBody NumberToDuration b i64s = fun i s =>
      (castIntAsDurationAct NumberToDuration b i64s (s.1.IsNull i)
        s.2.OverflowAsWarning i).apply i s := by
    funext i s
    obtain ⟨result, sc⟩ := s
    simp only [castIntAsDurationBody, castIntAsDurationAct]
    cases hnull : result.IsNull i with
    | true => simp [RowAct.apply]
    | false =>
      cases hc : NumberToDuration (i64s.getD i 0) (int8 b.tpDecimal) with
      | ok dur => simp [convAct, Except.map, RowAct.apply]
      | error e =>
        cases ho : ErrOverflow.Equal e with
        | false => simp [convAct, Except.map, RowAct.apply, ho]
        | true =>
          cases hw : sc.OverflowAsWarning <;>
            simp [convAct, Except.map, RowAct.apply, ho, hw, StatementContext.HandleOverflow]
  unfold actLoop
  rw [hbody]

theorem castDecimalAsRealBody_eq (ToFloat64 : MyDecimal → Except Error Float64)
    (b : baseBuiltinCastFunc MyDecimal) (d : List MyDecimal) :
    forLoop (castDecimalAsRealBody ToFloat64 b d) =
      actLoop (castDecimalAsRealAct ToFloat64 b d) := by
  have hbody : castDecimalAsRealBody ToFloat64 b d = fun i s =>
      (castDecimalAsRealAct ToFloat64 b d (s.1.IsNull i) s.2.OverflowAsWarning i).apply i s := by
    funext i s
    obtain ⟨result, sc⟩ := s
    simp only [castDecimalAsRealBody, castDecimalAsRealAct]
    cases hnull : result.IsNull i with
    | true => simp [RowAct.apply]
    | false =>
      cases hclamp : (b.inUnion && HasUnsignedFlag b.tpFlag) && (d.getD i default).IsNegative with
      | true => simp [RowAct.apply]
      | false =>
        cases hc : ToFloat64 (d.getD i default) with
        | ok v => simp [convAct, RowAct.apply]
        | error e =>
          cases ho : ErrOverflow.Equal e with
          | false => simp [convAct, RowAct.apply, ho]
          | true =>
            cases hw : sc.OverflowAsWarning <;>
              simp [convAct, RowAct.apply, ho, hw, StatementContext.HandleOverflow]
  unfold actLoop
  rw [hbody]

theorem castIntAsRealBody_eq (b : baseBuiltinCastFunc Int) (i64s : List Int) (k lo : Nat)
    (c : Column Float64) (sc : StatementContext) :
    forLoop (castIntAsRealBody b i64s) k lo c =
      ((actLoop (fun isNull _ i => castIntAsRealAct b i64s isNull i) k lo (c, sc)).1,
       (actLoop (fun isNull _ i => castIntAsRealAct b i64s isNull i) k lo (c, sc)).2.1) := by
  have h := forLoop_pair (castIntAsRealBody b i64s)
    (fun i s => (castIntAsRealAct b i64s (s.1.IsNull i) i).apply i s) (by
      intro i c sc
      simp only [castIntAsRealBody, castIntAsRealAct]
      cases hnull : c.IsNull i with
      | true => simp [RowAct.apply]
      | false =>
        cases h1 : (!HasUnsignedFlag b.tpFlag && !HasUnsignedFlag b.argFlag) with
        | true => simp [RowAct.apply]
        | false =>
          cases h2 : (b.inUnion && decide (i64s.getD i 0 < 0)) <;> simp [RowAct.apply]) k lo c sc
  unfold actLoop
  rw [h]

theorem castTimeAsDurationBody_eq (ConvertToDuration : Time → Except Error Duration)
    (RoundFrac : Duration → Int → Except Error Duration)
    (b : baseBuiltinCastFunc Time) (arg0s : List Time) (k lo : Nat)
    (c : Column Int) (sc : StatementContext) :
    forLoop (castTimeAsDurationBody ConvertToDuration RoundFrac b arg0s) k lo c =
      ((actLoop (fun isNull _ i =>
          castTimeAsDurationAct ConvertToDuration RoundFrac b arg0s isNull i) k lo (c, sc)).1,
       (actLoop (fun isNull _ i =>
          castTimeAsDurationAct ConvertToDuration RoundFrac b arg0s isNull i) k lo (c, sc)).2.1) := by
  have h := forLoop_pair (castTimeAsDurationBody ConvertToDuration RoundFrac b arg0s)
    (fun i s =>
      (castTimeAsDurationAct ConvertToDuration RoundFrac b arg0s (s.1.IsNull i) i).apply i s) (by
      intro i c sc
      simp only [castTimeAsDurationBody, castTimeAsDurationAct]
      cases hnull : c.IsNull i with
      | true => simp [RowAct.apply]
      | false =>
        cases h1 : ConvertToDuration (arg0s.getD i default) with
        | error e => simp [RowAct.apply]
        | ok d =>
          cases h2 : RoundFrac d (int8 b.tpDecimal) <;> simp [RowAct.apply, h2]) k lo c sc
  unfold actLoop
  rw [h]

/-- The destination column as the loops find it: resized to `n` rows, with the null bits
of the child's output. -/
theorem resize_MergeNulls {α β : Type} [Inhabited β] (result : Column β) (buf : Column α)
    (n : Nat) :
    ((result.resize n false).MergeNulls buf).nullBitmap.length = n ∧
    ((result.resize n false).MergeNulls buf).data.length = n ∧
    ∀ i, i < n → ((result.resize n false).MergeNulls buf).IsNull i = buf.IsNull i := by
  refine ⟨by simp, by simp, ?_⟩
  intro i hi
  rw [Column.MergeNulls_IsNull _ _ _ (by simpa using hi)]
  simp

/-! ## The handlers, path by path -/

section Paths

variable {α β : Type}

theorem vecEvalDuration_int_ok (NumberToDuration : Int → Int → Except Error Duration)
    (b : baseBuiltinCastFunc Int) (pool : columnBufferAllocator Int)
    (sc : StatementContext) (input : Chunk) (result buf0 : Column Int)
    (hget : pool.next = Except.ok buf0) (herr : (b.arg0 sc input buf0).err = none) :
    builtinCastIntAsDurationSig.vecEvalDuration NumberToDuration b pool sc input result =
      { err := (actLoop (castIntAsDurationAct NumberToDuration b (b.arg0 sc input buf0).col.data)
          input.NumRows 0
          ((result.resize input.NumRows false).MergeNulls (b.arg0 sc input buf0).col,
            (b.arg0 sc input buf0).sc)).1
        result := (actLoop
          (castIntAsDurationAct NumberToDuration b (b.arg0 sc input buf0).col.data)
          input.NumRows 0
          ((result.resize input.NumRows false).MergeNulls (b.arg0 sc input buf0).col,
            (b.arg0 sc input buf0).sc)).2.1
        sc := (actLoop (castIntAsDurationAct NumberToDuration b (b.arg0 sc input buf0).col.data)
          input.NumRows 0
          ((result.resize input.NumRows false).MergeNulls (b.arg0 sc input buf0).col,
            (b.arg0 sc input buf0).sc)).2.2
        pool := columnBufferAllocator.put { pool with checkedOut := pool.checkedOut + 1 }
          (b.arg0 sc input buf0).col } := by
  simp only [builtinCastIntAsDurationSig.vecEvalDuration, columnBufferAllocator.get, hget, herr,
    castIntAsDurationBody_eq]

theorem vecEvalReal_decimal_ok (ToFloat64 : MyDecimal → Except Error Float64)
    (b : baseBuiltinCastFunc MyDecimal) (pool : columnBufferAllocator MyDecimal)
    (sc : StatementContext) (input : Chunk) (result : Column Float64) (buf0 : Column MyDecimal)
    (hget : pool.next = Except.ok buf0) (herr : (b.arg0 sc input buf0).err = none) :
    builtinCastDecimalAsRealSig.vecEvalReal ToFloat64 b pool sc input result =
      { err := (actLoop (castDecimalAsRealAct ToFloat64 b (b.arg0 sc input buf0).col.data)
          input.NumRows 0
          ((result.resize input.NumRows false).MergeNulls (b.arg0 sc input buf0).col,
            (b.arg0 sc input buf0).sc)).1
        result := (actLoop (castDecimalAsRealAct ToFloat64 b (b.arg0 sc input buf0).col.data)
          input.NumRows 0
          ((result.resize input.NumRows false).MergeNulls (b.arg0 sc input buf0).col,
            (b.arg0 sc input buf0).sc)).2.1
        sc := (actLoop (castDecimalAsRealAct ToFloat64 b (b.arg0 sc input buf0).col.data)
          input.NumRows 0
          ((result.resize input.NumRows false).MergeNulls (b.arg0 sc input buf0).col,
            (b.arg0 sc input buf0).sc)).2.2
        pool := columnBufferAllocator.put { pool with checkedOut := pool.checkedOut + 1 }
          (b.arg0 sc input buf0).col } := by
  simp only [builtinCastDecimalAsRealSig.vecEvalReal, columnBufferAllocator.get, hget, herr,
    castDecimalAsRealBody_eq]

theorem vecEvalReal_int_ok (b : baseBuiltinCastFunc Int) (pool : columnBufferAllocator Int)
    (sc : StatementContext) (input : Chunk) (result : Column Float64) (buf0 : Column Int)
    (hget : pool.next = Except.ok buf0) (herr : (b.arg0 sc input buf0).err = none) :
    builtinCastIntAsRealSig.vecEvalReal b pool sc input result =
      { err := (actLoop
          (fun isNull _ i => castIntAsRealAct b (b.arg0 sc input buf0).col.data isNull i)
          input.NumRows 0
          ((result.resize input.NumRows false).MergeNulls (b.arg0 sc input buf0).col,
            (b.arg0 sc input buf0).sc)).1
        result := (actLoop
          (fun isNull _ i => castIntAsRealAct b (b.arg0 sc input buf0).col.data isNull i)
          input.NumRows 0
          ((result.resize input.NumRows false).MergeNulls (b.arg0 sc input buf0).col,
            (b.arg0 sc input buf0).sc)).2.1
        sc := (b.arg0 sc input buf0).sc
        pool := columnBufferAllocator.put { pool with checkedOut := pool.checkedOut + 1 }
          (b.arg0 sc input buf0).col } := by
  simp only [builtinCastIntAsRealSig.vecEvalReal, columnBufferAllocator.get, hget, herr]
  rw [castIntAsRealBody_eq b _ _ _ _ (b.arg0 sc input buf0).sc]

theorem vecEvalDuration_time_ok (ConvertToDuration : Time → Except Error Duration)
    (RoundFrac : Duration → Int → Except Error Duration)
    (b : baseBuiltinCastFunc Time) (pool : columnBufferAllocator Time)
    (sc : StatementContext) (input : Chunk) (result : Column Int) (buf0 : Column Time)
    (hget : pool.next = Except.ok buf0) (herr : (b.arg0 sc input buf0).err = none) :
    builtinCastTimeAsDurationSig.vecEvalDuration ConvertToDuration RoundFrac b pool sc input
        result =
      { err := (actLoop
          (fun isNull _ i => castTimeAsDurationAct ConvertToDuration RoundFrac b
            (b.arg0 sc input buf0).col.data isNull i)
          (b.arg0 sc input buf0).col.data.length 0
          ((result.resize input.NumRows false).MergeNulls (b.arg0 sc input buf0).col,
            (b.arg0 sc input buf0).sc)).1
        result := (actLoop
          (fun isNull _ i => castTimeAsDurationAct ConvertToDuration RoundFrac b
            (b.arg0 sc input buf0).col.data isNull i)
          (b.arg0 sc input buf0).col.data.length 0
          ((result.resize input.NumRows false).MergeNulls (b.arg0 sc input buf0).col,
            (b.arg0 sc input buf0).sc)).2.1
        sc := (b.arg0 sc input buf0).sc
        pool := columnBufferAllocator.put { pool with checkedOut := pool.checkedOut + 1 }
          (b.arg0 sc input buf0).col } := by
  simp only [builtinCastTimeAsDurationSig.vecEvalDuration, columnBufferAllocator.get, hget, herr]
  rw [castTimeAsDurationBody_eq ConvertToDuration RoundFrac b _ _ _ _ (b.arg0 sc input buf0).sc]

theorem vecEvalDuration_int_get_err (NumberToDuration : Int → Int → Except Error Duration)
    (b : baseBuiltinCastFunc Int) (pool : columnBufferAllocator Int)
    (sc : StatementContext) (input : Chunk) (result : Column Int) (e : Error)
    (hget : pool.next = Except.error e) :
    builtinCastIntAsDurationSig.vecEvalDuration NumberToDuration b pool sc input result =
      { err := some e, result := result, sc := sc, pool := pool } := by
  simp only [builtinCastIntAsDurationSig.vecEvalDuration, columnBufferAllocator.get, hget]

theorem vecEvalDuration_int_child_err (NumberToDuration : Int → Int → Except Error Duration)
    (b : baseBuiltinCastFunc Int) (pool : columnBufferAllocator Int)
    (sc : StatementContext) (input : Chunk) (result buf0 : Column Int) (e : Error)
    (hget : pool.next = Except.ok buf0) (herr : (b.arg0 sc input buf0).err = some e) :
    builtinCastIntAsDurationSig.vecEvalDuration NumberToDuration b pool sc input result =
      { err := some e, result := result, sc := (b.arg0 sc input buf0).sc
        pool := columnBufferAllocator.put { pool with checkedOut := pool.checkedOut + 1 }
          (b.arg0 sc input buf0).col } := by
  simp only [builtinCastIntAsDurationSig.vecEvalDuration, columnBufferAllocator.get, hget, herr]

theorem vecEvalReal_decimal_get_err (ToFloat64 : MyDecimal → Except Error Float64)
    (b : baseBuiltinCastFunc MyDecimal) (pool : columnBufferAllocator MyDecimal)
    (sc : StatementContext) (input : Chunk) (result : Column Float64) (e : Error)
    (hget : pool.next = Except.error e) :
    builtinCastDecimalAsRealSig.vecEvalReal ToFloat64 b pool sc input result =
      { err := some e, result := result, sc := sc, pool := pool } := by
  simp only [builtinCastDecimalAsRealSig.vecEvalReal, columnBufferAllocator.get, hget]

theorem vecEvalReal_decimal_child_err (ToFloat64 : MyDecimal → Except Error Float64)
    (b : baseBuiltinCastFunc MyDecimal) (pool : columnBufferAllocator MyDecimal)
    (sc : StatementContext) (input : Chunk) (result : Column Float64) (buf0 : Column MyDecimal)
    (e : Error)
    (hget : pool.next = Except.ok buf0) (herr : (b.arg0 sc input buf0).err = some e) :
    builtinCastDecimalAsRealSig.vecEvalReal ToFloat64 b pool sc input result =
      { err := some e, result := result, sc := (b.arg0 sc input buf0).sc
        pool := columnBufferAllocator.put { pool with checkedOut := pool.checkedOut + 1 }
          (b.arg0 sc input buf0).col } := by
  simp only [builtinCastDecimalAsRealSig.vecEvalReal, columnBufferAllocator.get, hget, herr]

theorem vecEvalReal_int_get_err (b : baseBuiltinCastFunc Int) (pool : columnBufferAllocator Int)
    (sc : StatementContext) (input : Chunk) (result : Column Float64) (e : Error)
    (hget : pool.next = Except.error e) :
    builtinCastIntAsRealSig.vecEvalReal b pool sc input result =
      { err := some e, result := result, sc := sc, pool := pool } := by
  simp only [builtinCastIntAsRealSig.vecEvalReal, columnBufferAllocator.get, hget]

theorem vecEvalReal_int_child_err (b : baseBuiltinCastFunc Int)
    (pool : columnBufferAllocator Int)
    (sc : StatementContext) (input : Chunk) (result : Column Float64) (buf0 : Column Int)
    (e : Error)
    (hget : pool.next = Except.ok buf0) (herr : (b.arg0 sc input buf0).err = some e) :
    builtinCastIntAsRealSig.vecEvalReal b pool sc input result =
      { err := some e, result := result, sc := (b.arg0 sc input buf0).sc
        pool := columnBufferAllocator.put { pool with checkedOut := pool.checkedOut + 1 }
          (b.arg0 sc input buf0).col } := by
  simp only [builtinCastIntAsRealSig.vecEvalReal, columnBufferAllocator.get, hget, herr]

theorem vecEvalDuration_time_get_err (ConvertToDuration : Time → Except Error Duration)
    (RoundFrac : Duration → Int → Except Error Duration)
    (b : baseBuiltinCastFunc Time) (pool : columnBufferAllocator Time)
    (sc : StatementContext) (input : Chunk) (result : Column Int) (e : Error)
    (hget : pool.next = Except.error e) :
    builtinCastTimeAsDurationSig.vecEvalDuration ConvertToDuration RoundFrac b pool sc input
        result =
      { err := some e, result := result, sc := sc, pool := pool } := by
  simp only [builtinCastTimeAsDurationSig.vecEvalDuration, columnBufferAllocator.get, hget]

theorem vecEvalDuration_time_child_err (ConvertToDuration : Time → Except Error Duration)
    (RoundFrac : Duration → Int → Except Error Duration)
    (b : baseBuiltinCastFunc Time) (pool : columnBufferAllocator Time)
    (sc : StatementContext) (input : Chunk) (result : Column Int) (buf0 : Column Time)
    (e : Error)
    (hget : pool.next = Except.ok buf0) (herr : (b.arg0 sc input buf0).err = some e) :
    builtinCastTimeAsDurationSig.vecEvalDuration ConvertToDuration RoundFrac b pool sc input
        result =
      { err := some e, result := result, sc := (b.arg0 sc input buf0).sc
        pool := columnBufferAllocator.put { pool with checkedOut := pool.checkedOut + 1 }
          (b.arg0 sc input buf0).col } := by
  simp only [builtinCastTimeAsDurationSig.vecEvalDuration, columnBufferAllocator.get, hget, herr]

end Paths

/-! ## The loop of a buffered handler, started on the resized and merged destination -/

section Merged

variable {α β : Type} [Inhabited β]

theorem merged_frame (act : Bool → Bool → Nat → RowAct β) (result : Column β)
    (buf : Column α) (n k : Nat) (sc : StatementContext) :
    (actLoop act k 0 ((result.resize n false).MergeNulls buf, sc)).2.1.nullBitmap.length = n ∧
    (actLoop act k 0 ((result.resize n false).MergeNulls buf, sc)).2.1.data.length = n ∧
    (actLoop act k 0 ((result.resize n false).MergeNulls buf, sc)).2.2.OverflowAsWarning =
      sc.OverflowAsWarning := by
  obtain ⟨h1, h2, h3, _⟩ := actLoop_frame act k 0 ((result.resize n false).MergeNulls buf, sc)
  obtain ⟨m1, m2, _⟩ := resize_MergeNulls result buf n
  exact ⟨h1.trans m1, h2.trans m2, h3⟩

/-- The rows and the warnings after a loop over the first `k` rows that ended normally. -/
theorem merged_ok (act : Bool → Bool → Nat → RowAct β) (result : Column β)
    (buf : Column α) (n k : Nat) (hk : k ≤ n) (sc : StatementContext)
    (h : (actLoop act k 0 ((result.resize n false).MergeNulls buf, sc)).1 = none) :
    (∀ i, i < k →
      (act (buf.IsNull i) sc.OverflowAsWarning i).isFail = false ∧
      (actLoop act k 0 ((result.resize n false).MergeNulls buf, sc)).2.1.IsNull i =
        (buf.IsNull i || (act (buf.IsNull i) sc.OverflowAsWarning i).isNull) ∧
      (∀ v, act (buf.IsNull i) sc.OverflowAsWarning i = RowAct.store v →
        (actLoop act k 0 ((result.resize n false).MergeNulls buf, sc)).2.1.data[i]? = some v)) ∧
    (∀ i, k ≤ i → i < n →
      (actLoop act k 0 ((result.resize n false).MergeNulls buf, sc)).2.1.IsNull i =
        buf.IsNull i) ∧
    (actLoop act k 0 ((result.resize n false).MergeNulls buf, sc)).2.2.warnings =
      sc.warnings ++ (List.range' 0 k).filterMap
        (fun j => (act (buf.IsNull j) sc.OverflowAsWarning j).warning) := by
  obtain ⟨m1, m2, m3⟩ := resize_MergeNulls result buf n
  rcases hL : actLoop act k 0 ((result.resize n false).MergeNulls buf, sc) with ⟨e, s'⟩
  rw [hL] at h
  simp only at h
  subst h
  obtain ⟨a1, a2⟩ := actLoop_ok act k 0 _ s' (by simp only [m1]; omega)
    (by simp only [m2]; omega) hL
  have hfr := actLoop_frame act k 0 ((result.resize n false).MergeNulls buf, sc)
  rw [hL] at hfr
  refine ⟨?_, ?_, ?_⟩
  · intro i hi
    have := a1 i (Nat.zero_le _) (by omega)
    simp only [m3 i (by omega)] at this
    exact ⟨this.1, this.2.1, this.2.2.1⟩
  · intro i hi1 hi2
    have := (hfr.2.2.2 i (Or.inr (by omega))).1
    simp only at this
    rw [this, m3 i hi2]
  · simp only at a2
    rw [a2]
    congr 1
    apply List.filterMap_congr
    intro j hj
    have hj' := (List.mem_range'_1.mp hj).2
    rw [m3 j (by omega)]

/-- A loop that returned an error: the first failing row, and the state, which is the
one a normal run over the rows before it reaches. -/
theorem merged_err (act : Bool → Bool → Nat → RowAct β) (result : Column β)
    (buf : Column α) (n : Nat) (sc : StatementContext) (e : Error)
    (h : (actLoop act n 0 ((result.resize n false).MergeNulls buf, sc)).1 = some e) :
    ∃ f, f < n ∧ act (buf.IsNull f) sc.OverflowAsWarning f = RowAct.fail e ∧
      actLoop act f 0 ((result.resize n false).MergeNulls buf, sc) =
        (none, (actLoop act n 0 ((result.resize n false).MergeNulls buf, sc)).2) := by
  obtain ⟨_, _, m3⟩ := resize_MergeNulls result buf n
  rcases hL : actLoop act n 0 ((result.resize n false).MergeNulls buf, sc) with ⟨e', s'⟩
  rw [hL] at h
  simp only at h
  subst h
  obtain ⟨f, _, hf2, hf3, hf4⟩ := actLoop_err act n 0 _ s' e hL
  refine ⟨f, by omega, ?_, ?_⟩
  · simp only [m3 f (by omega)] at hf3
    exact hf3
  · simpa using hf4

/-- The loop over all `n` rows ends normally exactly when no row fails. -/
theorem merged_ok_iff (act : Bool → Bool → Nat → RowAct β) (result : Column β)
    (buf : Column α) (n : Nat) (sc : StatementContext) :
    (actLoop act n 0 ((result.resize n false).MergeNulls buf, sc)).1 = none ↔
      ∀ i, i < n → (act (buf.IsNull i) sc.OverflowAsWarning i).isFail = false := by
  obtain ⟨m1, m2, m3⟩ := resize_MergeNulls result buf n
  rw [actLoop_ok_iff act n 0 _ (by simp only [m1]; omega) (by simp only [m2]; omega)]
  constructor
  · intro h i hi
    have := h i (Nat.zero_le _) (by omega)
    simp only [m3 i hi] at this
    exact this
  · intro h i _ hi
    have := h i (by omega)
    simp only [m3 i (by omega)]
    exact this

end Merged

theorem Column.nullBitmap_ext {α β : Type} (c : Column α) (c' : Column β) (n : Nat)
    (h1 : c.nullBitmap.length = n) (h2 : c'.nullBitmap.length = n)
    (h : ∀ i, i < n → c.IsNull i = c'.IsNull i) : c.nullBitmap = c'.nullBitmap := by
  apply List.ext_getElem (h1.trans h2.symm)
  intro i hi hi'
  have := h i (by omega)
  simp only [Column.IsNull_eq, List.getElem?_eq_getElem hi, List.getElem?_eq_getElem hi',
    Option.getD_some] at this
  exact this

/-! ## Null propagation (C1) -/

theorem convAct_isNull {β : Type} (warn : Bool) (r : Except Error β) :
    (convAct warn r).isNull = true ↔
      warn = true ∧ ∃ e, r = Except.error e ∧ ErrOverflow.Equal e = true := by
  cases r with
  | ok v => simp [convAct, RowAct.isNull]
  | error e =>
    cases ho : ErrOverflow.Equal e <;> cases warn <;> simp [convAct, RowAct.isNull, ho]

theorem castIntAsDurationAct_isNull (NumberToDuration : Int → Int → Except Error Duration)
    (b : baseBuiltinCastFunc Int) (i64s : List Int) (isNull warn : Bool) (i : Nat) :
    (castIntAsDurationAct NumberToDuration b i64s isNull warn i).isNull = true ↔
      isNull = false ∧ warn = true ∧
        ∃ e, NumberToDuration (i64s.getD i 0) (int8 b.tpDecimal) = Except.error e ∧
          ErrOverflow.Equal e = true := by
  unfold castIntAsDurationAct
  cases isNull with
  | true => simp [RowAct.isNull]
  | false =>
    simp only [Bool.false_eq_true, if_false, true_and, convAct_isNull]
    cases NumberToDuration (i64s.getD i 0) (int8 b.tpDecimal) <;> simp [Except.map]

theorem castDecimalAsRealAct_isNull (ToFloat64 : MyDecimal → Except Error Float64)
    (b : baseBuiltinCastFunc MyDecimal) (d : List MyDecimal) (isNull warn : Bool) (i : Nat) :
    (castDecimalAsRealAct ToFloat64 b d isNull warn i).isNull = true ↔
      isNull = false ∧
      ((b.inUnion && HasUnsignedFlag b.tpFlag) && (d.getD i default).IsNegative) = false ∧
      warn = true ∧
        ∃ e, ToFloat64 (d.getD i default) = Except.error e ∧ ErrOverflow.Equal e = true := by
  unfold castDecimalAsRealAct
  cases isNull with
  | true => simp [RowAct.isNull]
  | false =>
    cases hc : ((b.inUnion && HasUnsignedFlag b.tpFlag) && (d.getD i default).IsNegative) with
    | true => simp [RowAct.isNull]
    | false => simp [convAct_isNull]

theorem castIntAsRealAct_isNull (b : baseBuiltinCastFunc Int) (i64s : List Int)
    (isNull : Bool) (i : Nat) : (castIntAsRealAct b i64s isNull i).isNull = false := by
  unfold castIntAsRealAct
  split
  · rfl
  · split
    · rfl
    · split <;> rfl

theorem castTimeAsDurationAct_isNull (ConvertToDuration : Time → Except Error Duration)
    (RoundFrac : Duration → Int → Except Error Duration)
    (b : baseBuiltinCastFunc Time) (arg0s : List Time) (isNull : Bool) (i : Nat) :
    (castTimeAsDurationAct ConvertToDuration RoundFrac b arg0s isNull i).isNull = false := by
  unfold castTimeAsDurationAct
  split
  · rfl
  · split
    · rfl
    · split <;> rfl

/-- C1 (null propagation).  On every batch on which a buffered handler returns success,
given that the child wrote one row per input row, for every row `i` of the batch:
* Int → Duration: the destination row is null iff the child's row is null, or the row is
  not null, the statement is in warning mode and `NumberToDuration` failed at the row with
  an overflow error;
* Decimal → Real: the destination row is null iff the child's row is null, or the row is
  not null and not clamped, the statement is in warning mode and `ToFloat64` failed at
  the row with an overflow error;
* Int → Real and Time → Duration: the destination's null bitmap is the child's. -/
theorem null_propagation :
    (∀ (NumberToDuration : Int → Int → Except Error Duration) (b : baseBuiltinCastFunc Int)
      (pool : columnBufferAllocator Int) (sc : StatementContext) (input : Chunk)
      (result buf0 : Column Int),
      pool.next = Except.ok buf0 →
      (b.arg0 sc input buf0).col.HasRows input.NumRows →
      (builtinCastIntAsDurationSig.vecEvalDuration NumberToDuration b pool sc input
        result).err = none →
      ∀ i, i < input.NumRows →
        ((builtinCastIntAsDurationSig.vecEvalDuration NumberToDuration b pool sc input
            result).result.IsNull i = true ↔
          (b.arg0 sc input buf0).col.IsNull i = true ∨
          ((b.arg0 sc input buf0).col.IsNull i = false ∧
            (b.arg0 sc input buf0).sc.OverflowAsWarning = true ∧
            ∃ e, NumberToDuration ((b.arg0 sc input buf0).col.data.getD i 0)
                (int8 b.tpDecimal) = Except.error e ∧ ErrOverflow.Equal e = true))) ∧
    (∀ (ToFloat64 : MyDecimal → Except Error Float64) (b : baseBuiltinCastFunc MyDecimal)
      (pool : columnBufferAllocator MyDecimal) (sc : StatementContext) (input : Chunk)
      (result : Column Float64) (buf0 : Column MyDecimal),
      pool.next = Except.ok buf0 →
      (b.arg0 sc input buf0).col.HasRows input.NumRows →
      (builtinCastDecimalAsRealSig.vecEvalReal ToFloat64 b pool sc input result).err = none →
      ∀ i, i < input.NumRows →
        ((builtinCastDecimalAsRealSig.vecEvalReal ToFloat64 b pool sc input
            result).result.IsNull i = true ↔
          (b.arg0 sc input buf0).col.IsNull i = true ∨
          ((b.arg0 sc input buf0).col.IsNull i = false ∧
            ((b.inUnion && HasUnsignedFlag b.tpFlag) &&
              ((b.arg0 sc input buf0).col.data.getD i default).IsNegative) = false ∧
            (b.arg0 sc input buf0).sc.OverflowAsWarning = true ∧
            ∃ e, ToFloat64 ((b.arg0 sc input buf0).col.data.getD i default) = Except.error e ∧
              ErrOverflow.Equal e = true))) ∧
    (∀ (b : baseBuiltinCastFunc Int) (pool : columnBufferAllocator Int)
      (sc : StatementContext) (input : Chunk) (result : Column Float64) (buf0 : Column Int),
      pool.next = Except.ok buf0 →
      (b.arg0 sc input buf0).col.HasRows input.NumRows →
      (builtinCastIntAsRealSig.vecEvalReal b pool sc input result).err = none →
      (builtinCastIntAsRealSig.vecEvalReal b pool sc input result).result.nullBitmap =
        (b.arg0 sc input buf0).col.nullBitmap) ∧
    (∀ (ConvertToDuration : Time → Except Error Duration)
      (RoundFrac : Duration → Int → Except Error Duration) (b : baseBuiltinCastFunc Time)
      (pool : columnBufferAllocator Time) (sc : StatementContext) (input : Chunk)
      (result : Column Int) (buf0 : Column Time),
      pool.next = Except.ok buf0 →
      (b.arg0 sc input buf0).col.HasRows input.NumRows →
      (builtinCastTimeAsDurationSig.vecEvalDuration ConvertToDuration RoundFrac b pool sc
        input result).err = none →
      (builtinCastTimeAsDurationSig.vecEvalDuration ConvertToDuration RoundFrac b pool sc
        input result).result.nullBitmap = (b.arg0 sc input buf0).col.nullBitmap) := by
  refine ⟨?_, ?_, ?_, ?_⟩
  · intro N b pool sc input result buf0 hget _ hok i hi
    cases herr : (b.arg0 sc input buf0).err with
    | some e => rw [vecEvalDuration_int_child_err N b pool sc input result buf0 e hget herr] at hok
                simp at hok
    | none =>
      rw [vecEvalDuration_int_ok N b pool sc input result buf0 hget herr] at hok ⊢
      simp only at hok ⊢
      obtain ⟨h1, _, _⟩ := merged_ok _ result (b.arg0 sc input buf0).col input.NumRows
        input.NumRows (le_refl _) (b.arg0 sc input buf0).sc hok
      rw [(h1 i hi).2.1, Bool.or_eq_true, castIntAsDurationAct_isNull]
  · intro F b pool sc input result buf0 hget _ hok i hi
    cases herr : (b.arg0 sc input buf0).err with
    | some e => rw [vecEvalReal_decimal_child_err F b pool sc input result buf0 e hget herr] at hok
                simp at hok
    | none =>
      rw [vecEvalReal_decimal_ok F b pool sc input result buf0 hget herr] at hok ⊢
      simp only at hok ⊢
      obtain ⟨h1, _, _⟩ := merged_ok _ result (b.arg0 sc input buf0).col input.NumRows
        input.NumRows (le_refl _) (b.arg0 sc input buf0).sc hok
      rw [(h1 i hi).2.1, Bool.or_eq_true, castDecimalAsRealAct_isNull]
  · intro b pool sc input result buf0 hget hrows hok
    cases herr : (b.arg0 sc input buf0).err with
    | some e => rw [vecEvalReal_int_child_err b pool sc input result buf0 e hget herr] at hok
                simp at hok
    | none =>
      rw [vecEvalReal_int_ok b pool sc input result buf0 hget herr] at hok ⊢
      simp only at hok ⊢
      obtain ⟨h1, _, _⟩ := merged_ok _ result (b.arg0 sc input buf0).col input.NumRows
        input.NumRows (le_refl _) (b.arg0 sc input buf0).sc hok
      obtain ⟨f1, _, _⟩ := merged_frame
        (fun isNull _ i => castIntAsRealAct b (b.arg0 sc input buf0).col.data isNull i)
        result (b.arg0 sc input buf0).col input.NumRows input.NumRows (b.arg0 sc input buf0).sc
      apply Column.nullBitmap_ext _ _ input.NumRows f1 hrows.1
      intro i hi
      rw [(h1 i hi).2.1, castIntAsRealAct_isNull, Bool.or_false]
  · intro C R b pool sc input result buf0 hget hrows hok
    cases herr : (b.arg0 sc input buf0).err with
    | some e => rw [vecEvalDuration_time_child_err C R b pool sc input result buf0 e hget herr] at hok
                simp at hok
    | none =>
      rw [vecEvalDuration_time_ok C R b pool sc input result buf0 hget herr] at hok ⊢
      simp only [hrows.2] at hok ⊢
      obtain ⟨h1, _, _⟩ := merged_ok _ result (b.arg0 sc input buf0).col input.NumRows
        input.NumRows (le_refl _) (b.arg0 sc input buf0).sc hok
      obtain ⟨f1, _, _⟩ := merged_frame
        (fun isNull _ i => castTimeAsDurationAct C R b (b.arg0 sc input buf0).col.data isNull i)
        result (b.arg0 sc input buf0).col input.NumRows input.NumRows (b.arg0 sc input buf0).sc
      apply Column.nullBitmap_ext _ _ input.NumRows f1 hrows.1
      intro i hi
      rw [(h1 i hi).2.1, castTimeAsDurationAct_isNull, Bool.or_false]

theorem null_propagation_witness :
    ((builtinCastIntAsDurationSig.vecEvalDuration exampleNumberToDuration exampleIntAsDuration
        (examplePool Int) warnCtx (exampleChunk 4) ⟨[], []⟩).result.IsNull 2 = true ↔
      (exampleIntAsDuration.arg0 warnCtx (exampleChunk 4) ⟨[], []⟩).col.IsNull 2 = true ∨
      ((exampleIntAsDuration.arg0 warnCtx (exampleChunk 4) ⟨[], []⟩).col.IsNull 2 = false ∧
        (exampleIntAsDuration.arg0 warnCtx (exampleChunk 4) ⟨[], []⟩).sc.OverflowAsWarning
          = true ∧
        ∃ e, exampleNumberToDuration
            ((exampleIntAsDuration.arg0 warnCtx (exampleChunk 4) ⟨[], []⟩).col.data.getD 2 0)
            (int8 exampleIntAsDuration.tpDecimal) = Except.error e ∧
          ErrOverflow.Equal e = true)) ∧
    ((builtinCastDecimalAsRealSig.vecEvalReal exampleToFloat64 exampleDecimalAsReal
        (examplePool MyDecimal) warnCtx (exampleChunk 4) ⟨[], []⟩).result.IsNull 3 = true ↔
      (exampleDecimalAsReal.arg0 warnCtx (exampleChunk 4) ⟨[], []⟩).col.IsNull 3 = true ∨
      ((exampleDecimalAsReal.arg0 warnCtx (exampleChunk 4) ⟨[], []⟩).col.IsNull 3 = false ∧
        ((exampleDecimalAsReal.inUnion && HasUnsignedFlag exampleDecimalAsReal.tpFlag) &&
          ((exampleDecimalAsReal.arg0 warnCtx (exampleChunk 4) ⟨[], []⟩).col.data.getD 3
            default).IsNegative) = false ∧
        (exampleDecimalAsReal.arg0 warnCtx (exampleChunk 4) ⟨[], []⟩).sc.OverflowAsWarning
          = true ∧
        ∃ e, exampleToFloat64
            ((exampleDecimalAsReal.arg0 warnCtx (exampleChunk 4) ⟨[], []⟩).col.data.getD 3
              default) = Except.error e ∧
          ErrOverflow.Equal e = true)) ∧
    (builtinCastIntAsRealSig.vecEvalReal exampleIntAsReal (examplePool Int) warnCtx
        (exampleChunk 4) ⟨[], []⟩).result.nullBitmap =
      (exampleIntAsReal.arg0 warnCtx (exampleChunk 4) ⟨[], []⟩).col.nullBitmap ∧
    (builtinCastTimeAsDurationSig.vecEvalDuration exampleConvertToDuration exampleRoundFrac
        exampleTimeAsDuration (examplePool Time) warnCtx (exampleChunk 2)
        ⟨[], []⟩).result.nullBitmap =
      (exampleTimeAsDuration.arg0 warnCtx (exampleChunk 2) ⟨[], []⟩).col.nullBitmap :=
  ⟨null_propagation.1 exampleNumberToDuration exampleIntAsDuration (examplePool Int) warnCtx
      (exampleChunk 4) ⟨[], []⟩ ⟨[], []⟩ rfl (by decide) (by decide) 2 (by decide),
    null_propagation.2.1 exampleToFloat64 exampleDecimalAsReal (examplePool MyDecimal) warnCtx
      (exampleChunk 4) ⟨[], []⟩ ⟨[], []⟩ rfl (by decide) (by decide) 3 (by decide),
    null_propagation.2.2.1 exampleIntAsReal (examplePool Int) warnCtx
      (exampleChunk 4) ⟨[], []⟩ ⟨[], []⟩ rfl (by decide) (by decide),
    null_propagation.2.2.2 exampleConvertToDuration exampleRoundFrac exampleTimeAsDuration
      (examplePool Time) warnCtx (exampleChunk 2) ⟨[], []⟩ ⟨[], []⟩ rfl (by decide) (by decide)⟩

/-! ## Int → Int (C2) -/

/-- C2 (Int → Int).  When the child evaluation succeeds the handler succeeds, and: if
the signature is UNION-sourced and the destination type is unsigned, every output value
is `max v 0` of the child's value `v` (so `-5` gives `0`, non-negative values are
unchanged); otherwise every output value is the child's value. -/
theorem castIntAsInt_values (b : baseBuiltinCastFunc Int) (sc : StatementContext)
    (input : Chunk) (result : Column Int)
    (hchild : (b.arg0 sc input result).err = none) :
    (builtinCastIntAsIntSig.vecEvalInt b sc input result).err = none ∧
    ((b.inUnion = true ∧ HasUnsignedFlag b.tpFlag = true) →
      (builtinCastIntAsIntSig.vecEvalInt b sc input result).col.data =
        (b.arg0 sc input result).col.data.map (fun v => max v 0)) ∧
    (¬ (b.inUnion = true ∧ HasUnsignedFlag b.tpFlag = true) →
      (builtinCastIntAsIntSig.vecEvalInt b sc input result).col.data =
        (b.arg0 sc input result).col.data) := by
  unfold builtinCastIntAsIntSig.vecEvalInt
  simp only [hchild]
  by_cases hc : b.inUnion = true ∧ HasUnsignedFlag b.tpFlag = true
  · have hc' : (b.inUnion && HasUnsignedFlag b.tpFlag) = true := by simp [hc.1, hc.2]
    simp only [hc', if_true]
    refine ⟨trivial, fun _ => ?_, fun h => absurd hc h⟩
    apply List.map_congr_left
    intro v _
    by_cases hv : v < 0
    · simp [hv, max_eq_right (le_of_lt hv)]
    · simp [hv, max_eq_left (not_lt.mp hv)]
  · have hc' : (b.inUnion && HasUnsignedFlag b.tpFlag) = false := by
      cases h1 : b.inUnion <;> cases h2 : HasUnsignedFlag b.tpFlag <;> simp_all
    simp only [hc', Bool.false_eq_true, if_false]
    exact ⟨trivial, fun h => absurd h hc, fun _ => trivial⟩

theorem castIntAsInt_values_witness :
    (builtinCastIntAsIntSig.vecEvalInt ⟨true, 32, 0, 0, constChild ⟨[false, false], [-5, 7]⟩⟩
      warnCtx (exampleChunk 2) ⟨[], []⟩).err = none ∧
    (builtinCastIntAsIntSig.vecEvalInt ⟨true, 32, 0, 0, constChild ⟨[false, false], [-5, 7]⟩⟩
      warnCtx (exampleChunk 2) ⟨[], []⟩).col.data = [0, 7] :=
  ⟨(castIntAsInt_values ⟨true, 32, 0, 0, constChild ⟨[false, false], [-5, 7]⟩⟩
      warnCtx (exampleChunk 2) ⟨[], []⟩ rfl).1,
    ((castIntAsInt_values ⟨true, 32, 0, 0, constChild ⟨[false, false], [-5, 7]⟩⟩
      warnCtx (exampleChunk 2) ⟨[], []⟩ rfl).2.1 ⟨rfl, by decide⟩).trans (by decide)⟩

/-! ## Float64: the conversion of an integer rounds to nearest -/

theorem highBit_spec (fuel x : Nat) (h0 : 0 < x) (h1 : x < 2 ^ fuel) :
    2 ^ highBit fuel x ≤ x ∧ x < 2 ^ (highBit fuel x + 1) ∧ highBit fuel x < fuel := by
  induction fuel with
  | zero => simp at h1; omega
  | succ k ih =>
    unfold highBit
    by_cases h : 2 ^ k ≤ x
    · rw [if_pos h]
      exact ⟨h, h1, Nat.lt_succ_self k⟩
    · rw [if_neg h]
      obtain ⟨a, b, c⟩ := ih (Nat.lt_of_not_le h)
      exact ⟨a, b, Nat.lt_succ_of_lt c⟩

/-- The quotient and the rounded quotient in the case of a magnitude of more than 53 bits. -/
theorem round_quotient (x e : Nat) (he : 52 < e) (hlo : 2 ^ e ≤ x) (hhi : x < 2 ^ (e + 1)) :
    2 ^ 52 ≤ x / 2 ^ (e - 52) ∧ x / 2 ^ (e - 52) < 2 ^ 53 := by
  have hs : e = (e - 52) + 52 := by omega
  have hpos : 0 < 2 ^ (e - 52) := Nat.pow_pos (by norm_num)
  constructor
  · rw [Nat.le_div_iff_mul_le hpos]
    calc 2 ^ 52 * 2 ^ (e - 52) = 2 ^ (52 + (e - 52)) := by rw [pow_add]
      _ = 2 ^ e := by congr 1; omega
      _ ≤ x := hlo
  · rw [Nat.div_lt_iff_lt_mul hpos]
    calc x < 2 ^ (e + 1) := hhi
      _ = 2 ^ (53 + (e - 52)) := by congr 1; omega
      _ = 2 ^ 53 * 2 ^ (e - 52) := by rw [pow_add]


theorem scaled_normal (s : Bool) (e f : Nat) (he : e ≠ 0) :
    Float64.scaled ⟨s, e, f⟩ =
      (if s then -1 else 1) * (((2 ^ 52 + f) * 2 ^ (e - 1) : Nat) : Int) := by
  unfold Float64.scaled
  simp only [he, if_false]
  cases s <;> simp

/-- The significand and the exponent of the float built for a non-zero magnitude: a
normal float whose value is `roundMagnitude x`. -/
theorem float64OfMagnitude_spec (neg : Bool) (x : Nat) (h0 : x ≠ 0) (hx : x < 2 ^ 64) :
    ∃ e f, float64OfMagnitude neg x = ⟨neg, e, f⟩ ∧ e ≠ 0 ∧ e < 2047 ∧ f < 2 ^ 52 ∧
      (2 ^ 52 + f) * 2 ^ (e - 1) = roundMagnitude x * 2 ^ 1074 := by
  obtain ⟨hlo, hhi, hfuel⟩ := highBit_spec 64 x (Nat.pos_of_ne_zero h0) hx
  unfold float64OfMagnitude roundMagnitude
  rw [if_neg h0]
  simp only
  generalize highBit 64 x = e at hlo hhi hfuel
  have h53 : (2 : ℕ) ^ 53 = 2 ^ 52 + 2 ^ 52 := by norm_num
  by_cases he : e ≤ 52
  · rw [if_pos he, if_pos he]
    have h1 : 2 ^ 52 ≤ x * 2 ^ (52 - e) := by
      calc 2 ^ 52 = 2 ^ (e + (52 - e)) := by congr 1; omega
        _ = 2 ^ e * 2 ^ (52 - e) := pow_add 2 e (52 - e)
        _ ≤ x * 2 ^ (52 - e) := Nat.mul_le_mul_right _ hlo
    have h2 : x * 2 ^ (52 - e) < 2 ^ 52 + 2 ^ 52 := by
      calc x * 2 ^ (52 - e) < 2 ^ (e + 1) * 2 ^ (52 - e) :=
            Nat.mul_lt_mul_of_pos_right hhi (Nat.pow_pos (by norm_num))
        _ = 2 ^ (e + 1 + (52 - e)) := (pow_add 2 (e + 1) (52 - e)).symm
        _ = 2 ^ 53 := by congr 1; omega
        _ = 2 ^ 52 + 2 ^ 52 := h53
    have h3 : x * 2 ^ (52 - e) - 2 ^ 52 < 2 ^ 52 := Nat.sub_lt_left_of_lt_add h1 h2
    have h4 : (2 ^ 52 + (x * 2 ^ (52 - e) - 2 ^ 52)) * 2 ^ (e + 1023 - 1) = x * 2 ^ 1074 := by
      rw [Nat.add_sub_of_le h1, mul_assoc, ← pow_add]
      have hexp : 52 - e + (e + 1023 - 1) = 1074 := by omega
      rw [hexp]
    exact ⟨e + 1023, x * 2 ^ (52 - e) - 2 ^ 52, rfl, by omega, by omega, h3, h4⟩
  · rw [if_neg he, if_neg he]
    have he' : 52 < e := Nat.lt_of_not_le he
    obtain ⟨hq1, hq2⟩ := round_quotient x e he' hlo hhi
    generalize hq' : (if 2 ^ (e - 52 - 1) < x % 2 ^ (e - 52) ∨
        (x % 2 ^ (e - 52) = 2 ^ (e - 52 - 1) ∧ x / 2 ^ (e - 52) % 2 = 1)
        then x / 2 ^ (e - 52) + 1 else x / 2 ^ (e - 52)) = q'
    have hq'1 : 2 ^ 52 ≤ q' := by
      rw [← hq']
      split
      · exact Nat.le_succ_of_le hq1
      · exact hq1
    have hq'2 : q' ≤ 2 ^ 53 := by
      rw [← hq']
      split
      · exact hq2
      · exact Nat.le_of_lt hq2
    by_cases hc : q' = 2 ^ 53
    · rw [if_pos hc]
      have h4 : (2 ^ 52 + 0) * 2 ^ (e + 1 + 1023 - 1) = q' * 2 ^ (e - 52) * 2 ^ 1074 := by
        rw [hc, Nat.add_zero, ← pow_add, ← pow_add, ← pow_add]
        have hexp : 52 + (e + 1 + 1023 - 1) = 53 + (e - 52) + 1074 := by omega
        rw [hexp]
      exact ⟨e + 1 + 1023, 0, rfl, by omega, by omega, Nat.pow_pos (by norm_num), h4⟩
    · rw [if_neg hc]
      have h3 : q' - 2 ^ 52 < 2 ^ 52 :=
        Nat.sub_lt_left_of_lt_add hq'1 (h53 ▸ Nat.lt_of_le_of_ne hq'2 hc)
      have h4 : (2 ^ 52 + (q' - 2 ^ 52)) * 2 ^ (e + 1023 - 1) = q' * 2 ^ (e - 52) * 2 ^ 1074 := by
        rw [Nat.add_sub_of_le hq'1, mul_assoc, ← pow_add]
        have hexp : e + 1023 - 1 = e - 52 + 1074 := by omega
        rw [hexp]
      exact ⟨e + 1023, q' - 2 ^ 52, rfl, by omega, by omega, h3, h4⟩

theorem float64OfMagnitude_scaled (neg : Bool) (x : Nat) (hx : x < 2 ^ 64) :
    (float64OfMagnitude neg x).scaled =
      (if neg then -1 else 1) * ((roundMagnitude x * 2 ^ 1074 : Nat) : Int) ∧
    (float64OfMagnitude neg x).IsFinite := by
  by_cases h0 : x = 0
  · subst h0
    have hz : float64OfMagnitude neg 0 = Float64.zero := by simp [float64OfMagnitude]
    have hr : roundMagnitude 0 = 0 := by simp [roundMagnitude, highBit]
    rw [hz, hr, Nat.zero_mul]
    constructor
    · simp [Float64.scaled, Float64.zero]
    · simp [Float64.IsFinite, Float64.zero]
  · obtain ⟨e, f, hf, he0, he1, hf1, hval⟩ := float64OfMagnitude_spec neg x h0 hx
    rw [hf]
    exact ⟨by rw [scaled_normal neg e f he0, hval], he1, hf1⟩


/-- On a grid of step `T`, the multiple chosen by rounding the remainder is at least as
near as any other multiple. -/
theorem grid_nearest (T q r q' K : Int) (hr0 : 0 ≤ r) (hrT : r < T)
    (hq' : (q' = q ∧ 2 * r ≤ T) ∨ (q' = q + 1 ∧ T ≤ 2 * r)) :
    |q' * T - (q * T + r)| ≤ |K * T - (q * T + r)| := by
  have hT : 0 < T := lt_of_le_of_lt hr0 hrT
  have hK : K ≤ q ∨ q + 1 ≤ K := by omega
  have hlow : K ≤ q → r ≤ |K * T - (q * T + r)| := by
    intro h
    have : K * T ≤ q * T := mul_le_mul_of_nonneg_right h (le_of_lt hT)
    rw [abs_sub_comm]
    exact le_trans (by linarith) (le_abs_self _)
  have hhigh : q + 1 ≤ K → T - r ≤ |K * T - (q * T + r)| := by
    intro h
    have : (q + 1) * T ≤ K * T := mul_le_mul_of_nonneg_right h (le_of_lt hT)
    exact le_trans (by linarith) (le_abs_self _)
  rcases hq' with ⟨h1, h2⟩ | ⟨h1, h2⟩
  · have ha : |q' * T - (q * T + r)| = r := by
      rw [h1, show q * T - (q * T + r) = -r by ring, abs_neg, abs_of_nonneg hr0]
    rw [ha]
    rcases hK with h | h
    · exact hlow h
    · exact le_trans (by linarith) (hhigh h)
  · have ha : |q' * T - (q * T + r)| = T - r := by
      rw [h1, show (q + 1) * T - (q * T + r) = T - r by ring, abs_of_nonneg (by linarith)]
    rw [ha]
    rcases hK with h | h
    · exact le_trans (by linarith) (hlow h)
    · exact hhigh h


/-- A number of magnitude at most `(2 ^ 53 - 1) * H` is at least `H` away from any number
that is `2 ^ 53 * H` or more, hence no nearer than the rounded multiple of `2 * H`. -/
theorem far_nearest (H q r q' Y : Int) (hr0 : 0 ≤ r) (hq : 2 ^ 52 ≤ q)
    (hq' : (q' = q ∧ r ≤ H) ∨ (q' = q + 1 ∧ H ≤ r ∧ r < 2 * H))
    (hY : |Y| ≤ (2 ^ 53 - 1) * H) :
    |q' * (2 * H) - (q * (2 * H) + r)| ≤ |Y - (q * (2 * H) + r)| := by
  have hH : 0 ≤ H := by
    rcases hq' with ⟨_, h⟩ | ⟨_, h1, h2⟩
    · exact le_trans hr0 h
    · linarith
  have hlhs : |q' * (2 * H) - (q * (2 * H) + r)| ≤ H := by
    rcases hq' with ⟨h1, h2⟩ | ⟨h1, h2, h3⟩
    · rw [h1, show q * (2 * H) - (q * (2 * H) + r) = -r by ring, abs_neg, abs_of_nonneg hr0]
      exact h2
    · rw [h1, show (q + 1) * (2 * H) - (q * (2 * H) + r) = 2 * H - r by ring,
        abs_of_nonneg (by linarith)]
      linarith
  have hqH : 2 ^ 52 * (2 * H) ≤ q * (2 * H) :=
    mul_le_mul_of_nonneg_right hq (by linarith)
  have hrhs : H ≤ |Y - (q * (2 * H) + r)| := by
    rw [abs_sub_comm]
    have h1 : Y ≤ |Y| := le_abs_self Y
    have h2 : q * (2 * H) + r - Y ≤ |q * (2 * H) + r - Y| := le_abs_self _
    have h3 : (2 : Int) ^ 52 * (2 * H) = 2 ^ 53 * H := by ring
    linarith
  exact le_trans hlhs hrhs

/-- The integer significand and the exponent of a finite float. -/
theorem scaled_form (y : Float64) (hy : y.IsFinite) :
    ∃ m E : Nat, m < 2 ^ 53 ∧
      (y.scaled = ((m * 2 ^ E : Nat) : Int) ∨ y.scaled = -((m * 2 ^ E : Nat) : Int)) := by
  obtain ⟨_, hf⟩ := hy
  have h53 : (2 : ℕ) ^ 53 = 2 ^ 52 + 2 ^ 52 := by norm_num
  refine ⟨if y.exp = 0 then y.frac else 2 ^ 52 + y.frac, if y.exp = 0 then 0 else y.exp - 1,
    ?_, ?_⟩
  · split
    · rw [h53]; exact Nat.lt_add_left _ hf
    · rw [h53]; exact Nat.add_lt_add_left hf _
  · unfold Float64.scaled
    cases y.sign
    · left
      simp only [Bool.false_eq_true, if_false]
      split <;> push_cast <;> rfl
    · right
      simp only [if_true]
      split <;> push_cast <;> rfl


/-- Round to nearest: no finite float is nearer to `x` than the float built for `x`.
Both sides are scaled by `2 ^ 1074`. -/
theorem roundMagnitude_nearest (x : Nat) (hx : x < 2 ^ 64) (y : Float64) (hy : y.IsFinite) :
    |((roundMagnitude x * 2 ^ 1074 : Nat) : Int) - ((x * 2 ^ 1074 : Nat) : Int)| ≤
      |y.scaled - ((x * 2 ^ 1074 : Nat) : Int)| := by
  by_cases h0 : x = 0
  · subst h0
    have hr : roundMagnitude 0 = 0 := by simp [roundMagnitude, highBit]
    rw [hr, sub_self, abs_zero]
    exact abs_nonneg _
  obtain ⟨hlo, hhi, _⟩ := highBit_spec 64 x (Nat.pos_of_ne_zero h0) hx
  unfold roundMagnitude
  simp only
  generalize highBit 64 x = e at hlo hhi
  by_cases he : e ≤ 52
  · rw [if_pos he, sub_self, abs_zero]
    exact abs_nonneg _
  rw [if_neg he]
  obtain ⟨P, hP⟩ : ∃ P : ℕ, P = 2 ^ 1074 := ⟨_, rfl⟩
  rw [← hP]
  have hPpos : 0 < P := by rw [hP]; positivity
  have he' : 52 < e := Nat.lt_of_not_le he
  obtain ⟨hq1, _⟩ := round_quotient x e he' hlo hhi
  obtain ⟨s, hs⟩ : ∃ s, e - 52 = s + 1 := ⟨e - 52 - 1, by omega⟩
  rw [hs] at hq1 ⊢
  simp only [Nat.add_sub_cancel]
  have hdecomp : x = x / 2 ^ (s + 1) * 2 ^ (s + 1) + x % 2 ^ (s + 1) :=
    (Nat.div_add_mod' x (2 ^ (s + 1))).symm
  have hrlt : x % 2 ^ (s + 1) < 2 ^ (s + 1) := Nat.mod_lt _ (Nat.pow_pos (by norm_num))
  generalize x / 2 ^ (s + 1) = q at hq1 hdecomp ⊢
  generalize x % 2 ^ (s + 1) = r at hdecomp hrlt ⊢
  have hpow : (2 : ℕ) ^ (s + 1) = 2 * 2 ^ s := by rw [pow_succ, mul_comm]
  rw [hpow] at hdecomp hrlt ⊢
  generalize hq' : (if 2 ^ s < r ∨ (r = 2 ^ s ∧ q % 2 = 1) then q + 1 else q) = q'
  have hround : (q' = q ∧ r ≤ 2 ^ s) ∨ (q' = q + 1 ∧ 2 ^ s ≤ r) := by
    rw [← hq']
    split
    · rename_i hc
      right
      refine ⟨rfl, ?_⟩
      rcases hc with hc | hc
      · exact Nat.le_of_lt hc
      · exact Nat.le_of_eq hc.1.symm
    · rename_i hc
      left
      refine ⟨rfl, ?_⟩
      exact Nat.le_of_not_lt (fun h => hc (Or.inl h))
  -- everything over the integers, with `H = 2 ^ s * P`
  obtain ⟨H, hH⟩ : ∃ H : Int, H = ((2 ^ s * P : Nat) : Int) := ⟨_, rfl⟩
  obtain ⟨r', hr'⟩ : ∃ r' : Int, r' = ((r * P : Nat) : Int) := ⟨_, rfl⟩
  have hX : ((x * P : Nat) : Int) = (q : Int) * (2 * H) + r' := by
    rw [hH, hr', hdecomp]
    push_cast
    ring
  have hR : ((q' * (2 * 2 ^ s) * P : Nat) : Int) = (q' : Int) * (2 * H) := by
    rw [hH]
    push_cast
    ring
  have hr'0 : 0 ≤ r' := by rw [hr']; exact Int.natCast_nonneg _
  have hr'lt : r' < 2 * H := by
    rw [hr', hH]
    have : r * P < 2 * (2 ^ s * P) := by
      rw [← mul_assoc]
      exact Nat.mul_lt_mul_of_pos_right hrlt hPpos
    exact_mod_cast this
  have hround' : ((q' : Int) = q ∧ r' ≤ H) ∨ ((q' : Int) = q + 1 ∧ H ≤ r') := by
    rcases hround with ⟨h1, h2⟩ | ⟨h1, h2⟩
    · left
      refine ⟨by rw [h1], ?_⟩
      rw [hr', hH]
      exact_mod_cast Nat.mul_le_mul_right _ h2
    · right
      refine ⟨by rw [h1]; push_cast; rfl, ?_⟩
      rw [hr', hH]
      exact_mod_cast Nat.mul_le_mul_right _ h2
  rw [hX, hR]
  obtain ⟨m, E, hm, hY⟩ := scaled_form y hy
  by_cases hE : s + 1 + 1074 ≤ E
  · -- the float is a multiple of the step `2 * H`
    have hmul : ((m * 2 ^ E : Nat) : Int) = ((m * 2 ^ (E - (s + 1 + 1074)) : Nat) : Int) * (2 * H) := by
      rw [hH]
      have h2E : (2 : ℕ) ^ E = 2 ^ (E - (s + 1 + 1074)) * (2 * (2 ^ s * P)) := by
        have h1 : (2 : ℕ) * (2 ^ s * P) = 2 ^ (s + 1 + 1074) := by
          rw [hP, pow_add, pow_succ]; ring
        have h2 : E = E - (s + 1 + 1074) + (s + 1 + 1074) := by omega
        rw [h1, ← pow_add, ← h2]
      rw [h2E]
      push_cast
      ring
    have hgrid : ∀ K : Int, |(q' : Int) * (2 * H) - ((q : Int) * (2 * H) + r')| ≤
        |K * (2 * H) - ((q : Int) * (2 * H) + r')| := by
      intro K
      apply grid_nearest (2 * H) q r' q' K hr'0 hr'lt
      rcases hround' with ⟨h1, h2⟩ | ⟨h1, h2⟩
      · left; exact ⟨h1, by linarith⟩
      · right; exact ⟨h1, by linarith⟩
    rcases hY with hY | hY
    · rw [hY, hmul]
      exact hgrid _
    · rw [hY, hmul, ← neg_mul]
      exact hgrid _
  · -- the float is too small to come near
    have hEle : E ≤ s + 1074 := by omega
    have habs : |y.scaled| ≤ (2 ^ 53 - 1) * H := by
      have h1 : m * 2 ^ E ≤ (2 ^ 53 - 1) * (2 ^ s * P) := by
        have hpE : (2 : ℕ) ^ E ≤ 2 ^ s * P := by
          rw [hP, ← pow_add]
          exact Nat.pow_le_pow_right (by norm_num) hEle
        exact Nat.mul_le_mul (Nat.le_sub_one_of_lt hm) hpE
      have h2 : ((m * 2 ^ E : Nat) : Int) ≤ (2 ^ 53 - 1) * H := by
        rw [hH]
        have : (((2 ^ 53 - 1) * (2 ^ s * P) : Nat) : Int) =
            (2 ^ 53 - 1) * ((2 ^ s * P : Nat) : Int) := by
          push_cast
          rfl
        rw [← this]
        exact_mod_cast h1
      rcases hY with hY | hY
      · rw [hY, abs_of_nonneg (Int.natCast_nonneg _)]
        exact h2
      · rw [hY, abs_neg, abs_of_nonneg (Int.natCast_nonneg _)]
        exact h2
    apply far_nearest H q r' q' y.scaled hr'0 (by exact_mod_cast hq1) _ habs
    rcases hround' with ⟨h1, h2⟩ | ⟨h1, h2⟩
    · left; exact ⟨h1, h2⟩
    · right; exact ⟨h1, h2, hr'lt⟩


/-- Round to nearest, on the values of the floats: the float built for the magnitude
`x < 2 ^ 64` is finite, and no finite float is nearer to `x`. -/
theorem float64OfMagnitude_nearest (x : Nat) (hx : x < 2 ^ 64) :
    (float64OfMagnitude false x).IsFinite ∧
    ∀ y : Float64, y.IsFinite →
      |(float64OfMagnitude false x).toRat - (x : ℚ)| ≤ |y.toRat - (x : ℚ)| := by
  obtain ⟨hsc, hfin⟩ := float64OfMagnitude_scaled false x hx
  refine ⟨hfin, ?_⟩
  intro y hy
  have hnear := roundMagnitude_nearest x hx y hy
  rw [if_neg (by simp), one_mul] at hsc
  rw [← hsc] at hnear
  obtain ⟨P, hP⟩ : ∃ P : ℕ, P = 2 ^ 1074 := ⟨_, rfl⟩
  have hPpos : 0 < P := by rw [hP]; positivity
  have hPq : ((2 : ℚ) ^ 1074) = (P : ℚ) := by rw [hP, Nat.cast_pow, Nat.cast_ofNat]
  rw [← hP] at hnear
  have hPq0 : (0 : ℚ) < (P : ℚ) := by exact_mod_cast hPpos
  have key : ∀ f : Float64, f.toRat - (x : ℚ) =
      (((f.scaled - ((x * P : Nat) : Int) : Int) : ℚ)) / (P : ℚ) := by
    intro f
    unfold Float64.toRat
    rw [hPq]
    push_cast
    field_simp
    ring
  rw [key, key, abs_div, abs_div]
  apply div_le_div_of_nonneg_right _ (abs_nonneg _)
  exact_mod_cast hnear

/-! ## Int → Real (C3, C4) -/

theorem castIntAsRealAct_eq (b : baseBuiltinCastFunc Int) (i64s : List Int) (i : Nat) :
    castIntAsRealAct b i64s false i = RowAct.store (castIntAsRealValue b (i64s.getD i 0)) := by
  unfold castIntAsRealAct castIntAsRealValue
  simp only [Bool.false_eq_true, if_false]
  split
  · rfl
  · split <;> rfl

theorem castIntAsRealAct_isFail (b : baseBuiltinCastFunc Int) (i64s : List Int)
    (isNull : Bool) (i : Nat) : (castIntAsRealAct b i64s isNull i).isFail = false := by
  unfold castIntAsRealAct
  split
  · rfl
  · split
    · rfl
    · split <;> rfl

/-- Int → Real has no failing row: once the child has succeeded the handler succeeds, a
non-null row of the child is non-null in the destination and holds the converted
value. -/
theorem castIntAsReal_rows (b : baseBuiltinCastFunc Int) (pool : columnBufferAllocator Int)
    (sc : StatementContext) (input : Chunk) (result : Column Float64) (buf0 : Column Int)
    (hget : pool.next = Except.ok buf0) (herr : (b.arg0 sc input buf0).err = none) :
    (builtinCastIntAsRealSig.vecEvalReal b pool sc input result).err = none ∧
    ∀ i, i < input.NumRows → (b.arg0 sc input buf0).col.IsNull i = false →
      (builtinCastIntAsRealSig.vecEvalReal b pool sc input result).result.IsNull i = false ∧
      (builtinCastIntAsRealSig.vecEvalReal b pool sc input result).result.data[i]? =
        some (castIntAsRealValue b ((b.arg0 sc input buf0).col.data.getD i 0)) := by
  rw [vecEvalReal_int_ok b pool sc input result buf0 hget herr]
  simp only
  have hok := (merged_ok_iff
    (fun isNull _ i => castIntAsRealAct b (b.arg0 sc input buf0).col.data isNull i)
    result (b.arg0 sc input buf0).col input.NumRows (b.arg0 sc input buf0).sc).mpr
    (fun i _ => castIntAsRealAct_isFail b _ _ i)
  refine ⟨hok, ?_⟩
  intro i hi hnull
  obtain ⟨h1, _, _⟩ := merged_ok _ result (b.arg0 sc input buf0).col input.NumRows
    input.NumRows (le_refl _) (b.arg0 sc input buf0).sc hok
  obtain ⟨_, h2, h3⟩ := h1 i hi
  constructor
  · rw [h2, castIntAsRealAct_isNull, hnull]
    rfl
  · apply h3
    rw [hnull, castIntAsRealAct_eq]

theorem float64OfMagnitude_sign (neg : Bool) (x : Nat) :
    (float64OfMagnitude neg x).sign = (neg && decide (x ≠ 0)) := by
  unfold float64OfMagnitude
  by_cases h0 : x = 0
  · simp [h0, Float64.zero]
  · rw [if_neg h0]
    have hne : (neg && decide (x ≠ 0)) = neg := by simp [h0]
    have hite : ∀ (c : Prop) [Decidable c] (a b : Float64),
        a.sign = neg → b.sign = neg → (if c then a else b).sign = neg := by
      intro c _ a b ha hb
      split <;> assumption
    rw [hne]
    exact hite _ _ _ rfl (hite _ _ _ rfl rfl)

theorem uint64_lt (v : Int) : uint64 v < 2 ^ 64 := by
  unfold uint64
  have h : v % 2 ^ 64 < 2 ^ 64 := Int.emod_lt_of_pos v (by norm_num)
  have h0 : 0 ≤ v % 2 ^ 64 := Int.emod_nonneg v (by norm_num)
  omega

theorem uint64_cast (v : Int) : ((uint64 v : Nat) : Int) = v % 2 ^ 64 := by
  unfold uint64
  exact Int.toNat_of_nonneg (Int.emod_nonneg v (by norm_num))

/-- C3 (Int → Real, unsigned reinterpretation).  For every non-null row holding `v` of a
batch on which the child succeeded, if the source type or the destination type carries
the unsigned flag and it is not the case that the signature is UNION-sourced and `v < 0`:
the row holds `float64(uint64(v))`, where `uint64(v) = v mod 2 ^ 64`; that float is
finite and no finite float is nearer to `v mod 2 ^ 64`; for `v < 0` it is not
`float64(v)`.  In particular `uint64(-1) = 18446744073709551615` is converted to the
float `2 ^ 64 = 18446744073709551616` (sign 0, exponent field 1087, fraction 0), printed
`1.8446744073709552e19`, while `float64(-1)` is `-1.0` (sign 1, exponent field 1023,
fraction 0). -/
theorem castIntAsReal_unsigned (b : baseBuiltinCastFunc Int)
    (pool : columnBufferAllocator Int) (sc : StatementContext) (input : Chunk)
    (result : Column Float64) (buf0 : Column Int) (i : Nat)
    (hget : pool.next = Except.ok buf0) (herr : (b.arg0 sc input buf0).err = none)
    (hrows : (b.arg0 sc input buf0).col.HasRows input.NumRows)
    (hi : i < input.NumRows) (hnull : (b.arg0 sc input buf0).col.IsNull i = false)
    (hflag : HasUnsignedFlag b.argFlag = true ∨ HasUnsignedFlag b.tpFlag = true)
    (hnot : ¬ (b.inUnion = true ∧ (b.arg0 sc input buf0).col.data.getD i 0 < 0)) :
    (builtinCastIntAsRealSig.vecEvalReal b pool sc input result).result.data[i]? =
      some (float64OfUint64 (uint64 ((b.arg0 sc input buf0).col.data.getD i 0))) ∧
    ((uint64 ((b.arg0 sc input buf0).col.data.getD i 0) : Nat) : Int) =
      (b.arg0 sc input buf0).col.data.getD i 0 % 2 ^ 64 ∧
    (float64OfUint64 (uint64 ((b.arg0 sc input buf0).col.data.getD i 0))).IsFinite ∧
    (∀ y : Float64, y.IsFinite →
      |(float64OfUint64 (uint64 ((b.arg0 sc input buf0).col.data.getD i 0))).toRat
          - (uint64 ((b.arg0 sc input buf0).col.data.getD i 0) : ℚ)| ≤
        |y.toRat - (uint64 ((b.arg0 sc input buf0).col.data.getD i 0) : ℚ)|) ∧
    ((b.arg0 sc input buf0).col.data.getD i 0 < 0 →
      float64OfUint64 (uint64 ((b.arg0 sc input buf0).col.data.getD i 0)) ≠
        float64OfInt64 ((b.arg0 sc input buf0).col.data.getD i 0)) ∧
    (uint64 (-1) = 18446744073709551615 ∧
      float64OfUint64 (uint64 (-1)) = ⟨false, 1087, 0⟩ ∧
      (⟨false, 1087, 0⟩ : Float64).toRat = 18446744073709551616 ∧
      float64OfInt64 (-1) = ⟨true, 1023, 0⟩ ∧
      (⟨true, 1023, 0⟩ : Float64).toRat = -1) := by
  have _ := hrows
  obtain ⟨_, h2⟩ := castIntAsReal_rows b pool sc input result buf0 hget herr
  obtain ⟨_, h4⟩ := h2 i hi hnull
  rw [h4]
  generalize (b.arg0 sc input buf0).col.data.getD i 0 = v at hnot ⊢
  obtain ⟨hfin, hnear⟩ := float64OfMagnitude_nearest (uint64 v) (uint64_lt v)
  refine ⟨?_, uint64_cast v, hfin, hnear, ?_, ?_⟩
  · congr 1
    unfold castIntAsRealValue
    have h1 : (!HasUnsignedFlag b.tpFlag && !HasUnsignedFlag b.argFlag) = false := by
      rcases hflag with h | h <;> simp [h]
    have h2 : (b.inUnion && decide (v < 0)) = false := by
      cases hu : b.inUnion with
      | false => rfl
      | true =>
        have : ¬ v < 0 := fun hv => hnot ⟨hu, hv⟩
        simp [this]
    rw [h1, h2]
    rfl
  · intro hv hEq
    have hs := congrArg Float64.sign hEq
    unfold float64OfUint64 float64OfInt64 at hs
    rw [float64OfMagnitude_sign, float64OfMagnitude_sign] at hs
    have hne : v.natAbs ≠ 0 := by omega
    simp [hv, hne] at hs
  · refine ⟨by decide, by decide, ?_, by decide, ?_⟩
    · have h : (⟨false, 1087, 0⟩ : Float64).scaled = 2 ^ 64 * 2 ^ 1074 := by
        unfold Float64.scaled
        simp only [Nat.reduceEqDiff, if_false, Bool.false_eq_true, Nat.cast_zero, add_zero]
        rw [← pow_add, ← pow_add]
      unfold Float64.toRat
      rw [h, Int.cast_mul, Int.cast_pow, Int.cast_pow, Int.cast_ofNat, mul_div_assoc,
        div_self (by positivity)]
      norm_num
    · have h : (⟨true, 1023, 0⟩ : Float64).scaled = -(2 ^ 1074) := by
        unfold Float64.scaled
        simp only [Nat.reduceEqDiff, if_false, if_true, Nat.cast_zero, add_zero]
        rw [← pow_add]
      unfold Float64.toRat
      rw [h, Int.cast_neg, Int.cast_pow, Int.cast_ofNat, neg_div, div_self (by positivity)]

theorem castIntAsReal_unsigned_witness :
    (builtinCastIntAsRealSig.vecEvalReal exampleIntAsReal (examplePool Int) warnCtx
        (exampleChunk 4) ⟨[], []⟩).result.data[0]? =
      some (float64OfUint64 (uint64
        ((exampleIntAsReal.arg0 warnCtx (exampleChunk 4) ⟨[], []⟩).col.data.getD 0 0))) ∧
    (builtinCastIntAsRealSig.vecEvalReal exampleIntAsReal (examplePool Int) warnCtx
        (exampleChunk 4) ⟨[], []⟩).result.data[0]? = some ⟨false, 1087, 0⟩ :=
  ⟨(castIntAsReal_unsigned exampleIntAsReal (examplePool Int) warnCtx (exampleChunk 4)
      ⟨[], []⟩ ⟨[], []⟩ 0 rfl rfl (by decide) (by decide) (by decide) (Or.inl (by decide))
      (by decide)).1,
    ((castIntAsReal_unsigned exampleIntAsReal (examplePool Int) warnCtx (exampleChunk 4)
      ⟨[], []⟩ ⟨[], []⟩ 0 rfl rfl (by decide) (by decide) (by decide) (Or.inl (by decide))
      (by decide)).1).trans (by decide)⟩

/-- C4, the claim as stated fails: UNION-sourced, neither the source nor the destination
unsigned, a non-null row holding `-5`.  The handler succeeds and stores `float64(-5)`
(sign bit set, `1.25 * 2 ^ 2`), not `0`. -/
theorem castIntAsReal_union_signed_counterexample :
    (builtinCastIntAsRealSig.vecEvalReal ⟨true, 0, 0, 0, constChild ⟨[false], [-5]⟩⟩
      (examplePool Int) warnCtx (exampleChunk 1) ⟨[], []⟩).err = none ∧
    (builtinCastIntAsRealSig.vecEvalReal ⟨true, 0, 0, 0, constChild ⟨[false], [-5]⟩⟩
      (examplePool Int) warnCtx (exampleChunk 1) ⟨[], []⟩).result
      = ⟨[false], [⟨true, 1025, 1125899906842624⟩]⟩ ∧
    (builtinCastIntAsRealSig.vecEvalReal ⟨true, 0, 0, 0, constChild ⟨[false], [-5]⟩⟩
      (examplePool Int) warnCtx (exampleChunk 1) ⟨[], []⟩).result.value 0 ≠ Float64.zero := by
  decide

/-- C4, amended.  Int → Real, for every non-null row holding `v` of a batch on which the
child succeeded, when the signature is UNION-sourced and `v` is negative: if the source
type or the destination type carries the unsigned flag the row is not null and holds
`0`; if neither does, it holds `float64(v)`. -/
theorem castIntAsReal_union_negative (b : baseBuiltinCastFunc Int)
    (pool : columnBufferAllocator Int) (sc : StatementContext) (input : Chunk)
    (result : Column Float64) (buf0 : Column Int) (i : Nat)
    (hget : pool.next = Except.ok buf0) (herr : (b.arg0 sc input buf0).err = none)
    (hrows : (b.arg0 sc input buf0).col.HasRows input.NumRows)
    (hi : i < input.NumRows) (hnull : (b.arg0 sc input buf0).col.IsNull i = false)
    (hunion : b.inUnion = true) (hneg : (b.arg0 sc input buf0).col.data.getD i 0 < 0) :
    (builtinCastIntAsRealSig.vecEvalReal b pool sc input result).err = none ∧
    (builtinCastIntAsRealSig.vecEvalReal b pool sc input result).result.IsNull i = false ∧
    ((HasUnsignedFlag b.tpFlag = true ∨ HasUnsignedFlag b.argFlag = true) →
      (builtinCastIntAsRealSig.vecEvalReal b pool sc input result).result.data[i]? =
        some Float64.zero) ∧
    ((HasUnsignedFlag b.tpFlag = false ∧ HasUnsignedFlag b.argFlag = false) →
      (builtinCastIntAsRealSig.vecEvalReal b pool sc input result).result.data[i]? =
        some (float64OfInt64 ((b.arg0 sc input buf0).col.data.getD i 0))) := by
  have _ := hrows
  obtain ⟨h1, h2⟩ := castIntAsReal_rows b pool sc input result buf0 hget herr
  obtain ⟨h3, h4⟩ := h2 i hi hnull
  refine ⟨h1, h3, ?_, ?_⟩
  · intro hflag
    rw [h4]
    generalize (b.arg0 sc input buf0).col.data.getD i 0 = v at hneg
    unfold castIntAsRealValue
    rcases hflag with hf | hf <;> simp [hf, hunion, hneg]
  · intro hflag
    rw [h4]
    generalize (b.arg0 sc input buf0).col.data.getD i 0 = v at hneg
    unfold castIntAsRealValue
    simp [hflag.1, hflag.2]

theorem castIntAsReal_union_negative_witness :
    (builtinCastIntAsRealSig.vecEvalReal ⟨true, 32, 0, 0, constChild ⟨[false], [-5]⟩⟩
      (examplePool Int) warnCtx (exampleChunk 1) ⟨[], []⟩).err = none ∧
    (builtinCastIntAsRealSig.vecEvalReal ⟨true, 32, 0, 0, constChild ⟨[false], [-5]⟩⟩
      (examplePool Int) warnCtx (exampleChunk 1) ⟨[], []⟩).result.data[0]? =
        some Float64.zero :=
  ⟨(castIntAsReal_union_negative ⟨true, 32, 0, 0, constChild ⟨[false], [-5]⟩⟩
      (examplePool Int) warnCtx (exampleChunk 1) ⟨[], []⟩ ⟨[], []⟩ 0 rfl rfl (by decide)
      (by decide) (by decide) rfl (by decide)).1,
    (castIntAsReal_union_negative ⟨true, 32, 0, 0, constChild ⟨[false], [-5]⟩⟩
      (examplePool Int) warnCtx (exampleChunk 1) ⟨[], []⟩ ⟨[], []⟩ 0 rfl rfl (by decide)
      (by decide) (by decide) rfl (by decide)).2.2.1 (Or.inl (by decide))⟩

/-! ## Decimal → Real (C5, C6) -/

theorem castDecimalAsRealAct_cases (ToFloat64 : MyDecimal → Except Error Float64)
    (b : baseBuiltinCastFunc MyDecimal) (col : Column MyDecimal) (warn : Bool) (i : Nat) :
    (col.IsNull i = true ∧
      castDecimalAsRealAct ToFloat64 b col.data (col.IsNull i) warn i = RowAct.skip ∧
      castDecimalAsRealError ToFloat64 b col i = none) ∨
    (col.IsNull i = false ∧
      ((b.inUnion && HasUnsignedFlag b.tpFlag) && (col.data.getD i default).IsNegative) = true ∧
      castDecimalAsRealAct ToFloat64 b col.data (col.IsNull i) warn i =
        RowAct.store Float64.zero ∧
      castDecimalAsRealError ToFloat64 b col i = none) ∨
    (col.IsNull i = false ∧
      ((b.inUnion && HasUnsignedFlag b.tpFlag) && (col.data.getD i default).IsNegative) = false ∧
      ∃ v, ToFloat64 (col.data.getD i default) = Except.ok v ∧
        castDecimalAsRealAct ToFloat64 b col.data (col.IsNull i) warn i = RowAct.store v ∧
        castDecimalAsRealError ToFloat64 b col i = none) ∨
    (col.IsNull i = false ∧
      ((b.inUnion && HasUnsignedFlag b.tpFlag) && (col.data.getD i default).IsNegative) = false ∧
      ∃ e, ToFloat64 (col.data.getD i default) = Except.error e ∧
        castDecimalAsRealError ToFloat64 b col i = some e ∧
        castDecimalAsRealAct ToFloat64 b col.data (col.IsNull i) warn i =
          (if ErrOverflow.Equal e = true ∧ warn = true then RowAct.null e else RowAct.fail e)) := by
  unfold castDecimalAsRealAct castDecimalAsRealError
  cases hnull : col.IsNull i with
  | true => left; simp
  | false =>
    right
    cases hc : ((b.inUnion && HasUnsignedFlag b.tpFlag) && (col.data.getD i default).IsNegative) with
    | true => left; simp
    | false =>
      right
      cases hF : ToFloat64 (col.data.getD i default) with
      | ok v => left; simp [convAct]
      | error e =>
        right
        cases ho : ErrOverflow.Equal e <;> cases warn <;> simp [convAct, ho]

/-- With the UNION clamp in force, the loop body of Decimal → Real never calls the
conversion on a negative decimal. -/
theorem castDecimalAsRealBody_congr (F F' : MyDecimal → Except Error Float64)
    (b : baseBuiltinCastFunc MyDecimal) (d : List MyDecimal)
    (hclamp : (b.inUnion && HasUnsignedFlag b.tpFlag) = true)
    (hF : ∀ x : MyDecimal, x.IsNegative = false → F x = F' x) :
    castDecimalAsRealBody F b d = castDecimalAsRealBody F' b d := by
  funext i s
  obtain ⟨result, sc⟩ := s
  simp only [castDecimalAsRealBody, hclamp, Bool.true_and]
  cases hnull : result.IsNull i with
  | true => rfl
  | false =>
    cases hneg : (d.getD i default).IsNegative with
    | true => rfl
    | false => simp only [hF _ hneg]

/-- C5 (Decimal → Real, UNION clamp before the conversion).  With a UNION-sourced
signature and an unsigned destination:
* on every batch on which the handler returns success, a non-null row whose decimal is
  negative is not null in the destination and holds `0`;
* the conversion is never attempted on a negative decimal: two conversion routines that
  agree on the non-negative decimals give the same outcome (error, destination, warnings,
  allocator) on every input, in strict and in warning mode alike, whatever they do on the
  negative ones. -/
theorem castDecimalAsReal_union_clamp (ToFloat64 : MyDecimal → Except Error Float64)
    (b : baseBuiltinCastFunc MyDecimal)
    (hunion : b.inUnion = true) (hunsigned : HasUnsignedFlag b.tpFlag = true) :
    (∀ (pool : columnBufferAllocator MyDecimal) (sc : StatementContext) (input : Chunk)
      (result : Column Float64) (buf0 : Column MyDecimal) (i : Nat),
      pool.next = Except.ok buf0 →
      (b.arg0 sc input buf0).col.HasRows input.NumRows →
      (builtinCastDecimalAsRealSig.vecEvalReal ToFloat64 b pool sc input result).err = none →
      i < input.NumRows →
      (b.arg0 sc input buf0).col.IsNull i = false →
      ((b.arg0 sc input buf0).col.data.getD i default).IsNegative = true →
      (builtinCastDecimalAsRealSig.vecEvalReal ToFloat64 b pool sc input
        result).result.IsNull i = false ∧
      (builtinCastDecimalAsRealSig.vecEvalReal ToFloat64 b pool sc input
        result).result.data[i]? = some Float64.zero) ∧
    (∀ (ToFloat64' : MyDecimal → Except Error Float64),
      (∀ x : MyDecimal, x.IsNegative = false → ToFloat64 x = ToFloat64' x) →
      ∀ (pool : columnBufferAllocator MyDecimal) (sc : StatementContext) (input : Chunk)
        (result : Column Float64),
        builtinCastDecimalAsRealSig.vecEvalReal ToFloat64 b pool sc input result =
          builtinCastDecimalAsRealSig.vecEvalReal ToFloat64' b pool sc input result) := by
  have hclamp : (b.inUnion && HasUnsignedFlag b.tpFlag) = true := by simp [hunion, hunsigned]
  constructor
  · intro pool sc input result buf0 i hget _ hok hi hnull hneg
    cases herr : (b.arg0 sc input buf0).err with
    | some e =>
      rw [vecEvalReal_decimal_child_err ToFloat64 b pool sc input result buf0 e hget herr] at hok
      simp at hok
    | none =>
      rw [vecEvalReal_decimal_ok ToFloat64 b pool sc input result buf0 hget herr] at hok ⊢
      simp only at hok ⊢
      obtain ⟨h1, _, _⟩ := merged_ok _ result (b.arg0 sc input buf0).col input.NumRows
        input.NumRows (le_refl _) (b.arg0 sc input buf0).sc hok
      obtain ⟨_, h2, h3⟩ := h1 i hi
      have hact : castDecimalAsRealAct ToFloat64 b (b.arg0 sc input buf0).col.data
          ((b.arg0 sc input buf0).col.IsNull i) (b.arg0 sc input buf0).sc.OverflowAsWarning i
          = RowAct.store Float64.zero := by
        unfold castDecimalAsRealAct
        rw [hnull, hclamp, hneg]
        rfl
      constructor
      · rw [h2, hact, hnull]
        rfl
      · exact h3 _ hact
  · intro F' hF pool sc input result
    unfold builtinCastDecimalAsRealSig.vecEvalReal
    simp only [castDecimalAsRealBody_congr ToFloat64 F' b _ hclamp hF]

theorem castDecimalAsReal_union_clamp_witness :
    ((builtinCastDecimalAsRealSig.vecEvalReal exampleToFloat64 exampleDecimalAsReal
        (examplePool MyDecimal) warnCtx (exampleChunk 4) ⟨[], []⟩).result.IsNull 0 = false ∧
      (builtinCastDecimalAsRealSig.vecEvalReal exampleToFloat64 exampleDecimalAsReal
        (examplePool MyDecimal) warnCtx (exampleChunk 4) ⟨[], []⟩).result.data[0]? =
        some Float64.zero) ∧
    builtinCastDecimalAsRealSig.vecEvalReal exampleToFloat64 exampleDecimalAsReal
        (examplePool MyDecimal) strictCtx (exampleChunk 4) ⟨[], []⟩ =
      builtinCastDecimalAsRealSig.vecEvalReal
        (fun x => if x.IsNegative then Except.ok ⟨true, 1023, 0⟩ else exampleToFloat64 x)
        exampleDecimalAsReal (examplePool MyDecimal) strictCtx (exampleChunk 4) ⟨[], []⟩ :=
  ⟨(castDecimalAsReal_union_clamp exampleToFloat64 exampleDecimalAsReal rfl (by decide)).1
      (examplePool MyDecimal) warnCtx (exampleChunk 4) ⟨[], []⟩ ⟨[], []⟩ 0 rfl (by decide)
      (by decide) (by decide) (by decide) (by decide),
    (castDecimalAsReal_union_clamp exampleToFloat64 exampleDecimalAsReal rfl (by decide)).2
      (fun x => if x.IsNegative then Except.ok ⟨true, 1023, 0⟩ else exampleToFloat64 x)
      (fun x hx => by simp [hx])
      (examplePool MyDecimal) strictCtx (exampleChunk 4) ⟨[], []⟩⟩

/-- C6 (Decimal → Real, overflow policy).  Take a batch on which the child succeeded and
wrote one row per input row, and on which every failure of the decimal-to-float
conversion is an overflow error.  The rows "that overflow" are those with
`castDecimalAsRealError ... i = some e`: non-null, not clamped, conversion failed.
* In warning mode the handler succeeds; a destination row is null iff the child's row
  is null or the row overflows; the warnings recorded are the overflow errors of those
  rows, one per row, in row order; every other non-null row holds its converted value
  (`0` for a clamped row).
* In strict mode, if some row overflows, the handler returns an overflow error: the one
  of the first such row. -/
theorem castDecimalAsReal_overflow_policy (ToFloat64 : MyDecimal → Except Error Float64)
    (b : baseBuiltinCastFunc MyDecimal) (pool : columnBufferAllocator MyDecimal)
    (sc : StatementContext) (input : Chunk) (result : Column Float64) (buf0 : Column MyDecimal)
    (hget : pool.next = Except.ok buf0) (herr : (b.arg0 sc input buf0).err = none)
    (hrows : (b.arg0 sc input buf0).col.HasRows input.NumRows)
    (hkind : ∀ i e, i < input.NumRows →
      castDecimalAsRealError ToFloat64 b (b.arg0 sc input buf0).col i = some e →
      ErrOverflow.Equal e = true) :
    ((b.arg0 sc input buf0).sc.OverflowAsWarning = true →
      (builtinCastDecimalAsRealSig.vecEvalReal ToFloat64 b pool sc input result).err = none ∧
      (∀ i, i < input.NumRows →
        ((builtinCastDecimalAsRealSig.vecEvalReal ToFloat64 b pool sc input
            result).result.IsNull i = true ↔
          (b.arg0 sc input buf0).col.IsNull i = true ∨
          (castDecimalAsRealError ToFloat64 b (b.arg0 sc input buf0).col i).isSome = true)) ∧
      (builtinCastDecimalAsRealSig.vecEvalReal ToFloat64 b pool sc input result).sc.warnings =
        (b.arg0 sc input buf0).sc.warnings ++
          (List.range input.NumRows).filterMap
            (castDecimalAsRealError ToFloat64 b (b.arg0 sc input buf0).col) ∧
      (∀ i v, i < input.NumRows → (b.arg0 sc input buf0).col.IsNull i = false →
        ((b.inUnion && HasUnsignedFlag b.tpFlag) &&
          ((b.arg0 sc input buf0).col.data.getD i default).IsNegative) = false →
        ToFloat64 ((b.arg0 sc input buf0).col.data.getD i default) = Except.ok v →
        (builtinCastDecimalAsRealSig.vecEvalReal ToFloat64 b pool sc input
          result).result.data[i]? = some v) ∧
      (∀ i, i < input.NumRows → (b.arg0 sc input buf0).col.IsNull i = false →
        ((b.inUnion && HasUnsignedFlag b.tpFlag) &&
          ((b.arg0 sc input buf0).col.data.getD i default).IsNegative) = true →
        (builtinCastDecimalAsRealSig.vecEvalReal ToFloat64 b pool sc input
          result).result.data[i]? = some Float64.zero)) ∧
    ((b.arg0 sc input buf0).sc.OverflowAsWarning = false →
      (∃ i, i < input.NumRows ∧
        (castDecimalAsRealError ToFloat64 b (b.arg0 sc input buf0).col i).isSome = true) →
      ∃ f e, f < input.NumRows ∧
        castDecimalAsRealError ToFloat64 b (b.arg0 sc input buf0).col f = some e ∧
        (∀ j, j < f → castDecimalAsRealError ToFloat64 b (b.arg0 sc input buf0).col j = none) ∧
        ErrOverflow.Equal e = true ∧
        (builtinCastDecimalAsRealSig.vecEvalReal ToFloat64 b pool sc input result).err
          = some e) := by
  have _ := hrows
  rw [vecEvalReal_decimal_ok ToFloat64 b pool sc input result buf0 hget herr]
  simp only
  generalize hcol : (b.arg0 sc input buf0).col = col at hkind ⊢
  generalize hsc : (b.arg0 sc input buf0).sc = csc
  constructor
  · intro hwarn
    have hnofail : ∀ i, i < input.NumRows →
        (castDecimalAsRealAct ToFloat64 b col.data (col.IsNull i) csc.OverflowAsWarning i).isFail
          = false := by
      intro i hi
      rcases castDecimalAsRealAct_cases ToFloat64 b col csc.OverflowAsWarning i with
        ⟨_, h, _⟩ | ⟨_, _, h, _⟩ | ⟨_, _, v, _, h, _⟩ | ⟨_, _, e, _, he, h⟩
      · rw [h]; rfl
      · rw [h]; rfl
      · rw [h]; rfl
      · rw [h, hkind i e hi he, hwarn]; rfl
    have hok := (merged_ok_iff (castDecimalAsRealAct ToFloat64 b col.data) result col
      input.NumRows csc).mpr hnofail
    obtain ⟨h1, _, h3⟩ := merged_ok _ result col input.NumRows input.NumRows (le_refl _) csc hok
    refine ⟨hok, ?_, ?_, ?_, ?_⟩
    · intro i hi
      rw [(h1 i hi).2.1]
      rcases castDecimalAsRealAct_cases ToFloat64 b col csc.OverflowAsWarning i with
        ⟨hn, h, he⟩ | ⟨hn, _, h, he⟩ | ⟨hn, _, v, _, h, he⟩ | ⟨hn, _, e, _, he, h⟩
      · simp [hn]
      · rw [h, he]; simp [hn, RowAct.isNull]
      · rw [h, he]; simp [hn, RowAct.isNull]
      · rw [h, hkind i e hi he, hwarn, he]
        simp [hn, RowAct.isNull]
    · rw [h3, List.range_eq_range']
      congr 1
      apply List.filterMap_congr
      intro i hi
      have hi' : i < input.NumRows := by
        have := (List.mem_range'_1.mp hi).2
        omega
      rcases castDecimalAsRealAct_cases ToFloat64 b col csc.OverflowAsWarning i with
        ⟨_, h, he⟩ | ⟨_, _, h, he⟩ | ⟨_, _, v, _, h, he⟩ | ⟨_, _, e, _, he, h⟩
      · rw [h, he]; rfl
      · rw [h, he]; rfl
      · rw [h, he]; rfl
      · rw [h, hkind i e hi' he, hwarn, he]; rfl
    · intro i v hi hn hc hv
      apply (h1 i hi).2.2
      rcases castDecimalAsRealAct_cases ToFloat64 b col csc.OverflowAsWarning i with
        ⟨hn', _, _⟩ | ⟨_, hc', _, _⟩ | ⟨_, _, v', hv', h, _⟩ | ⟨_, _, e, he', _, _⟩
      · rw [hn] at hn'; cases hn'
      · rw [hc] at hc'; cases hc'
      · rw [hv] at hv'; cases hv'; exact h
      · rw [hv] at he'; cases he'
    · intro i hi hn hc
      apply (h1 i hi).2.2
      rcases castDecimalAsRealAct_cases ToFloat64 b col csc.OverflowAsWarning i with
        ⟨hn', _, _⟩ | ⟨_, _, h, _⟩ | ⟨_, hc', _, _, _, _⟩ | ⟨_, hc', _, _, _, _⟩
      · rw [hn] at hn'; cases hn'
      · exact h
      · rw [hc] at hc'; cases hc'
      · rw [hc] at hc'; cases hc'
  · intro hstrict ⟨i, hi, hsome⟩
    have hfailrow : ∀ j e, castDecimalAsRealError ToFloat64 b col j = some e →
        castDecimalAsRealAct ToFloat64 b col.data (col.IsNull j) csc.OverflowAsWarning j
          = RowAct.fail e := by
      intro j e hj
      rcases castDecimalAsRealAct_cases ToFloat64 b col csc.OverflowAsWarning j with
        ⟨_, _, he⟩ | ⟨_, _, _, he⟩ | ⟨_, _, v, _, _, he⟩ | ⟨_, _, e', _, he, h⟩
      · rw [hj] at he; cases he
      · rw [hj] at he; cases he
      · rw [hj] at he; cases he
      · rw [hj] at he; cases he
        rw [h, hstrict]; simp
    cases hL : (actLoop (castDecimalAsRealAct ToFloat64 b col.data) input.NumRows 0
        ((result.resize input.NumRows false).MergeNulls col, csc)).1 with
    | none =>
      have hno := (merged_ok_iff (castDecimalAsRealAct ToFloat64 b col.data) result col
        input.NumRows csc).mp hL i hi
      obtain ⟨e, he⟩ := Option.isSome_iff_exists.mp hsome
      rw [hfailrow i e he] at hno
      simp [RowAct.isFail] at hno
    | some e =>
      obtain ⟨f, hf1, hf2, hf3⟩ := merged_err _ result col input.NumRows csc e hL
      have hfe : castDecimalAsRealError ToFloat64 b col f = some e := by
        rcases castDecimalAsRealAct_cases ToFloat64 b col csc.OverflowAsWarning f with
          ⟨_, h, _⟩ | ⟨_, _, h, _⟩ | ⟨_, _, v, _, h, _⟩ | ⟨_, _, e', _, he, h⟩
        · rw [h] at hf2; cases hf2
        · rw [h] at hf2; cases hf2
        · rw [h] at hf2; cases hf2
        · rw [h, hstrict] at hf2
          simp at hf2
          rw [← hf2]; exact he
      refine ⟨f, e, hf1, hfe, ?_, hkind f e hf1 hfe, rfl⟩
      intro j hj
      have hpre : (actLoop (castDecimalAsRealAct ToFloat64 b col.data) f 0
          ((result.resize input.NumRows false).MergeNulls col, csc)).1 = none := by
        rw [hf3]
      obtain ⟨p1, _, _⟩ := merged_ok _ result col input.NumRows f (by omega) csc hpre
      have hnf := (p1 j hj).1
      cases hje : castDecimalAsRealError ToFloat64 b col j with
      | none => rfl
      | some e' =>
        rw [hfailrow j e' hje] at hnf
        simp [RowAct.isFail] at hnf

theorem exampleDecimalAsReal_kind (sc : StatementContext) (i : Nat) (e : Error)
    (hi : i < (exampleChunk 4).NumRows)
    (h : castDecimalAsRealError exampleToFloat64 exampleDecimalAsReal
      (exampleDecimalAsReal.arg0 sc (exampleChunk 4) ⟨[], []⟩).col i = some e) :
    ErrOverflow.Equal e = true := by
  have hi' : i < 4 := hi
  have hcol : (exampleDecimalAsReal.arg0 sc (exampleChunk 4) ⟨[], []⟩).col =
      ⟨[false, false, true, false],
        [⟨true, 1, 400⟩, ⟨false, 7, 0⟩, ⟨false, 3, 0⟩, ⟨false, 1, 400⟩]⟩ := rfl
  rw [hcol] at h
  have hcases : i = 0 ∨ i = 1 ∨ i = 2 ∨ i = 3 := by omega
  rcases hcases with rfl | rfl | rfl | rfl
  · rw [show castDecimalAsRealError exampleToFloat64 exampleDecimalAsReal
        ⟨[false, false, true, false],
          [⟨true, 1, 400⟩, ⟨false, 7, 0⟩, ⟨false, 3, 0⟩, ⟨false, 1, 400⟩]⟩ 0 = none
        from by decide] at h
    cases h
  · rw [show castDecimalAsRealError exampleToFloat64 exampleDecimalAsReal
        ⟨[false, false, true, false],
          [⟨true, 1, 400⟩, ⟨false, 7, 0⟩, ⟨false, 3, 0⟩, ⟨false, 1, 400⟩]⟩ 1 = none
        from by decide] at h
    cases h
  · rw [show castDecimalAsRealError exampleToFloat64 exampleDecimalAsReal
        ⟨[false, false, true, false],
          [⟨true, 1, 400⟩, ⟨false, 7, 0⟩, ⟨false, 3, 0⟩, ⟨false, 1, 400⟩]⟩ 2 = none
        from by decide] at h
    cases h
  · rw [show castDecimalAsRealError exampleToFloat64 exampleDecimalAsReal
        ⟨[false, false, true, false],
          [⟨true, 1, 400⟩, ⟨false, 7, 0⟩, ⟨false, 3, 0⟩, ⟨false, 1, 400⟩]⟩ 3
        = some (Error.overflow 1) from by decide] at h
    cases h
    rfl

theorem castDecimalAsReal_overflow_policy_witness :
    ((builtinCastDecimalAsRealSig.vecEvalReal exampleToFloat64 exampleDecimalAsReal
        (examplePool MyDecimal) warnCtx (exampleChunk 4) ⟨[], []⟩).err = none ∧
      (builtinCastDecimalAsRealSig.vecEvalReal exampleToFloat64 exampleDecimalAsReal
        (examplePool MyDecimal) warnCtx (exampleChunk 4) ⟨[], []⟩).sc.warnings
        = [Error.overflow 1]) ∧
    (builtinCastDecimalAsRealSig.vecEvalReal exampleToFloat64 exampleDecimalAsReal
        (examplePool MyDecimal) strictCtx (exampleChunk 4) ⟨[], []⟩).err
        = some (Error.overflow 1) := by
  have hw := (castDecimalAsReal_overflow_policy exampleToFloat64 exampleDecimalAsReal
    (examplePool MyDecimal) warnCtx (exampleChunk 4) ⟨[], []⟩ ⟨[], []⟩ rfl rfl (by decide)
    (fun i e hi h => exampleDecimalAsReal_kind warnCtx i e hi h)).1 rfl
  have hs := (castDecimalAsReal_overflow_policy exampleToFloat64 exampleDecimalAsReal
    (examplePool MyDecimal) strictCtx (exampleChunk 4) ⟨[], []⟩ ⟨[], []⟩ rfl rfl (by decide)
    (fun i e hi h => exampleDecimalAsReal_kind strictCtx i e hi h)).2 rfl
    ⟨3, by decide, by decide⟩
  refine ⟨⟨hw.1, hw.2.2.1.trans (by decide)⟩, ?_⟩
  obtain ⟨f, e, _, _, _, _, he⟩ := hs
  rw [he]
  exact he.symm.trans (by decide)

/-! ## Int → Duration (C7) -/

theorem castIntAsDurationAct_cases (NumberToDuration : Int → Int → Except Error Duration)
    (b : baseBuiltinCastFunc Int) (col : Column Int) (warn : Bool) (i : Nat) :
    (col.IsNull i = true ∧
      castIntAsDurationAct NumberToDuration b col.data (col.IsNull i) warn i = RowAct.skip ∧
      castIntAsDurationError NumberToDuration b col i = none) ∨
    (col.IsNull i = false ∧
      ∃ d, NumberToDuration (col.data.getD i 0) (int8 b.tpDecimal) = Except.ok d ∧
        castIntAsDurationAct NumberToDuration b col.data (col.IsNull i) warn i
          = RowAct.store d.Duration ∧
        castIntAsDurationError NumberToDuration b col i = none) ∨
    (col.IsNull i = false ∧
      ∃ e, NumberToDuration (col.data.getD i 0) (int8 b.tpDecimal) = Except.error e ∧
        castIntAsDurationError NumberToDuration b col i = some e ∧
        castIntAsDurationAct NumberToDuration b col.data (col.IsNull i) warn i =
          (if ErrOverflow.Equal e = true ∧ warn = true then RowAct.null e else RowAct.fail e)) := by
  unfold castIntAsDurationAct castIntAsDurationError
  cases hnull : col.IsNull i with
  | true => left; simp
  | false =>
    right
    cases hF : NumberToDuration (col.data.getD i 0) (int8 b.tpDecimal) with
    | ok v => left; simp [convAct, Except.map]
    | error e =>
      right
      cases ho : ErrOverflow.Equal e <;> cases warn <;> simp [convAct, Except.map, ho]

/-- C7, the claim as stated fails: warning mode, one non-null row holding `60`, whose
conversion fails (60 seconds) with an error that is not an overflow error.  The handler
returns that error; the row is not set null and no warning is recorded. -/
theorem castIntAsDuration_invalid_counterexample :
    castIntAsDurationError exampleNumberToDuration
      ⟨false, 0, 0, 0, constChild ⟨[false], [60]⟩⟩ ⟨[false], [60]⟩ 0 = some (Error.other 60) ∧
    warnCtx.OverflowAsWarning = true ∧
    (builtinCastIntAsDurationSig.vecEvalDuration exampleNumberToDuration
      ⟨false, 0, 0, 0, constChild ⟨[false], [60]⟩⟩ (examplePool Int) warnCtx (exampleChunk 1)
      ⟨[], []⟩).err = some (Error.other 60) ∧
    (builtinCastIntAsDurationSig.vecEvalDuration exampleNumberToDuration
      ⟨false, 0, 0, 0, constChild ⟨[false], [60]⟩⟩ (examplePool Int) warnCtx (exampleChunk 1)
      ⟨[], []⟩).result.IsNull 0 = false ∧
    (builtinCastIntAsDurationSig.vecEvalDuration exampleNumberToDuration
      ⟨false, 0, 0, 0, constChild ⟨[false], [60]⟩⟩ (examplePool Int) warnCtx (exampleChunk 1)
      ⟨[], []⟩).sc.warnings = [] := by
  decide

/-- C7, amended.  Int → Duration, on a batch on which the child succeeded and wrote one
row per input row.
* Warning mode, every failing conversion of the batch failing with an overflow error:
  the handler returns success, every row whose conversion fails is null in the
  destination, the warnings recorded are the overflow errors of those rows in row order,
  and every non-null row whose conversion succeeds is not null and holds its duration
  (evaluation went on after the failing rows).
* Strict mode: if the conversion of some non-null row fails, the handler returns the
  error of such a row.
* Both modes: if the conversion of some non-null row fails with an error that is not an
  overflow error, the handler returns the error of a failing row. -/
theorem castIntAsDuration_overflow_policy
    (NumberToDuration : Int → Int → Except Error Duration)
    (b : baseBuiltinCastFunc Int) (pool : columnBufferAllocator Int)
    (sc : StatementContext) (input : Chunk) (result buf0 : Column Int)
    (hget : pool.next = Except.ok buf0) (herr : (b.arg0 sc input buf0).err = none)
    (hrows : (b.arg0 sc input buf0).col.HasRows input.NumRows) :
    ((b.arg0 sc input buf0).sc.OverflowAsWarning = true →
      (∀ i e, i < input.NumRows →
        castIntAsDurationError NumberToDuration b (b.arg0 sc input buf0).col i = some e →
        ErrOverflow.Equal e = true) →
      (builtinCastIntAsDurationSig.vecEvalDuration NumberToDuration b pool sc input
        result).err = none ∧
      (∀ i, i < input.NumRows →
        (castIntAsDurationError NumberToDuration b (b.arg0 sc input buf0).col i).isSome = true →
        (builtinCastIntAsDurationSig.vecEvalDuration NumberToDuration b pool sc input
          result).result.IsNull i = true) ∧
      (builtinCastIntAsDurationSig.vecEvalDuration NumberToDuration b pool sc input
        result).sc.warnings =
        (b.arg0 sc input buf0).sc.warnings ++
          (List.range input.NumRows).filterMap
            (castIntAsDurationError NumberToDuration b (b.arg0 sc input buf0).col) ∧
      (∀ i d, i < input.NumRows → (b.arg0 sc input buf0).col.IsNull i = false →
        NumberToDuration ((b.arg0 sc input buf0).col.data.getD i 0) (int8 b.tpDecimal)
          = Except.ok d →
        (builtinCastIntAsDurationSig.vecEvalDuration NumberToDuration b pool sc input
          result).result.IsNull i = false ∧
        (builtinCastIntAsDurationSig.vecEvalDuration NumberToDuration b pool sc input
          result).result.data[i]? = some d.Duration)) ∧
    ((b.arg0 sc input buf0).sc.OverflowAsWarning = false →
      (∃ i, i < input.NumRows ∧
        (castIntAsDurationError NumberToDuration b (b.arg0 sc input buf0).col i).isSome = true) →
      ∃ f e, f < input.NumRows ∧
        castIntAsDurationError NumberToDuration b (b.arg0 sc input buf0).col f = some e ∧
        (builtinCastIntAsDurationSig.vecEvalDuration NumberToDuration b pool sc input
          result).err = some e) ∧
    ((∃ i e, i < input.NumRows ∧
        castIntAsDurationError NumberToDuration b (b.arg0 sc input buf0).col i = some e ∧
        ErrOverflow.Equal e = false) →
      ∃ f e, f < input.NumRows ∧
        castIntAsDurationError NumberToDuration b (b.arg0 sc input buf0).col f = some e ∧
        (builtinCastIntAsDurationSig.vecEvalDuration NumberToDuration b pool sc input
          result).err = some e) := by
  have _ := hrows
  rw [vecEvalDuration_int_ok NumberToDuration b pool sc input result buf0 hget herr]
  simp only
  generalize (b.arg0 sc input buf0).col = col
  generalize (b.arg0 sc input buf0).sc = csc
  -- a loop that returns an error returns the error of a failing row
  have herrrow : ∀ e, (actLoop (castIntAsDurationAct NumberToDuration b col.data)
      input.NumRows 0 ((result.resize input.NumRows false).MergeNulls col, csc)).1 = some e →
      ∃ f, f < input.NumRows ∧ castIntAsDurationError NumberToDuration b col f = some e := by
    intro e hL
    obtain ⟨f, hf1, hf2, _⟩ := merged_err _ result col input.NumRows csc e hL
    refine ⟨f, hf1, ?_⟩
    rcases castIntAsDurationAct_cases NumberToDuration b col csc.OverflowAsWarning f with
      ⟨_, h, _⟩ | ⟨_, d, _, h, _⟩ | ⟨_, e', _, he, h⟩
    · rw [h] at hf2; cases hf2
    · rw [h] at hf2; cases hf2
    · rw [h] at hf2
      split at hf2
      · cases hf2
      · cases hf2; exact he
  -- a fatal row makes the loop return an error
  have hfatal : ∀ i e, i < input.NumRows →
      castIntAsDurationError NumberToDuration b col i = some e →
      (ErrOverflow.Equal e = false ∨ csc.OverflowAsWarning = false) →
      ∃ f e', f < input.NumRows ∧ castIntAsDurationError NumberToDuration b col f = some e' ∧
        (actLoop (castIntAsDurationAct NumberToDuration b col.data)
          input.NumRows 0 ((result.resize input.NumRows false).MergeNulls col, csc)).1
          = some e' := by
    intro i e hi he hor
    cases hL : (actLoop (castIntAsDurationAct NumberToDuration b col.data)
        input.NumRows 0 ((result.resize input.NumRows false).MergeNulls col, csc)).1 with
    | none =>
      have hno := (merged_ok_iff (castIntAsDurationAct NumberToDuration b col.data) result col
        input.NumRows csc).mp hL i hi
      rcases castIntAsDurationAct_cases NumberToDuration b col csc.OverflowAsWarning i with
        ⟨_, _, he'⟩ | ⟨_, d, _, _, he'⟩ | ⟨_, e', _, he', h⟩
      · rw [he] at he'; cases he'
      · rw [he] at he'; cases he'
      · rw [he] at he'; cases he'
        rw [h] at hno
        rcases hor with ho | ho <;> simp [ho, RowAct.isFail] at hno
    | some e' =>
      obtain ⟨f, hf, hfe⟩ := herrrow e' hL
      exact ⟨f, e', hf, hfe, rfl⟩
  refine ⟨?_, ?_, ?_⟩
  · intro hwarn hkind
    have hnofail : ∀ i, i < input.NumRows →
        (castIntAsDurationAct NumberToDuration b col.data (col.IsNull i)
          csc.OverflowAsWarning i).isFail = false := by
      intro i hi
      rcases castIntAsDurationAct_cases NumberToDuration b col csc.OverflowAsWarning i with
        ⟨_, h, _⟩ | ⟨_, d, _, h, _⟩ | ⟨_, e, _, he, h⟩
      · rw [h]; rfl
      · rw [h]; rfl
      · rw [h, hkind i e hi he, hwarn]; rfl
    have hok := (merged_ok_iff (castIntAsDurationAct NumberToDuration b col.data) result col
      input.NumRows csc).mpr hnofail
    obtain ⟨h1, _, h3⟩ := merged_ok _ result col input.NumRows input.NumRows (le_refl _) csc hok
    refine ⟨hok, ?_, ?_, ?_⟩
    · intro i hi hsome
      rw [(h1 i hi).2.1]
      rcases castIntAsDurationAct_cases NumberToDuration b col csc.OverflowAsWarning i with
        ⟨_, _, he⟩ | ⟨_, d, _, _, he⟩ | ⟨_, e, _, he, h⟩
      · rw [he] at hsome; cases hsome
      · rw [he] at hsome; cases hsome
      · rw [h, hkind i e hi he, hwarn]
        simp [RowAct.isNull]
    · rw [h3, List.range_eq_range']
      congr 1
      apply List.filterMap_congr
      intro i hi
      have hi' : i < input.NumRows := by
        have := (List.mem_range'_1.mp hi).2
        omega
      rcases castIntAsDurationAct_cases NumberToDuration b col csc.OverflowAsWarning i with
        ⟨_, h, he⟩ | ⟨_, d, _, h, he⟩ | ⟨_, e, _, he, h⟩
      · rw [h, he]; rfl
      · rw [h, he]; rfl
      · rw [h, hkind i e hi' he, hwarn, he]; rfl
    · intro i d hi hn hd
      rcases castIntAsDurationAct_cases NumberToDuration b col csc.OverflowAsWarning i with
        ⟨hn', _, _⟩ | ⟨_, d', hd', h, _⟩ | ⟨_, e, he', _, _⟩
      · rw [hn] at hn'; cases hn'
      · rw [hd] at hd'; cases hd'
        refine ⟨?_, (h1 i hi).2.2 _ h⟩
        rw [(h1 i hi).2.1, h, hn]
        rfl
      · rw [hd] at he'; cases he'
  · intro hstrict ⟨i, hi, hsome⟩
    obtain ⟨e, he⟩ := Option.isSome_iff_exists.mp hsome
    exact hfatal i e hi he (Or.inr hstrict)
  · intro ⟨i, e, hi, he, hno⟩
    exact hfatal i e hi he (Or.inl hno)

theorem exampleIntAsDuration_kind (sc : StatementContext) (i : Nat) (e : Error)
    (hi : i < (exampleChunk 4).NumRows)
    (h : castIntAsDurationError exampleNumberToDuration exampleIntAsDuration
      (exampleIntAsDuration.arg0 sc (exampleChunk 4) ⟨[], []⟩).col i = some e) :
    ErrOverflow.Equal e = true := by
  have hi' : i < 4 := hi
  have hcol : (exampleIntAsDuration.arg0 sc (exampleChunk 4) ⟨[], []⟩).col =
      ⟨[false, true, false, false], [123456, 77, 9000000, 10]⟩ := rfl
  rw [hcol] at h
  have hcases : i = 0 ∨ i = 1 ∨ i = 2 ∨ i = 3 := by omega
  rcases hcases with rfl | rfl | rfl | rfl
  · rw [show castIntAsDurationError exampleNumberToDuration exampleIntAsDuration
        ⟨[false, true, false, false], [123456, 77, 9000000, 10]⟩ 0 = none from by decide] at h
    cases h
  · rw [show castIntAsDurationError exampleNumberToDuration exampleIntAsDuration
        ⟨[false, true, false, false], [123456, 77, 9000000, 10]⟩ 1 = none from by decide] at h
    cases h
  · rw [show castIntAsDurationError exampleNumberToDuration exampleIntAsDuration
        ⟨[false, true, false, false], [123456, 77, 9000000, 10]⟩ 2
        = some (Error.overflow 9000000) from by decide] at h
    cases h
    rfl
  · rw [show castIntAsDurationError exampleNumberToDuration exampleIntAsDuration
        ⟨[false, true, false, false], [123456, 77, 9000000, 10]⟩ 3 = none from by decide] at h
    cases h

theorem castIntAsDuration_overflow_policy_witness :
    ((builtinCastIntAsDurationSig.vecEvalDuration exampleNumberToDuration exampleIntAsDuration
        (examplePool Int) warnCtx (exampleChunk 4) ⟨[], []⟩).err = none ∧
      (builtinCastIntAsDurationSig.vecEvalDuration exampleNumberToDuration exampleIntAsDuration
        (examplePool Int) warnCtx (exampleChunk 4) ⟨[], []⟩).result.IsNull 2 = true ∧
      (builtinCastIntAsDurationSig.vecEvalDuration exampleNumberToDuration exampleIntAsDuration
        (examplePool Int) warnCtx (exampleChunk 4) ⟨[], []⟩).result.data[3]?
        = some 10000000000) ∧
    (∃ f e, f < (exampleChunk 4).NumRows ∧
      castIntAsDurationError exampleNumberToDuration exampleIntAsDuration
        (exampleIntAsDuration.arg0 strictCtx (exampleChunk 4) ⟨[], []⟩).col f = some e ∧
      (builtinCastIntAsDurationSig.vecEvalDuration exampleNumberToDuration exampleIntAsDuration
        (examplePool Int) strictCtx (exampleChunk 4) ⟨[], []⟩).err = some e) ∧
    (∃ f e, f < (exampleChunk 1).NumRows ∧
      castIntAsDurationError exampleNumberToDuration
        ⟨false, 0, 0, 0, constChild ⟨[false], [60]⟩⟩ ⟨[false], [60]⟩ f = some e ∧
      (builtinCastIntAsDurationSig.vecEvalDuration exampleNumberToDuration
        ⟨false, 0, 0, 0, constChild ⟨[false], [60]⟩⟩ (examplePool Int) warnCtx (exampleChunk 1)
        ⟨[], []⟩).err = some e) := by
  have hw := (castIntAsDuration_overflow_policy exampleNumberToDuration exampleIntAsDuration
    (examplePool Int) warnCtx (exampleChunk 4) ⟨[], []⟩ ⟨[], []⟩ rfl rfl (by decide)).1 rfl
    (fun i e hi h => exampleIntAsDuration_kind warnCtx i e hi h)
  have hs := (castIntAsDuration_overflow_policy exampleNumberToDuration exampleIntAsDuration
    (examplePool Int) strictCtx (exampleChunk 4) ⟨[], []⟩ ⟨[], []⟩ rfl rfl (by decide)).2.1 rfl
    ⟨2, by decide, by decide⟩
  have ho := (castIntAsDuration_overflow_policy exampleNumberToDuration
    ⟨false, 0, 0, 0, constChild ⟨[false], [60]⟩⟩
    (examplePool Int) warnCtx (exampleChunk 1) ⟨[], []⟩ ⟨[], []⟩ rfl rfl (by decide)).2.2
    ⟨0, Error.other 60, by decide, by decide, rfl⟩
  exact ⟨⟨hw.1, hw.2.1 2 (by decide) (by decide),
    (hw.2.2.2 3 ⟨10000000000, 0⟩ (by decide) (by decide) rfl).2⟩, hs, ho⟩

/-! ## Loops that null no row (Time → Duration; strict mode) -/

theorem RowAct.warning_of_isNull {β : Type} (a : RowAct β) (h : a.isNull = false) :
    a.warning = none := by
  cases a <;> simp [RowAct.isNull, RowAct.warning] at h ⊢

/-- A loop none of whose rows is nulled leaves the null bits of the child and the
statement context as they were, however it ends. -/
theorem merged_no_null {α β : Type} [Inhabited β] (act : Bool → Bool → Nat → RowAct β)
    (result : Column β) (buf : Column α) (n k : Nat) (hk : k ≤ n) (sc : StatementContext)
    (hnn : ∀ i, i < n → (act (buf.IsNull i) sc.OverflowAsWarning i).isNull = false)
    (h : (actLoop act k 0 ((result.resize n false).MergeNulls buf, sc)).1 = none) :
    (∀ i, i < n →
      (actLoop act k 0 ((result.resize n false).MergeNulls buf, sc)).2.1.IsNull i
        = buf.IsNull i) ∧
    (actLoop act k 0 ((result.resize n false).MergeNulls buf, sc)).2.2 = sc := by
  obtain ⟨h1, h2, h3⟩ := merged_ok act result buf n k hk sc h
  obtain ⟨_, _, f3⟩ := merged_frame act result buf n k sc
  constructor
  · intro i hi
    by_cases hik : i < k
    · rw [(h1 i hik).2.1, hnn i hi, Bool.or_false]
    · exact h2 i (by omega) hi
  · have hw : (List.range' 0 k).filterMap
        (fun j => (act (buf.IsNull j) sc.OverflowAsWarning j).warning) = [] := by
      rw [List.filterMap_eq_nil_iff]
      intro j hj
      have hj' := (List.mem_range'_1.mp hj).2
      exact RowAct.warning_of_isNull _ (hnn j (by omega))
    rw [hw, List.append_nil] at h3
    rcases hs : (actLoop act k 0 ((result.resize n false).MergeNulls buf, sc)).2.2 with ⟨m, w⟩
    rw [hs] at h3 f3
    simp only at h3 f3
    subst h3 f3
    rfl

/-- The same for a loop over all the rows that may have returned an error: the state is
the one before the failing row. -/
theorem merged_no_null_any {α β : Type} [Inhabited β] (act : Bool → Bool → Nat → RowAct β)
    (result : Column β) (buf : Column α) (n : Nat) (sc : StatementContext)
    (hnn : ∀ i, i < n → (act (buf.IsNull i) sc.OverflowAsWarning i).isNull = false) :
    (∀ i, i < n →
      (actLoop act n 0 ((result.resize n false).MergeNulls buf, sc)).2.1.IsNull i
        = buf.IsNull i) ∧
    (actLoop act n 0 ((result.resize n false).MergeNulls buf, sc)).2.2 = sc := by
  cases hL : (actLoop act n 0 ((result.resize n false).MergeNulls buf, sc)).1 with
  | none => exact merged_no_null act result buf n n (le_refl _) sc hnn hL
  | some e =>
    obtain ⟨f, hf1, _, hf3⟩ := merged_err act result buf n sc e hL
    have hpre : (actLoop act f 0 ((result.resize n false).MergeNulls buf, sc)).1 = none := by
      rw [hf3]
    have := merged_no_null act result buf n f (by omega) sc hnn hpre
    rw [hf3] at this
    exact this

/-- The first failing row of a loop that returned an error: no row before it fails, and
the rows before it that were converted hold their values. -/
theorem merged_err_first {α β : Type} [Inhabited β] (act : Bool → Bool → Nat → RowAct β)
    (result : Column β) (buf : Column α) (n : Nat) (sc : StatementContext) (e : Error)
    (h : (actLoop act n 0 ((result.resize n false).MergeNulls buf, sc)).1 = some e) :
    ∃ f, f < n ∧ act (buf.IsNull f) sc.OverflowAsWarning f = RowAct.fail e ∧
      ∀ i, i < f →
        (act (buf.IsNull i) sc.OverflowAsWarning i).isFail = false ∧
        ∀ v, act (buf.IsNull i) sc.OverflowAsWarning i = RowAct.store v →
          (actLoop act n 0 ((result.resize n false).MergeNulls buf, sc)).2.1.data[i]?
            = some v := by
  obtain ⟨f, hf1, hf2, hf3⟩ := merged_err act result buf n sc e h
  have hpre : (actLoop act f 0 ((result.resize n false).MergeNulls buf, sc)).1 = none := by
    rw [hf3]
  obtain ⟨h1, _, _⟩ := merged_ok act result buf n f (by omega) sc hpre
  refine ⟨f, hf1, hf2, ?_⟩
  intro i hi
  have := h1 i hi
  rw [hf3] at this
  exact ⟨this.1, this.2.2⟩

/-! ## Time → Duration (C8) -/

theorem castTimeAsDurationAct_cases (ConvertToDuration : Time → Except Error Duration)
    (RoundFrac : Duration → Int → Except Error Duration)
    (b : baseBuiltinCastFunc Time) (col : Column Time) (i : Nat) :
    (castTimeAsDurationAct ConvertToDuration RoundFrac b col.data (col.IsNull i) i
        = RowAct.skip ∧
      castTimeAsDurationError ConvertToDuration RoundFrac b col i = none) ∨
    (∃ v, castTimeAsDurationAct ConvertToDuration RoundFrac b col.data (col.IsNull i) i
        = RowAct.store v ∧
      castTimeAsDurationError ConvertToDuration RoundFrac b col i = none) ∨
    (∃ e, castTimeAsDurationAct ConvertToDuration RoundFrac b col.data (col.IsNull i) i
        = RowAct.fail e ∧
      castTimeAsDurationError ConvertToDuration RoundFrac b col i = some e) := by
  unfold castTimeAsDurationAct castTimeAsDurationError
  cases hnull : col.IsNull i with
  | true => left; simp
  | false =>
    right
    cases hC : ConvertToDuration (col.data.getD i default) with
    | error e => right; exact ⟨e, by simp⟩
    | ok d =>
      cases hR : RoundFrac d (int8 b.tpDecimal) with
      | error e => right; exact ⟨e, by simp [hR]⟩
      | ok d' => left; exact ⟨d'.Duration, by simp [hR]⟩

/-- C8 (Time → Duration, every conversion error is fatal).  On a batch on which the child
succeeded and wrote one row per input row, whatever the overflow mode of the statement
context:
* the statement context is left exactly as the child left it (no warning is recorded,
  the overflow policy is not consulted);
* the null bits of the destination are the child's (no row is nulled by the handler);
* if the extraction of the time of day or the rounding fails at some non-null row, the
  handler returns the error of the first such row. -/
theorem castTimeAsDuration_errors_fatal (ConvertToDuration : Time → Except Error Duration)
    (RoundFrac : Duration → Int → Except Error Duration) (b : baseBuiltinCastFunc Time)
    (pool : columnBufferAllocator Time) (sc : StatementContext) (input : Chunk)
    (result : Column Int) (buf0 : Column Time)
    (hget : pool.next = Except.ok buf0) (herr : (b.arg0 sc input buf0).err = none)
    (hrows : (b.arg0 sc input buf0).col.HasRows input.NumRows) :
    (builtinCastTimeAsDurationSig.vecEvalDuration ConvertToDuration RoundFrac b pool sc input
      result).sc = (b.arg0 sc input buf0).sc ∧
    (∀ i, i < input.NumRows →
      (builtinCastTimeAsDurationSig.vecEvalDuration ConvertToDuration RoundFrac b pool sc
        input result).result.IsNull i = (b.arg0 sc input buf0).col.IsNull i) ∧
    ((∃ i, i < input.NumRows ∧
        (castTimeAsDurationError ConvertToDuration RoundFrac b
          (b.arg0 sc input buf0).col i).isSome = true) →
      ∃ f e, f < input.NumRows ∧
        castTimeAsDurationError ConvertToDuration RoundFrac b (b.arg0 sc input buf0).col f
          = some e ∧
        (∀ j, j < f →
          castTimeAsDurationError ConvertToDuration RoundFrac b (b.arg0 sc input buf0).col j
            = none) ∧
        (builtinCastTimeAsDurationSig.vecEvalDuration ConvertToDuration RoundFrac b pool sc
          input result).err = some e) := by
  rw [vecEvalDuration_time_ok ConvertToDuration RoundFrac b pool sc input result buf0 hget herr]
  simp only [hrows.2]
  generalize (b.arg0 sc input buf0).col = col
  generalize (b.arg0 sc input buf0).sc = csc
  obtain ⟨n1, _⟩ := merged_no_null_any
    (fun isNull (_ : Bool) i =>
      castTimeAsDurationAct ConvertToDuration RoundFrac b col.data isNull i)
    result col input.NumRows csc
    (fun i _ => castTimeAsDurationAct_isNull ConvertToDuration RoundFrac b col.data _ i)
  refine ⟨trivial, n1, ?_⟩
  intro ⟨i, hi, hsome⟩
  cases hL : (actLoop (fun isNull (_ : Bool) i =>
      castTimeAsDurationAct ConvertToDuration RoundFrac b col.data isNull i)
      input.NumRows 0 ((result.resize input.NumRows false).MergeNulls col, csc)).1 with
  | none =>
    have hno := (merged_ok_iff _ result col input.NumRows csc).mp hL i hi
    simp only at hno
    rcases castTimeAsDurationAct_cases ConvertToDuration RoundFrac b col i with
      ⟨_, he⟩ | ⟨v, _, he⟩ | ⟨e, h, _⟩
    · rw [he] at hsome; cases hsome
    · rw [he] at hsome; cases hsome
    · rw [h] at hno; simp [RowAct.isFail] at hno
  | some e =>
    obtain ⟨f, hf1, hf2, hf3⟩ := merged_err_first _ result col input.NumRows csc e hL
    refine ⟨f, e, hf1, ?_, ?_, rfl⟩
    · rcases castTimeAsDurationAct_cases ConvertToDuration RoundFrac b col f with
        ⟨h, _⟩ | ⟨v, h, _⟩ | ⟨e', h, he⟩
      · rw [h] at hf2; cases hf2
      · rw [h] at hf2; cases hf2
      · rw [h] at hf2; cases hf2; exact he
    · intro j hj
      have hnf := (hf3 j hj).1
      rcases castTimeAsDurationAct_cases ConvertToDuration RoundFrac b col j with
        ⟨_, he⟩ | ⟨v, _, he⟩ | ⟨e', h, _⟩
      · exact he
      · exact he
      · rw [h] at hnf; simp [RowAct.isFail] at hnf

theorem castTimeAsDuration_errors_fatal_witness :
    (builtinCastTimeAsDurationSig.vecEvalDuration exampleConvertToDuration exampleRoundFrac
      ⟨false, 0, 7, 0, constChild ⟨[true, false], [default, ⟨2019, 11, 4, 12, 34, 56, 0, 0, 6⟩]⟩⟩
      (examplePool Time) warnCtx (exampleChunk 2) ⟨[], []⟩).sc = warnCtx ∧
    (builtinCastTimeAsDurationSig.vecEvalDuration exampleConvertToDuration exampleRoundFrac
      ⟨false, 0, 7, 0, constChild ⟨[true, false], [default, ⟨2019, 11, 4, 12, 34, 56, 0, 0, 6⟩]⟩⟩
      (examplePool Time) warnCtx (exampleChunk 2) ⟨[], []⟩).result.IsNull 1 = false ∧
    (builtinCastTimeAsDurationSig.vecEvalDuration exampleConvertToDuration exampleRoundFrac
      ⟨false, 0, 7, 0, constChild ⟨[true, false], [default, ⟨2019, 11, 4, 12, 34, 56, 0, 0, 6⟩]⟩⟩
      (examplePool Time) warnCtx (exampleChunk 2) ⟨[], []⟩).err = some (Error.other 7) := by
  have h := castTimeAsDuration_errors_fatal exampleConvertToDuration exampleRoundFrac
    ⟨false, 0, 7, 0, constChild ⟨[true, false], [default, ⟨2019, 11, 4, 12, 34, 56, 0, 0, 6⟩]⟩⟩
    (examplePool Time) warnCtx (exampleChunk 2) ⟨[], []⟩ ⟨[], []⟩ rfl rfl (by decide)
  refine ⟨h.1, h.2.1 1 (by decide), ?_⟩
  obtain ⟨f, e, _, _, _, he⟩ := h.2.2 ⟨1, by decide, by decide⟩
  exact he.trans (he.symm.trans (by decide))

/-! ## Strict mode and the destination column (C9) -/

/-- C9, the claim as stated fails: strict mode, a batch of four rows.  Decimal → Real,
called with an empty destination column on a batch whose last row overflows, returns the
overflow error and leaves a destination of four rows whose second row holds `7.0`.
Int → Duration, called with a destination that already has four rows on a batch whose
third row overflows, returns the overflow error and has overwritten the first row and
the null bits. -/
theorem strict_error_mutates_counterexample :
    ((builtinCastDecimalAsRealSig.vecEvalReal exampleToFloat64 exampleDecimalAsReal
        (examplePool MyDecimal) strictCtx (exampleChunk 4) ⟨[], []⟩).err
        = some (Error.overflow 1) ∧
      (builtinCastDecimalAsRealSig.vecEvalReal exampleToFloat64 exampleDecimalAsReal
        (examplePool MyDecimal) strictCtx (exampleChunk 4) ⟨[], []⟩).result.nullBitmap
        = [false, false, true, false] ∧
      (builtinCastDecimalAsRealSig.vecEvalReal exampleToFloat64 exampleDecimalAsReal
        (examplePool MyDecimal) strictCtx (exampleChunk 4) ⟨[], []⟩).result.data[1]?
        = some ⟨false, 1025, 3377699720527872⟩ ∧
      (builtinCastDecimalAsRealSig.vecEvalReal exampleToFloat64 exampleDecimalAsReal
        (examplePool MyDecimal) strictCtx (exampleChunk 4) ⟨[], []⟩).result ≠ ⟨[], []⟩) ∧
    ((builtinCastIntAsDurationSig.vecEvalDuration exampleNumberToDuration exampleIntAsDuration
        (examplePool Int) strictCtx (exampleChunk 4)
        ⟨[true, true, true, true], [1, 2, 3, 4]⟩).err = some (Error.overflow 9000000) ∧
      (builtinCastIntAsDurationSig.vecEvalDuration exampleNumberToDuration exampleIntAsDuration
        (examplePool Int) strictCtx (exampleChunk 4)
        ⟨[true, true, true, true], [1, 2, 3, 4]⟩).result.nullBitmap
        = [false, true, false, false] ∧
      (builtinCastIntAsDurationSig.vecEvalDuration exampleNumberToDuration exampleIntAsDuration
        (examplePool Int) strictCtx (exampleChunk 4)
        ⟨[true, true, true, true], [1, 2, 3, 4]⟩).result.data[0]? = some 45296000000000 ∧
      (builtinCastIntAsDurationSig.vecEvalDuration exampleNumberToDuration exampleIntAsDuration
        (examplePool Int) strictCtx (exampleChunk 4)
        ⟨[true, true, true, true], [1, 2, 3, 4]⟩).result
        ≠ ⟨[true, true, true, true], [1, 2, 3, 4]⟩) := by
  decide

theorem convAct_strict_isNull {β : Type} (r : Except Error β) :
    (convAct false r).isNull = false := by
  cases r with
  | ok v => rfl
  | error e => cases ho : ErrOverflow.Equal e <;> simp [convAct, ho, RowAct.isNull]

theorem castDecimalAsRealAct_strict_isNull (ToFloat64 : MyDecimal → Except Error Float64)
    (b : baseBuiltinCastFunc MyDecimal) (d : List MyDecimal) (isNull : Bool) (i : Nat) :
    (castDecimalAsRealAct ToFloat64 b d isNull false i).isNull = false := by
  unfold castDecimalAsRealAct
  split
  · rfl
  · split
    · rfl
    · exact convAct_strict_isNull _

theorem castIntAsDurationAct_strict_isNull
    (NumberToDuration : Int → Int → Except Error Duration)
    (b : baseBuiltinCastFunc Int) (i64s : List Int) (isNull : Bool) (i : Nat) :
    (castIntAsDurationAct NumberToDuration b i64s isNull false i).isNull = false := by
  unfold castIntAsDurationAct
  split
  · rfl
  · exact convAct_strict_isNull _

/-- C9, amended.  When Decimal → Real (likewise Int → Duration) returns a conversion
error in strict mode, on a batch on which the child succeeded and wrote one row per input
row: the destination column has been resized to the `n` rows of the batch, its null bits
are the child's, no warning has been recorded, the error is the one of the first row
whose conversion fails, and every non-null row before it holds its converted value (`0`
for a clamped row of Decimal → Real).  Nothing is said of the values of the other rows. -/
theorem strict_error_destination :
    (∀ (ToFloat64 : MyDecimal → Except Error Float64) (b : baseBuiltinCastFunc MyDecimal)
      (pool : columnBufferAllocator MyDecimal) (sc : StatementContext) (input : Chunk)
      (result : Column Float64) (buf0 : Column MyDecimal) (e : Error),
      pool.next = Except.ok buf0 →
      (b.arg0 sc input buf0).err = none →
      (b.arg0 sc input buf0).col.HasRows input.NumRows →
      (b.arg0 sc input buf0).sc.OverflowAsWarning = false →
      (builtinCastDecimalAsRealSig.vecEvalReal ToFloat64 b pool sc input result).err = some e →
      (builtinCastDecimalAsRealSig.vecEvalReal ToFloat64 b pool sc input
        result).result.HasRows input.NumRows ∧
      (∀ i, i < input.NumRows →
        (builtinCastDecimalAsRealSig.vecEvalReal ToFloat64 b pool sc input
          result).result.IsNull i = (b.arg0 sc input buf0).col.IsNull i) ∧
      (builtinCastDecimalAsRealSig.vecEvalReal ToFloat64 b pool sc input result).sc
        = (b.arg0 sc input buf0).sc ∧
      ∃ f, f < input.NumRows ∧
        castDecimalAsRealError ToFloat64 b (b.arg0 sc input buf0).col f = some e ∧
        ∀ i, i < f → (b.arg0 sc input buf0).col.IsNull i = false →
          castDecimalAsRealError ToFloat64 b (b.arg0 sc input buf0).col i = none ∧
          (((b.inUnion && HasUnsignedFlag b.tpFlag) &&
              ((b.arg0 sc input buf0).col.data.getD i default).IsNegative) = true →
            (builtinCastDecimalAsRealSig.vecEvalReal ToFloat64 b pool sc input
              result).result.data[i]? = some Float64.zero) ∧
          (∀ v, ((b.inUnion && HasUnsignedFlag b.tpFlag) &&
              ((b.arg0 sc input buf0).col.data.getD i default).IsNegative) = false →
            ToFloat64 ((b.arg0 sc input buf0).col.data.getD i default) = Except.ok v →
            (builtinCastDecimalAsRealSig.vecEvalReal ToFloat64 b pool sc input
              result).result.data[i]? = some v)) ∧
    (∀ (NumberToDuration : Int → Int → Except Error Duration) (b : baseBuiltinCastFunc Int)
      (pool : columnBufferAllocator Int) (sc : StatementContext) (input : Chunk)
      (result buf0 : Column Int) (e : Error),
      pool.next = Except.ok buf0 →
      (b.arg0 sc input buf0).err = none →
      (b.arg0 sc input buf0).col.HasRows input.NumRows →
      (b.arg0 sc input buf0).sc.OverflowAsWarning = false →
      (builtinCastIntAsDurationSig.vecEvalDuration NumberToDuration b pool sc input
        result).err = some e →
      (builtinCastIntAsDurationSig.vecEvalDuration NumberToDuration b pool sc input
        result).result.HasRows input.NumRows ∧
      (∀ i, i < input.NumRows →
        (builtinCastIntAsDurationSig.vecEvalDuration NumberToDuration b pool sc input
          result).result.IsNull i = (b.arg0 sc input buf0).col.IsNull i) ∧
      (builtinCastIntAsDurationSig.vecEvalDuration NumberToDuration b pool sc input result).sc
        = (b.arg0 sc input buf0).sc ∧
      ∃ f, f < input.NumRows ∧
        castIntAsDurationError NumberToDuration b (b.arg0 sc input buf0).col f = some e ∧
        ∀ i, i < f → (b.arg0 sc input buf0).col.IsNull i = false →
          castIntAsDurationError NumberToDuration b (b.arg0 sc input buf0).col i = none ∧
          ∀ d, NumberToDuration ((b.arg0 sc input buf0).col.data.getD i 0) (int8 b.tpDecimal)
              = Except.ok d →
            (builtinCastIntAsDurationSig.vecEvalDuration NumberToDuration b pool sc input
              result).result.data[i]? = some d.Duration) := by
  constructor
  · intro F b pool sc input result buf0 e hget herr _ hstrict hL
    rw [vecEvalReal_decimal_ok F b pool sc input result buf0 hget herr] at hL ⊢
    simp only at hL ⊢
    generalize (b.arg0 sc input buf0).col = col at hL ⊢
    generalize (b.arg0 sc input buf0).sc = csc at hL hstrict ⊢
    obtain ⟨f1, f2, _⟩ := merged_frame (castDecimalAsRealAct F b col.data) result col
      input.NumRows input.NumRows csc
    obtain ⟨n1, n2⟩ := merged_no_null_any (castDecimalAsRealAct F b col.data) result col
      input.NumRows csc
      (fun i _ => by rw [hstrict]; exact castDecimalAsRealAct_strict_isNull F b col.data _ i)
    obtain ⟨f, hf1, hf2, hf3⟩ := merged_err_first _ result col input.NumRows csc e hL
    refine ⟨⟨f1, f2⟩, n1, n2, f, hf1, ?_, ?_⟩
    · rcases castDecimalAsRealAct_cases F b col csc.OverflowAsWarning f with
        ⟨_, h, _⟩ | ⟨_, _, h, _⟩ | ⟨_, _, v, _, h, _⟩ | ⟨_, _, e', _, he, h⟩
      · rw [h] at hf2; cases hf2
      · rw [h] at hf2; cases hf2
      · rw [h] at hf2; cases hf2
      · rw [h, hstrict] at hf2
        simp at hf2
        rw [← hf2]; exact he
    · intro i hi hn
      obtain ⟨g1, g2⟩ := hf3 i hi
      rcases castDecimalAsRealAct_cases F b col csc.OverflowAsWarning i with
        ⟨hn', _, _⟩ | ⟨_, hc, h, he⟩ | ⟨_, hc, v, hv, h, he⟩ | ⟨_, _, e', _, _, h⟩
      · rw [hn] at hn'; cases hn'
      · refine ⟨he, fun _ => g2 _ h, ?_⟩
        intro v hc'
        rw [hc] at hc'; cases hc'
      · refine ⟨he, ?_, ?_⟩
        · intro hc'
          rw [hc] at hc'; cases hc'
        · intro v' _ hv'
          rw [hv] at hv'; cases hv'
          exact g2 _ h
      · rw [h, hstrict] at g1
        simp [RowAct.isFail] at g1
  · intro N b pool sc input result buf0 e hget herr _ hstrict hL
    rw [vecEvalDuration_int_ok N b pool sc input result buf0 hget herr] at hL ⊢
    simp only at hL ⊢
    generalize (b.arg0 sc input buf0).col = col at hL ⊢
    generalize (b.arg0 sc input buf0).sc = csc at hL hstrict ⊢
    obtain ⟨f1, f2, _⟩ := merged_frame (castIntAsDurationAct N b col.data) result col
      input.NumRows input.NumRows csc
    obtain ⟨n1, n2⟩ := merged_no_null_any (castIntAsDurationAct N b col.data) result col
      input.NumRows csc
      (fun i _ => by rw [hstrict]; exact castIntAsDurationAct_strict_isNull N b col.data _ i)
    obtain ⟨f, hf1, hf2, hf3⟩ := merged_err_first _ result col input.NumRows csc e hL
    refine ⟨⟨f1, f2⟩, n1, n2, f, hf1, ?_, ?_⟩
    · rcases castIntAsDurationAct_cases N b col csc.OverflowAsWarning f with
        ⟨_, h, _⟩ | ⟨_, d, _, h, _⟩ | ⟨_, e', _, he, h⟩
      · rw [h] at hf2; cases hf2
      · rw [h] at hf2; cases hf2
      · rw [h, hstrict] at hf2
        simp at hf2
        rw [← hf2]; exact he
    · intro i hi hn
      obtain ⟨g1, g2⟩ := hf3 i hi
      rcases castIntAsDurationAct_cases N b col csc.OverflowAsWarning i with
        ⟨hn', _, _⟩ | ⟨_, d, hd, h, he⟩ | ⟨_, e', _, _, h⟩
      · rw [hn] at hn'; cases hn'
      · refine ⟨he, ?_⟩
        intro d' hd'
        rw [hd] at hd'; cases hd'
        exact g2 _ h
      · rw [h, hstrict] at g1
        simp [RowAct.isFail] at g1

theorem strict_error_destination_witness :
    ((builtinCastDecimalAsRealSig.vecEvalReal exampleToFloat64 exampleDecimalAsReal
        (examplePool MyDecimal) strictCtx (exampleChunk 4) ⟨[], []⟩).result.HasRows 4 ∧
      (builtinCastDecimalAsRealSig.vecEvalReal exampleToFloat64 exampleDecimalAsReal
        (examplePool MyDecimal) strictCtx (exampleChunk 4) ⟨[], []⟩).sc = strictCtx) ∧
    ((builtinCastIntAsDurationSig.vecEvalDuration exampleNumberToDuration exampleIntAsDuration
        (examplePool Int) strictCtx (exampleChunk 4) ⟨[], []⟩).result.HasRows 4 ∧
      (builtinCastIntAsDurationSig.vecEvalDuration exampleNumberToDuration exampleIntAsDuration
        (examplePool Int) strictCtx (exampleChunk 4) ⟨[], []⟩).sc = strictCtx) := by
  have h1 := strict_error_destination.1 exampleToFloat64 exampleDecimalAsReal
    (examplePool MyDecimal) strictCtx (exampleChunk 4) ⟨[], []⟩ ⟨[], []⟩ (Error.overflow 1)
    rfl rfl (by decide) rfl (by decide)
  have h2 := strict_error_destination.2 exampleNumberToDuration exampleIntAsDuration
    (examplePool Int) strictCtx (exampleChunk 4) ⟨[], []⟩ ⟨[], []⟩ (Error.overflow 9000000)
    rfl rfl (by decide) rfl (by decide)
  exact ⟨⟨h1.1, h1.2.2.1⟩, ⟨h2.1, h2.2.2.1⟩⟩

/-! ## Buffer hygiene (C10) -/

theorem put_get_balance {α : Type} (pool : columnBufferAllocator α) (buf : Column α) :
    (columnBufferAllocator.put { pool with checkedOut := pool.checkedOut + 1 } buf).checkedOut
      = pool.checkedOut ∧
    (columnBufferAllocator.put { pool with checkedOut := pool.checkedOut + 1 } buf).puts
      = pool.puts + 1 := by
  simp [columnBufferAllocator.put]

/-- C10 (buffer hygiene).  For each buffered handler and every input, whichever path the
handler leaves by (acquisition failure, child error, conversion error, success): the
allocator has as many buffers checked out when the handler returns as when it was
called, and `put` has been called once if the acquisition succeeded and not at all if it
failed. -/
theorem buffer_hygiene :
    (∀ (NumberToDuration : Int → Int → Except Error Duration) (b : baseBuiltinCastFunc Int)
      (pool : columnBufferAllocator Int) (sc : StatementContext) (input : Chunk)
      (result : Column Int),
      (builtinCastIntAsDurationSig.vecEvalDuration NumberToDuration b pool sc input
        result).pool.checkedOut = pool.checkedOut ∧
      (builtinCastIntAsDurationSig.vecEvalDuration NumberToDuration b pool sc input
        result).pool.puts = pool.puts + (if pool.next.isOk then 1 else 0)) ∧
    (∀ (b : baseBuiltinCastFunc Int) (pool : columnBufferAllocator Int)
      (sc : StatementContext) (input : Chunk) (result : Column Float64),
      (builtinCastIntAsRealSig.vecEvalReal b pool sc input result).pool.checkedOut
        = pool.checkedOut ∧
      (builtinCastIntAsRealSig.vecEvalReal b pool sc input result).pool.puts
        = pool.puts + (if pool.next.isOk then 1 else 0)) ∧
    (∀ (ToFloat64 : MyDecimal → Except Error Float64) (b : baseBuiltinCastFunc MyDecimal)
      (pool : columnBufferAllocator MyDecimal) (sc : StatementContext) (input : Chunk)
      (result : Column Float64),
      (builtinCastDecimalAsRealSig.vecEvalReal ToFloat64 b pool sc input
        result).pool.checkedOut = pool.checkedOut ∧
      (builtinCastDecimalAsRealSig.vecEvalReal ToFloat64 b pool sc input result).pool.puts
        = pool.puts + (if pool.next.isOk then 1 else 0)) ∧
    (∀ (ConvertToDuration : Time → Except Error Duration)
      (RoundFrac : Duration → Int → Except Error Duration) (b : baseBuiltinCastFunc Time)
      (pool : columnBufferAllocator Time) (sc : StatementContext) (input : Chunk)
      (result : Column Int),
      (builtinCastTimeAsDurationSig.vecEvalDuration ConvertToDuration RoundFrac b pool sc
        input result).pool.checkedOut = pool.checkedOut ∧
      (builtinCastTimeAsDurationSig.vecEvalDuration ConvertToDuration RoundFrac b pool sc
        input result).pool.puts = pool.puts + (if pool.next.isOk then 1 else 0)) := by
  refine ⟨?_, ?_, ?_, ?_⟩
  · intro N b pool sc input result
    cases hget : pool.next with
    | error e =>
      rw [vecEvalDuration_int_get_err N b pool sc input result e hget]
      simp [Except.isOk, Except.toBool]
    | ok buf0 =>
      cases herr : (b.arg0 sc input buf0).err with
      | some e =>
        rw [vecEvalDuration_int_child_err N b pool sc input result buf0 e hget herr]
        simpa [Except.isOk, Except.toBool] using put_get_balance pool _
      | none =>
        rw [vecEvalDuration_int_ok N b pool sc input result buf0 hget herr]
        simpa [Except.isOk, Except.toBool] using put_get_balance pool _
  · intro b pool sc input result
    cases hget : pool.next with
    | error e =>
      rw [vecEvalReal_int_get_err b pool sc input result e hget]
      simp [Except.isOk, Except.toBool]
    | ok buf0 =>
      cases herr : (b.arg0 sc input buf0).err with
      | some e =>
        rw [vecEvalReal_int_child_err b pool sc input result buf0 e hget herr]
        simpa [Except.isOk, Except.toBool] using put_get_balance pool _
      | none =>
        rw [vecEvalReal_int_ok b pool sc input result buf0 hget herr]
        simpa [Except.isOk, Except.toBool] using put_get_balance pool _
  · intro F b pool sc input result
    cases hget : pool.next with
    | error e =>
      rw [vecEvalReal_decimal_get_err F b pool sc input result e hget]
      simp [Except.isOk, Except.toBool]
    | ok buf0 =>
      cases herr : (b.arg0 sc input buf0).err with
      | some e =>
        rw [vecEvalReal_decimal_child_err F b pool sc input result buf0 e hget herr]
        simpa [Except.isOk, Except.toBool] using put_get_balance pool _
      | none =>
        rw [vecEvalReal_decimal_ok F b pool sc input result buf0 hget herr]
        simpa [Except.isOk, Except.toBool] using put_get_balance pool _
  · intro C R b pool sc input result
    cases hget : pool.next with
    | error e =>
      rw [vecEvalDuration_time_get_err C R b pool sc input result e hget]
      simp [Except.isOk, Except.toBool]
    | ok buf0 =>
      cases herr : (b.arg0 sc input buf0).err with
      | some e =>
        rw [vecEvalDuration_time_child_err C R b pool sc input result buf0 e hget herr]
        simpa [Except.isOk, Except.toBool] using put_get_balance pool _
      | none =>
        rw [vecEvalDuration_time_ok C R b pool sc input result buf0 hget herr]
        simpa [Except.isOk, Except.toBool] using put_get_balance pool _

/-! ## Child-error propagation (C19) -/

/-- C19 (child-error propagation).  In each buffered handler: if the acquisition of the
scratch buffer fails with `e`, the handler returns `e` and leaves the destination column
and the statement context as they were; if the acquisition succeeds and the evaluation of
the child fails with `e`, the handler returns `e`, leaves the destination column as it was
(not resized, not written) and leaves the statement context as the child left it (the
handler records no warning). -/
theorem child_error_propagation :
    (∀ (NumberToDuration : Int → Int → Except Error Duration) (b : baseBuiltinCastFunc Int)
      (pool : columnBufferAllocator Int) (sc : StatementContext) (input : Chunk)
      (result : Column Int) (e : Error),
      (pool.next = Except.error e →
        (builtinCastIntAsDurationSig.vecEvalDuration NumberToDuration b pool sc input
          result).err = some e ∧
        (builtinCastIntAsDurationSig.vecEvalDuration NumberToDuration b pool sc input
          result).result = result ∧
        (builtinCastIntAsDurationSig.vecEvalDuration NumberToDuration b pool sc input
          result).sc = sc) ∧
      (∀ buf0, pool.next = Except.ok buf0 → (b.arg0 sc input buf0).err = some e →
        (builtinCastIntAsDurationSig.vecEvalDuration NumberToDuration b pool sc input
          result).err = some e ∧
        (builtinCastIntAsDurationSig.vecEvalDuration NumberToDuration b pool sc input
          result).result = result ∧
        (builtinCastIntAsDurationSig.vecEvalDuration NumberToDuration b pool sc input
          result).sc = (b.arg0 sc input buf0).sc)) ∧
    (∀ (b : baseBuiltinCastFunc Int) (pool : columnBufferAllocator Int)
      (sc : StatementContext) (input : Chunk) (result : Column Float64) (e : Error),
      (pool.next = Except.error e →
        (builtinCastIntAsRealSig.vecEvalReal b pool sc input result).err = some e ∧
        (builtinCastIntAsRealSig.vecEvalReal b pool sc input result).result = result ∧
        (builtinCastIntAsRealSig.vecEvalReal b pool sc input result).sc = sc) ∧
      (∀ buf0, pool.next = Except.ok buf0 → (b.arg0 sc input buf0).err = some e →
        (builtinCastIntAsRealSig.vecEvalReal b pool sc input result).err = some e ∧
        (builtinCastIntAsRealSig.vecEvalReal b pool sc input result).result = result ∧
        (builtinCastIntAsRealSig.vecEvalReal b pool sc input result).sc
          = (b.arg0 sc input buf0).sc)) ∧
    (∀ (ToFloat64 : MyDecimal → Except Error Float64) (b : baseBuiltinCastFunc MyDecimal)
      (pool : columnBufferAllocator MyDecimal) (sc : StatementContext) (input : Chunk)
      (result : Column Float64) (e : Error),
      (pool.next = Except.error e →
        (builtinCastDecimalAsRealSig.vecEvalReal ToFloat64 b pool sc input result).err
          = some e ∧
        (builtinCastDecimalAsRealSig.vecEvalReal ToFloat64 b pool sc input result).result
          = result ∧
        (builtinCastDecimalAsRealSig.vecEvalReal ToFloat64 b pool sc input result).sc = sc) ∧
      (∀ buf0, pool.next = Except.ok buf0 → (b.arg0 sc input buf0).err = some e →
        (builtinCastDecimalAsRealSig.vecEvalReal ToFloat64 b pool sc input result).err
          = some e ∧
        (builtinCastDecimalAsRealSig.vecEvalReal ToFloat64 b pool sc input result).result
          = result ∧
        (builtinCastDecimalAsRealSig.vecEvalReal ToFloat64 b pool sc input result).sc
          = (b.arg0 sc input buf0).sc)) ∧
    (∀ (ConvertToDuration : Time → Except Error Duration)
      (RoundFrac : Duration → Int → Except Error Duration) (b : baseBuiltinCastFunc Time)
      (pool : columnBufferAllocator Time) (sc : StatementContext) (input : Chunk)
      (result : Column Int) (e : Error),
      (pool.next = Except.error e →
        (builtinCastTimeAsDurationSig.vecEvalDuration ConvertToDuration RoundFrac b pool sc
          input result).err = some e ∧
        (builtinCastTimeAsDurationSig.vecEvalDuration ConvertToDuration RoundFrac b pool sc
          input result).result = result ∧
        (builtinCastTimeAsDurationSig.vecEvalDuration ConvertToDuration RoundFrac b pool sc
          input result).sc = sc) ∧
      (∀ buf0, pool.next = Except.ok buf0 → (b.arg0 sc input buf0).err = some e →
        (builtinCastTimeAsDurationSig.vecEvalDuration ConvertToDuration RoundFrac b pool sc
          input result).err = some e ∧
        (builtinCastTimeAsDurationSig.vecEvalDuration ConvertToDuration RoundFrac b pool sc
          input result).result = result ∧
        (builtinCastTimeAsDurationSig.vecEvalDuration ConvertToDuration RoundFrac b pool sc
          input result).sc = (b.arg0 sc input buf0).sc)) := by
  refine ⟨?_, ?_, ?_, ?_⟩
  · intro N b pool sc input result e
    constructor
    · intro hget
      rw [vecEvalDuration_int_get_err N b pool sc input result e hget]
      exact ⟨rfl, rfl, rfl⟩
    · intro buf0 hget herr
      rw [vecEvalDuration_int_child_err N b pool sc input result buf0 e hget herr]
      exact ⟨rfl, rfl, rfl⟩
  · intro b pool sc input result e
    constructor
    · intro hget
      rw [vecEvalReal_int_get_err b pool sc input result e hget]
      exact ⟨rfl, rfl, rfl⟩
    · intro buf0 hget herr
      rw [vecEvalReal_int_child_err b pool sc input result buf0 e hget herr]
      exact ⟨rfl, rfl, rfl⟩
  · intro F b pool sc input result e
    constructor
    · intro hget
      rw [vecEvalReal_decimal_get_err F b pool sc input result e hget]
      exact ⟨rfl, rfl, rfl⟩
    · intro buf0 hget herr
      rw [vecEvalReal_decimal_child_err F b pool sc input result buf0 e hget herr]
      exact ⟨rfl, rfl, rfl⟩
  · intro C R b pool sc input result e
    constructor
    · intro hget
      rw [vecEvalDuration_time_get_err C R b pool sc input result e hget]
      exact ⟨rfl, rfl, rfl⟩
    · intro buf0 hget herr
      rw [vecEvalDuration_time_child_err C R b pool sc input result buf0 e hget herr]
      exact ⟨rfl, rfl, rfl⟩

theorem child_error_propagation_witness :
    ((builtinCastIntAsDurationSig.vecEvalDuration exampleNumberToDuration exampleIntAsDuration
        ⟨Except.error (Error.other 1), 0, 0⟩ warnCtx (exampleChunk 4) ⟨[true], [5]⟩).err
        = some (Error.other 1) ∧
      (builtinCastIntAsDurationSig.vecEvalDuration exampleNumberToDuration exampleIntAsDuration
        ⟨Except.error (Error.other 1), 0, 0⟩ warnCtx (exampleChunk 4) ⟨[true], [5]⟩).result
        = ⟨[true], [5]⟩ ∧
      (builtinCastIntAsDurationSig.vecEvalDuration exampleNumberToDuration exampleIntAsDuration
        ⟨Except.error (Error.other 1), 0, 0⟩ warnCtx (exampleChunk 4) ⟨[true], [5]⟩).sc
        = warnCtx) ∧
    ((builtinCastDecimalAsRealSig.vecEvalReal exampleToFloat64
        ⟨true, 32, 0, 0, failingChild (Error.other 2)⟩ (examplePool MyDecimal) strictCtx
        (exampleChunk 4) ⟨[true], [Float64.zero]⟩).err = some (Error.other 2) ∧
      (builtinCastDecimalAsRealSig.vecEvalReal exampleToFloat64
        ⟨true, 32, 0, 0, failingChild (Error.other 2)⟩ (examplePool MyDecimal) strictCtx
        (exampleChunk 4) ⟨[true], [Float64.zero]⟩).result = ⟨[true], [Float64.zero]⟩ ∧
      (builtinCastDecimalAsRealSig.vecEvalReal exampleToFloat64
        ⟨true, 32, 0, 0, failingChild (Error.other 2)⟩ (examplePool MyDecimal) strictCtx
        (exampleChunk 4) ⟨[true], [Float64.zero]⟩).sc = strictCtx) :=
  ⟨(child_error_propagation.1 exampleNumberToDuration exampleIntAsDuration
      ⟨Except.error (Error.other 1), 0, 0⟩ warnCtx (exampleChunk 4) ⟨[true], [5]⟩
      (Error.other 1)).1 rfl,
    (child_error_propagation.2.2.1 exampleToFloat64
      ⟨true, 32, 0, 0, failingChild (Error.other 2)⟩ (examplePool MyDecimal) strictCtx
      (exampleChunk 4) ⟨[true], [Float64.zero]⟩ (Error.other 2)).2 ⟨[], []⟩ rfl rfl⟩

/-! ## The destination is resized to the batch (C14) -/

/-- C14 (row count on success).  Whatever the destination column holds before the call,
on every batch on which a buffered handler returns success (the child having written one
row per input row) the destination column has exactly `n` null bits and `n` stored
values, `n` being the row count of the input batch. -/
theorem destination_row_count :
    (∀ (NumberToDuration : Int → Int → Except Error Duration) (b : baseBuiltinCastFunc Int)
      (pool : columnBufferAllocator Int) (sc : StatementContext) (input : Chunk)
      (result buf0 : Column Int),
      pool.next = Except.ok buf0 →
      (b.arg0 sc input buf0).col.HasRows input.NumRows →
      (builtinCastIntAsDurationSig.vecEvalDuration NumberToDuration b pool sc input
        result).err = none →
      (builtinCastIntAsDurationSig.vecEvalDuration NumberToDuration b pool sc input
        result).result.HasRows input.NumRows) ∧
    (∀ (b : baseBuiltinCastFunc Int) (pool : columnBufferAllocator Int)
      (sc : StatementContext) (input : Chunk) (result : Column Float64) (buf0 : Column Int),
      pool.next = Except.ok buf0 →
      (b.arg0 sc input buf0).col.HasRows input.NumRows →
      (builtinCastIntAsRealSig.vecEvalReal b pool sc input result).err = none →
      (builtinCastIntAsRealSig.vecEvalReal b pool sc input result).result.HasRows
        input.NumRows) ∧
    (∀ (ToFloat64 : MyDecimal → Except Error Float64) (b : baseBuiltinCastFunc MyDecimal)
      (pool : columnBufferAllocator MyDecimal) (sc : StatementContext) (input : Chunk)
      (result : Column Float64) (buf0 : Column MyDecimal),
      pool.next = Except.ok buf0 →
      (b.arg0 sc input buf0).col.HasRows input.NumRows →
      (builtinCastDecimalAsRealSig.vecEvalReal ToFloat64 b pool sc input result).err = none →
      (builtinCastDecimalAsRealSig.vecEvalReal ToFloat64 b pool sc input
        result).result.HasRows input.NumRows) ∧
    (∀ (ConvertToDuration : Time → Except Error Duration)
      (RoundFrac : Duration → Int → Except Error Duration) (b : baseBuiltinCastFunc Time)
      (pool : columnBufferAllocator Time) (sc : StatementContext) (input : Chunk)
      (result : Column Int) (buf0 : Column Time),
      pool.next = Except.ok buf0 →
      (b.arg0 sc input buf0).col.HasRows input.NumRows →
      (builtinCastTimeAsDurationSig.vecEvalDuration ConvertToDuration RoundFrac b pool sc
        input result).err = none →
      (builtinCastTimeAsDurationSig.vecEvalDuration ConvertToDuration RoundFrac b pool sc
        input result).result.HasRows input.NumRows) := by
  refine ⟨?_, ?_, ?_, ?_⟩
  · intro N b pool sc input result buf0 hget _ hok
    cases herr : (b.arg0 sc input buf0).err with
    | some e =>
      rw [vecEvalDuration_int_child_err N b pool sc input result buf0 e hget herr] at hok
      simp at hok
    | none =>
      rw [vecEvalDuration_int_ok N b pool sc input result buf0 hget herr]
      obtain ⟨f1, f2, _⟩ := merged_frame
        (castIntAsDurationAct N b (b.arg0 sc input buf0).col.data) result
        (b.arg0 sc input buf0).col input.NumRows input.NumRows (b.arg0 sc input buf0).sc
      exact ⟨f1, f2⟩
  · intro b pool sc input result buf0 hget _ hok
    cases herr : (b.arg0 sc input buf0).err with
    | some e =>
      rw [vecEvalReal_int_child_err b pool sc input result buf0 e hget herr] at hok
      simp at hok
    | none =>
      rw [vecEvalReal_int_ok b pool sc input result buf0 hget herr]
      obtain ⟨f1, f2, _⟩ := merged_frame
        (fun isNull _ i => castIntAsRealAct b (b.arg0 sc input buf0).col.data isNull i) result
        (b.arg0 sc input buf0).col input.NumRows input.NumRows (b.arg0 sc input buf0).sc
      exact ⟨f1, f2⟩
  · intro F b pool sc input result buf0 hget _ hok
    cases herr : (b.arg0 sc input buf0).err with
    | some e =>
      rw [vecEvalReal_decimal_child_err F b pool sc input result buf0 e hget herr] at hok
      simp at hok
    | none =>
      rw [vecEvalReal_decimal_ok F b pool sc input result buf0 hget herr]
      obtain ⟨f1, f2, _⟩ := merged_frame
        (castDecimalAsRealAct F b (b.arg0 sc input buf0).col.data) result
        (b.arg0 sc input buf0).col input.NumRows input.NumRows (b.arg0 sc input buf0).sc
      exact ⟨f1, f2⟩
  · intro C R b pool sc input result buf0 hget _ hok
    cases herr : (b.arg0 sc input buf0).err with
    | some e =>
      rw [vecEvalDuration_time_child_err C R b pool sc input result buf0 e hget herr] at hok
      simp at hok
    | none =>
      rw [vecEvalDuration_time_ok C R b pool sc input result buf0 hget herr]
      obtain ⟨f1, f2, _⟩ := merged_frame
        (fun isNull _ i =>
          castTimeAsDurationAct C R b (b.arg0 sc input buf0).col.data isNull i) result
        (b.arg0 sc input buf0).col input.NumRows (b.arg0 sc input buf0).col.data.length
        (b.arg0 sc input buf0).sc
      exact ⟨f1, f2⟩

theorem destination_row_count_witness :
    (builtinCastIntAsDurationSig.vecEvalDuration exampleNumberToDuration exampleIntAsDuration
      (examplePool Int) warnCtx (exampleChunk 4) ⟨[true], [1, 2, 3, 4, 5, 6]⟩).result.HasRows 4 ∧
    (builtinCastIntAsRealSig.vecEvalReal exampleIntAsReal (examplePool Int) warnCtx
      (exampleChunk 4) ⟨[], []⟩).result.HasRows 4 ∧
    (builtinCastDecimalAsRealSig.vecEvalReal exampleToFloat64 exampleDecimalAsReal
      (examplePool MyDecimal) warnCtx (exampleChunk 4) ⟨[true, true], []⟩).result.HasRows 4 ∧
    (builtinCastTimeAsDurationSig.vecEvalDuration exampleConvertToDuration exampleRoundFrac
      exampleTimeAsDuration (examplePool Time) warnCtx (exampleChunk 2)
      ⟨[false, false, false], [7, 8, 9]⟩).result.HasRows 2 :=
  ⟨destination_row_count.1 exampleNumberToDuration exampleIntAsDuration (examplePool Int)
      warnCtx (exampleChunk 4) ⟨[true], [1, 2, 3, 4, 5, 6]⟩ ⟨[], []⟩ rfl (by decide) (by decide),
    destination_row_count.2.1 exampleIntAsReal (examplePool Int) warnCtx
      (exampleChunk 4) ⟨[], []⟩ ⟨[], []⟩ rfl (by decide) (by decide),
    destination_row_count.2.2.1 exampleToFloat64 exampleDecimalAsReal (examplePool MyDecimal)
      warnCtx (exampleChunk 4) ⟨[true, true], []⟩ ⟨[], []⟩ rfl (by decide) (by decide),
    destination_row_count.2.2.2 exampleConvertToDuration exampleRoundFrac
      exampleTimeAsDuration (examplePool Time) warnCtx (exampleChunk 2)
      ⟨[false, false, false], [7, 8, 9]⟩ ⟨[], []⟩ rfl (by decide) (by decide)⟩

/-! ## Real → Real (C11) and the clamps that never null (C12) -/

theorem Column.value_eq {α : Type} [Inhabited α] (c : Column α) (i : Nat) :
    c.value i = c.data[i]?.getD default := by
  simp [Column.value, List.getD_eq_getElem?_getD]

/-- The loop of Real → Real (lines 133-140) never returns an error, touches no null bit,
and sets to `0` exactly the rows of its range that are not null and hold a value less
than `0`. -/
theorem castRealAsReal_loop (k lo : Nat) (c : Column Float64) :
    (forLoop castRealAsRealBody k lo c).1 = none ∧
    (forLoop castRealAsRealBody k lo c).2.nullBitmap = c.nullBitmap ∧
    (forLoop castRealAsRealBody k lo c).2.data.length = c.data.length ∧
    ∀ j, (forLoop castRealAsRealBody k lo c).2.data[j]? =
      if lo ≤ j ∧ j < lo + k ∧ c.IsNull j = false ∧ (c.value j).ltZero = true then
        c.data[j]?.map (fun _ => Float64.zero)
      else c.data[j]? := by
  induction k generalizing lo c with
  | zero =>
    refine ⟨rfl, rfl, rfl, ?_⟩
    intro j
    have : ¬ (lo ≤ j ∧ j < lo + 0 ∧ c.IsNull j = false ∧ (c.value j).ltZero = true) := by
      intro h; omega
    rw [if_neg this]
    rfl
  | succ k ih =>
    rw [forLoop_succ]
    by_cases hset : c.IsNull lo = false ∧ (c.value lo).ltZero = true
    · have hb : castRealAsRealBody lo c = (none, c.setValue lo Float64.zero) := by
        unfold castRealAsRealBody
        simp [hset.1, hset.2]
      rw [hb]
      obtain ⟨i1, i2, i3, i4⟩ := ih (lo + 1) (c.setValue lo Float64.zero)
      refine ⟨i1, i2, by rw [i3]; simp, ?_⟩
      intro j
      rw [i4 j]
      by_cases hj : j = lo
      · subst hj
        have h1 : ¬ (j + 1 ≤ j ∧ j < j + 1 + k ∧ (c.setValue j Float64.zero).IsNull j = false ∧
            ((c.setValue j Float64.zero).value j).ltZero = true) := by
          intro h; omega
        have h2 : j ≤ j ∧ j < j + (k + 1) ∧ c.IsNull j = false ∧ (c.value j).ltZero = true :=
          ⟨le_refl _, by omega, hset.1, hset.2⟩
        rw [if_neg h1, if_pos h2, Column.setValue_data_get]
        by_cases hlen : j < c.data.length
        · simp [hlen]
        · simp [hlen, List.getElem?_eq_none (Nat.le_of_not_lt hlen)]
      · have hne : ¬ lo = j := fun h => hj h.symm
        have hd : (c.setValue lo Float64.zero).data[j]? = c.data[j]? := by
          rw [Column.setValue_data_get]; simp [hne]
        have hv : (c.setValue lo Float64.zero).value j = c.value j := by
          rw [Column.value_eq, Column.value_eq, hd]
        rw [hd, hv, Column.setValue_IsNull]
        have hiff : (lo + 1 ≤ j ∧ j < lo + 1 + k ∧ c.IsNull j = false ∧
            (c.value j).ltZero = true) ↔
            (lo ≤ j ∧ j < lo + (k + 1) ∧ c.IsNull j = false ∧ (c.value j).ltZero = true) := by
          constructor
          · rintro ⟨a, b, c, d⟩; exact ⟨by omega, by omega, c, d⟩
          · rintro ⟨a, b, c, d⟩; exact ⟨by omega, by omega, c, d⟩
        simp only [hiff]
    · have hb : castRealAsRealBody lo c = (none, c) := by
        unfold castRealAsRealBody
        cases h1 : c.IsNull lo with
        | true => simp
        | false =>
          cases h2 : (c.value lo).ltZero with
          | true => exact absurd ⟨h1, h2⟩ hset
          | false => simp
      rw [hb]
      obtain ⟨i1, i2, i3, i4⟩ := ih (lo + 1) c
      refine ⟨i1, i2, i3, ?_⟩
      intro j
      rw [i4 j]
      by_cases hj : j = lo
      · subst hj
        have h1 : ¬ (j + 1 ≤ j ∧ j < j + 1 + k ∧ c.IsNull j = false ∧
            (c.value j).ltZero = true) := by
          intro h; omega
        have h2 : ¬ (j ≤ j ∧ j < j + (k + 1) ∧ c.IsNull j = false ∧
            (c.value j).ltZero = true) := fun h => hset ⟨h.2.2.1, h.2.2.2⟩
        rw [if_neg h1, if_neg h2]
      · have hiff : (lo + 1 ≤ j ∧ j < lo + 1 + k ∧ c.IsNull j = false ∧
            (c.value j).ltZero = true) ↔
            (lo ≤ j ∧ j < lo + (k + 1) ∧ c.IsNull j = false ∧ (c.value j).ltZero = true) := by
          constructor
          · rintro ⟨a, b, c, d⟩; exact ⟨by omega, by omega, c, d⟩
          · rintro ⟨a, b, c, d⟩; exact ⟨by omega, by omega, c, d⟩
        simp only [hiff]


theorem vecEvalReal_real_clamp (b : baseBuiltinCastFunc Float64) (sc : StatementContext)
    (input : Chunk) (result : Column Float64) (herr : (b.arg0 sc input result).err = none)
    (hc : (b.inUnion && HasUnsignedFlag b.tpFlag) = true) :
    builtinCastRealAsRealSig.vecEvalReal b sc input result =
      { err := (forLoop castRealAsRealBody input.NumRows 0 (b.arg0 sc input result).col).1
        col := (forLoop castRealAsRealBody input.NumRows 0 (b.arg0 sc input result).col).2
        sc := (b.arg0 sc input result).sc } := by
  simp only [builtinCastRealAsRealSig.vecEvalReal, herr, hc, Bool.not_true, Bool.false_eq_true,
    if_false]

theorem vecEvalReal_real_copy (b : baseBuiltinCastFunc Float64) (sc : StatementContext)
    (input : Chunk) (result : Column Float64) (herr : (b.arg0 sc input result).err = none)
    (hc : (b.inUnion && HasUnsignedFlag b.tpFlag) = false) :
    builtinCastRealAsRealSig.vecEvalReal b sc input result =
      { err := none, col := (b.arg0 sc input result).col, sc := (b.arg0 sc input result).sc } := by
  simp only [builtinCastRealAsRealSig.vecEvalReal, herr, hc, Bool.not_false, if_true]

theorem vecEvalReal_real_child_err (b : baseBuiltinCastFunc Float64) (sc : StatementContext)
    (input : Chunk) (result : Column Float64) (e : Error)
    (herr : (b.arg0 sc input result).err = some e) :
    builtinCastRealAsRealSig.vecEvalReal b sc input result =
      { err := some e, col := (b.arg0 sc input result).col,
        sc := (b.arg0 sc input result).sc } := by
  simp only [builtinCastRealAsRealSig.vecEvalReal, herr]

/-- C11 (Real → Real).  When the child evaluation succeeds (having written one row per
input row) the handler succeeds, and: if the signature is UNION-sourced and the
destination is unsigned, every row that is not null and holds a value less than `0` holds
`0` afterwards and every other row holds what the child wrote, the null bits and the row
count being the child's; otherwise the output column is exactly the child's. -/
theorem castRealAsReal_values (b : baseBuiltinCastFunc Float64) (sc : StatementContext)
    (input : Chunk) (result : Column Float64)
    (hchild : (b.arg0 sc input result).err = none)
    (hrows : (b.arg0 sc input result).col.HasRows input.NumRows) :
    (builtinCastRealAsRealSig.vecEvalReal b sc input result).err = none ∧
    ((b.inUnion = true ∧ HasUnsignedFlag b.tpFlag = true) →
      (builtinCastRealAsRealSig.vecEvalReal b sc input result).col.nullBitmap =
        (b.arg0 sc input result).col.nullBitmap ∧
      (builtinCastRealAsRealSig.vecEvalReal b sc input result).col.data.length =
        input.NumRows ∧
      ∀ i, i < input.NumRows →
        (((b.arg0 sc input result).col.IsNull i = false ∧
            ((b.arg0 sc input result).col.value i).ltZero = true) →
          (builtinCastRealAsRealSig.vecEvalReal b sc input result).col.data[i]? =
            some Float64.zero) ∧
        (¬ ((b.arg0 sc input result).col.IsNull i = false ∧
            ((b.arg0 sc input result).col.value i).ltZero = true) →
          (builtinCastRealAsRealSig.vecEvalReal b sc input result).col.data[i]? =
            (b.arg0 sc input result).col.data[i]?)) ∧
    (¬ (b.inUnion = true ∧ HasUnsignedFlag b.tpFlag = true) →
      (builtinCastRealAsRealSig.vecEvalReal b sc input result).col =
        (b.arg0 sc input result).col) := by
  by_cases hc : b.inUnion = true ∧ HasUnsignedFlag b.tpFlag = true
  · have hc' : (b.inUnion && HasUnsignedFlag b.tpFlag) = true := by simp [hc.1, hc.2]
    rw [vecEvalReal_real_clamp b sc input result hchild hc']
    obtain ⟨l1, l2, l3, l4⟩ := castRealAsReal_loop input.NumRows 0 (b.arg0 sc input result).col
    refine ⟨l1, fun _ => ⟨l2, l3.trans hrows.2, ?_⟩, fun h => absurd hc h⟩
    intro i hi
    have hlen : i < (b.arg0 sc input result).col.data.length := by rw [hrows.2]; exact hi
    constructor
    · intro h
      show (forLoop castRealAsRealBody input.NumRows 0 (b.arg0 sc input result).col).2.data[i]?
        = some Float64.zero
      rw [l4 i, if_pos ⟨Nat.zero_le _, by omega, h.1, h.2⟩, List.getElem?_eq_getElem hlen]
      rfl
    · intro h
      show (forLoop castRealAsRealBody input.NumRows 0 (b.arg0 sc input result).col).2.data[i]?
        = (b.arg0 sc input result).col.data[i]?
      rw [l4 i, if_neg (fun h' => h ⟨h'.2.2.1, h'.2.2.2⟩)]
  · have hc' : (b.inUnion && HasUnsignedFlag b.tpFlag) = false := by
      cases h1 : b.inUnion <;> cases h2 : HasUnsignedFlag b.tpFlag <;> simp_all
    rw [vecEvalReal_real_copy b sc input result hchild hc']
    exact ⟨rfl, fun h => absurd h hc, fun _ => rfl⟩

theorem castRealAsReal_values_witness :
    (builtinCastRealAsRealSig.vecEvalReal
      ⟨true, 32, 0, 0, constChild ⟨[false, true, false, false],
        [⟨true, 1025, 1125899906842624⟩, ⟨true, 1023, 0⟩, ⟨false, 1023, 0⟩, ⟨true, 0, 0⟩]⟩⟩
      warnCtx (exampleChunk 4) ⟨[], []⟩).err = none ∧
    (builtinCastRealAsRealSig.vecEvalReal
      ⟨true, 32, 0, 0, constChild ⟨[false, true, false, false],
        [⟨true, 1025, 1125899906842624⟩, ⟨true, 1023, 0⟩, ⟨false, 1023, 0⟩, ⟨true, 0, 0⟩]⟩⟩
      warnCtx (exampleChunk 4) ⟨[], []⟩).col =
      ⟨[false, true, false, false],
        [Float64.zero, ⟨true, 1023, 0⟩, ⟨false, 1023, 0⟩, ⟨true, 0, 0⟩]⟩ :=
  ⟨(castRealAsReal_values
      ⟨true, 32, 0, 0, constChild ⟨[false, true, false, false],
        [⟨true, 1025, 1125899906842624⟩, ⟨true, 1023, 0⟩, ⟨false, 1023, 0⟩, ⟨true, 0, 0⟩]⟩⟩
      warnCtx (exampleChunk 4) ⟨[], []⟩ rfl (by decide)).1, by decide⟩

theorem vecEvalInt_child_err (b : baseBuiltinCastFunc Int) (sc : StatementContext)
    (input : Chunk) (result : Column Int) (e : Error)
    (herr : (b.arg0 sc input result).err = some e) :
    builtinCastIntAsIntSig.vecEvalInt b sc input result =
      { err := some e, col := (b.arg0 sc input result).col,
        sc := (b.arg0 sc input result).sc } := by
  simp only [builtinCastIntAsIntSig.vecEvalInt, herr]

theorem vecEvalInt_copy (b : baseBuiltinCastFunc Int) (sc : StatementContext)
    (input : Chunk) (result : Column Int) (herr : (b.arg0 sc input result).err = none)
    (hc : (b.inUnion && HasUnsignedFlag b.tpFlag) = false) :
    builtinCastIntAsIntSig.vecEvalInt b sc input result =
      { err := none, col := (b.arg0 sc input result).col, sc := (b.arg0 sc input result).sc } := by
  simp only [builtinCastIntAsIntSig.vecEvalInt, herr, hc, Bool.false_eq_true, if_false]

theorem vecEvalInt_clamp (b : baseBuiltinCastFunc Int) (sc : StatementContext)
    (input : Chunk) (result : Column Int) (herr : (b.arg0 sc input result).err = none)
    (hc : (b.inUnion && HasUnsignedFlag b.tpFlag) = true) :
    builtinCastIntAsIntSig.vecEvalInt b sc input result =
      { err := none
        col := { nullBitmap := (b.arg0 sc input result).col.nullBitmap
                 data := (b.arg0 sc input result).col.data.map (fun v => if v < 0 then 0 else v) }
        sc := (b.arg0 sc input result).sc } := by
  simp only [builtinCastIntAsIntSig.vecEvalInt, herr, hc, if_true]

/-- C12 (the UNION clamp never nulls).  For Int → Int and Real → Real, on every batch and
for every combination of the flags: the null bitmap and the row count of the destination
after the handler are the ones the child evaluation produced, the statement context is
left as the child left it (the clamp records no warning) and the error returned is the
child's (the clamp raises none). -/
theorem union_clamp_frame :
    (∀ (b : baseBuiltinCastFunc Int) (sc : StatementContext) (input : Chunk)
      (result : Column Int),
      (builtinCastIntAsIntSig.vecEvalInt b sc input result).col.nullBitmap =
        (b.arg0 sc input result).col.nullBitmap ∧
      (builtinCastIntAsIntSig.vecEvalInt b sc input result).col.data.length =
        (b.arg0 sc input result).col.data.length ∧
      (builtinCastIntAsIntSig.vecEvalInt b sc input result).sc = (b.arg0 sc input result).sc ∧
      (builtinCastIntAsIntSig.vecEvalInt b sc input result).err =
        (b.arg0 sc input result).err) ∧
    (∀ (b : baseBuiltinCastFunc Float64) (sc : StatementContext) (input : Chunk)
      (result : Column Float64),
      ((b.arg0 sc input result).err = none →
        (b.arg0 sc input result).col.HasRows input.NumRows) →
      (builtinCastRealAsRealSig.vecEvalReal b sc input result).col.nullBitmap =
        (b.arg0 sc input result).col.nullBitmap ∧
      (builtinCastRealAsRealSig.vecEvalReal b sc input result).col.data.length =
        (b.arg0 sc input result).col.data.length ∧
      (builtinCastRealAsRealSig.vecEvalReal b sc input result).sc =
        (b.arg0 sc input result).sc ∧
      (builtinCastRealAsRealSig.vecEvalReal b sc input result).err =
        (b.arg0 sc input result).err) := by
  constructor
  · intro b sc input result
    cases herr : (b.arg0 sc input result).err with
    | some e =>
      rw [vecEvalInt_child_err b sc input result e herr]
      exact ⟨rfl, rfl, rfl, rfl⟩
    | none =>
      cases hc : (b.inUnion && HasUnsignedFlag b.tpFlag) with
      | false =>
        rw [vecEvalInt_copy b sc input result herr hc]
        exact ⟨rfl, rfl, rfl, rfl⟩
      | true =>
        rw [vecEvalInt_clamp b sc input result herr hc]
        exact ⟨rfl, List.length_map _ _, rfl, rfl⟩
  · intro b sc input result _
    cases herr : (b.arg0 sc input result).err with
    | some e =>
      rw [vecEvalReal_real_child_err b sc input result e herr]
      exact ⟨rfl, rfl, rfl, rfl⟩
    | none =>
      cases hc : (b.inUnion && HasUnsignedFlag b.tpFlag) with
      | false =>
        rw [vecEvalReal_real_copy b sc input result herr hc]
        exact ⟨rfl, rfl, rfl, rfl⟩
      | true =>
        rw [vecEvalReal_real_clamp b sc input result herr hc]
        obtain ⟨l1, l2, l3, _⟩ :=
          castRealAsReal_loop input.NumRows 0 (b.arg0 sc input result).col
        exact ⟨l2, l3, rfl, l1⟩

theorem union_clamp_frame_witness :
    ((builtinCastIntAsIntSig.vecEvalInt ⟨true, 32, 0, 0, constChild ⟨[false, true], [-5, -7]⟩⟩
        warnCtx (exampleChunk 2) ⟨[], []⟩).col.nullBitmap = [false, true] ∧
      (builtinCastIntAsIntSig.vecEvalInt ⟨true, 32, 0, 0, constChild ⟨[false, true], [-5, -7]⟩⟩
        warnCtx (exampleChunk 2) ⟨[], []⟩).sc = warnCtx) ∧
    ((builtinCastRealAsRealSig.vecEvalReal
        ⟨true, 32, 0, 0, constChild ⟨[false, true], [⟨true, 1023, 0⟩, ⟨true, 1023, 0⟩]⟩⟩
        strictCtx (exampleChunk 2) ⟨[], []⟩).col.nullBitmap = [false, true] ∧
      (builtinCastRealAsRealSig.vecEvalReal
        ⟨true, 32, 0, 0, constChild ⟨[false, true], [⟨true, 1023, 0⟩, ⟨true, 1023, 0⟩]⟩⟩
        strictCtx (exampleChunk 2) ⟨[], []⟩).err = none) :=
  ⟨⟨(union_clamp_frame.1 ⟨true, 32, 0, 0, constChild ⟨[false, true], [-5, -7]⟩⟩
        warnCtx (exampleChunk 2) ⟨[], []⟩).1,
      (union_clamp_frame.1 ⟨true, 32, 0, 0, constChild ⟨[false, true], [-5, -7]⟩⟩
        warnCtx (exampleChunk 2) ⟨[], []⟩).2.2.1⟩,
    ⟨(union_clamp_frame.2
        ⟨true, 32, 0, 0, constChild ⟨[false, true], [⟨true, 1023, 0⟩, ⟨true, 1023, 0⟩]⟩⟩
        strictCtx (exampleChunk 2) ⟨[], []⟩ (fun _ => by decide)).1,
      (union_clamp_frame.2
        ⟨true, 32, 0, 0, constChild ⟨[false, true], [⟨true, 1023, 0⟩, ⟨true, 1023, 0⟩]⟩⟩
        strictCtx (exampleChunk 2) ⟨[], []⟩ (fun _ => by decide)).2.2.2⟩⟩

/-! ## Abort at the first offending row (C17) -/

/-- The outcome of a loop whose first failing row is `f`: the error of that row is
returned, the rows from `f` on are as the resize and the merge of the null bits left
them, and the warnings recorded are those of the rows before `f`. -/
theorem merged_first_fail {α β : Type} [Inhabited β] (act : Bool → Bool → Nat → RowAct β)
    (result : Column β) (buf : Column α) (n : Nat) (sc : StatementContext) (f : Nat)
    (e : Error) (hf : f < n)
    (hfail : act (buf.IsNull f) sc.OverflowAsWarning f = RowAct.fail e)
    (hmin : ∀ j, j < f → (act (buf.IsNull j) sc.OverflowAsWarning j).isFail = false) :
    (actLoop act n 0 ((result.resize n false).MergeNulls buf, sc)).1 = some e ∧
    (∀ j, f ≤ j → j < n →
      (actLoop act n 0 ((result.resize n false).MergeNulls buf, sc)).2.1.IsNull j
        = buf.IsNull j ∧
      (actLoop act n 0 ((result.resize n false).MergeNulls buf, sc)).2.1.data[j]?
        = (result.resize n false).data[j]?) ∧
    (actLoop act n 0 ((result.resize n false).MergeNulls buf, sc)).2.2.warnings =
      sc.warnings ++ (List.range' 0 f).filterMap
        (fun j => (act (buf.IsNull j) sc.OverflowAsWarning j).warning) := by
  cases hL : (actLoop act n 0 ((result.resize n false).MergeNulls buf, sc)).1 with
  | none =>
    have := (merged_ok_iff act result buf n sc).mp hL f hf
    rw [hfail] at this
    simp [RowAct.isFail] at this
  | some e' =>
    obtain ⟨f', hf'1, hf'2, hf'3⟩ := merged_err_first act result buf n sc e' hL
    have hff : f' = f := by
      rcases Nat.lt_trichotomy f' f with h | h | h
      · have := hmin f' h
        rw [hf'2] at this
        simp [RowAct.isFail] at this
      · exact h
      · have := (hf'3 f h).1
        rw [hfail] at this
        simp [RowAct.isFail] at this
    subst hff
    have hee : e' = e := by
      rw [hfail] at hf'2
      cases hf'2
      rfl
    subst hee
    obtain ⟨f2, _, hf2fail, hf2⟩ := merged_err act result buf n sc e' hL
    have hff2 : f2 = f' := by
      rcases Nat.lt_trichotomy f2 f' with h | h | h
      · have := hmin f2 h
        rw [hf2fail] at this
        simp [RowAct.isFail] at this
      · exact h
      · have hpre : (actLoop act f2 0 ((result.resize n false).MergeNulls buf, sc)).1
            = none := by rw [hf2]
        obtain ⟨p1, _, _⟩ := merged_ok act result buf n f2 (by omega) sc hpre
        have := (p1 f' h).1
        rw [hfail] at this
        simp [RowAct.isFail] at this
    subst hff2
    have hpre : (actLoop act f2 0 ((result.resize n false).MergeNulls buf, sc)).1 = none := by
      rw [hf2]
    obtain ⟨_, p2, p3⟩ := merged_ok act result buf n f2 (by omega) sc hpre
    have hfr := actLoop_frame act f2 0 ((result.resize n false).MergeNulls buf, sc)
    rw [hf2] at p2 p3 hfr
    refine ⟨rfl, ?_, p3⟩
    intro j hj1 hj2
    refine ⟨p2 j hj1 hj2, ?_⟩
    have := (hfr.2.2.2 j (Or.inr (by omega))).2
    simp only [Column.MergeNulls_data] at this
    exact this


/-- C17 (abort at the first offending row).  Int → Duration and Decimal → Real, on a
batch on which the child succeeded and wrote one row per input row.  Call a row
offending when its conversion fails and the failure is not suppressed: in strict mode any
failure, in either mode a failure that is not an overflow error.  If `f` is the
lowest-index offending row and `e` the error its conversion raises, then the handler
returns `e`; no row from `f` on is converted (its null bit is the child's and its stored
value is what the resize left); and the warnings recorded are those of the rows before
`f` only. -/
theorem abort_at_first_offending_row :
    (∀ (NumberToDuration : Int → Int → Except Error Duration) (b : baseBuiltinCastFunc Int)
      (pool : columnBufferAllocator Int) (sc : StatementContext) (input : Chunk)
      (result buf0 : Column Int) (f : Nat) (e : Error),
      pool.next = Except.ok buf0 →
      (b.arg0 sc input buf0).err = none →
      (b.arg0 sc input buf0).col.HasRows input.NumRows →
      f < input.NumRows →
      castIntAsDurationError NumberToDuration b (b.arg0 sc input buf0).col f = some e →
      (ErrOverflow.Equal e = false ∨ (b.arg0 sc input buf0).sc.OverflowAsWarning = false) →
      (∀ j e', j < f →
        castIntAsDurationError NumberToDuration b (b.arg0 sc input buf0).col j = some e' →
        ErrOverflow.Equal e' = true ∧ (b.arg0 sc input buf0).sc.OverflowAsWarning = true) →
      (builtinCastIntAsDurationSig.vecEvalDuration NumberToDuration b pool sc input
        result).err = some e ∧
      (∀ j, f ≤ j → j < input.NumRows →
        (builtinCastIntAsDurationSig.vecEvalDuration NumberToDuration b pool sc input
          result).result.IsNull j = (b.arg0 sc input buf0).col.IsNull j ∧
        (builtinCastIntAsDurationSig.vecEvalDuration NumberToDuration b pool sc input
          result).result.data[j]? = (result.resize input.NumRows false).data[j]?) ∧
      (builtinCastIntAsDurationSig.vecEvalDuration NumberToDuration b pool sc input
        result).sc.warnings =
        (b.arg0 sc input buf0).sc.warnings ++
          (List.range f).filterMap
            (castIntAsDurationError NumberToDuration b (b.arg0 sc input buf0).col)) ∧
    (∀ (ToFloat64 : MyDecimal → Except Error Float64) (b : baseBuiltinCastFunc MyDecimal)
      (pool : columnBufferAllocator MyDecimal) (sc : StatementContext) (input : Chunk)
      (result : Column Float64) (buf0 : Column MyDecimal) (f : Nat) (e : Error),
      pool.next = Except.ok buf0 →
      (b.arg0 sc input buf0).err = none →
      (b.arg0 sc input buf0).col.HasRows input.NumRows →
      f < input.NumRows →
      castDecimalAsRealError ToFloat64 b (b.arg0 sc input buf0).col f = some e →
      (ErrOverflow.Equal e = false ∨ (b.arg0 sc input buf0).sc.OverflowAsWarning = false) →
      (∀ j e', j < f →
        castDecimalAsRealError ToFloat64 b (b.arg0 sc input buf0).col j = some e' →
        ErrOverflow.Equal e' = true ∧ (b.arg0 sc input buf0).sc.OverflowAsWarning = true) →
      (builtinCastDecimalAsRealSig.vecEvalReal ToFloat64 b pool sc input result).err
        = some e ∧
      (∀ j, f ≤ j → j < input.NumRows →
        (builtinCastDecimalAsRealSig.vecEvalReal ToFloat64 b pool sc input
          result).result.IsNull j = (b.arg0 sc input buf0).col.IsNull j ∧
        (builtinCastDecimalAsRealSig.vecEvalReal ToFloat64 b pool sc input
          result).result.data[j]? = (result.resize input.NumRows false).data[j]?) ∧
      (builtinCastDecimalAsRealSig.vecEvalReal ToFloat64 b pool sc input result).sc.warnings =
        (b.arg0 sc input buf0).sc.warnings ++
          (List.range f).filterMap
            (castDecimalAsRealError ToFloat64 b (b.arg0 sc input buf0).col)) := by
  constructor
  · intro N b pool sc input result buf0 f e hget herr _ hf hfe hfatal hbefore
    rw [vecEvalDuration_int_ok N b pool sc input result buf0 hget herr]
    simp only
    generalize (b.arg0 sc input buf0).col = col at hfe hbefore ⊢
    generalize (b.arg0 sc input buf0).sc = csc at hfatal hbefore ⊢
    have hfail : castIntAsDurationAct N b col.data (col.IsNull f) csc.OverflowAsWarning f
        = RowAct.fail e := by
      rcases castIntAsDurationAct_cases N b col csc.OverflowAsWarning f with
        ⟨_, _, he⟩ | ⟨_, d, _, _, he⟩ | ⟨_, e', _, he, h⟩
      · rw [hfe] at he; cases he
      · rw [hfe] at he; cases he
      · rw [hfe] at he; cases he
        rw [h]
        rcases hfatal with ho | ho <;> simp [ho]
    have hrow : ∀ j, j < f →
        (castIntAsDurationAct N b col.data (col.IsNull j) csc.OverflowAsWarning j).isFail
          = false ∧
        (castIntAsDurationAct N b col.data (col.IsNull j) csc.OverflowAsWarning j).warning
          = castIntAsDurationError N b col j := by
      intro j hj
      rcases castIntAsDurationAct_cases N b col csc.OverflowAsWarning j with
        ⟨_, h, he⟩ | ⟨_, d, _, h, he⟩ | ⟨_, e', _, he, h⟩
      · rw [h, he]; exact ⟨rfl, rfl⟩
      · rw [h, he]; exact ⟨rfl, rfl⟩
      · obtain ⟨ho, hw⟩ := hbefore j e' hj he
        rw [h, ho, hw, he]
        exact ⟨rfl, rfl⟩
    obtain ⟨m1, m2, m3⟩ := merged_first_fail (castIntAsDurationAct N b col.data) result col
      input.NumRows csc f e hf hfail (fun j hj => (hrow j hj).1)
    refine ⟨m1, m2, ?_⟩
    rw [m3, List.range_eq_range']
    congr 1
    apply List.filterMap_congr
    intro j hj
    have hj' := (List.mem_range'_1.mp hj).2
    exact (hrow j (by omega)).2
  · intro F b pool sc input result buf0 f e hget herr _ hf hfe hfatal hbefore
    rw [vecEvalReal_decimal_ok F b pool sc input result buf0 hget herr]
    simp only
    generalize (b.arg0 sc input buf0).col = col at hfe hbefore ⊢
    generalize (b.arg0 sc input buf0).sc = csc at hfatal hbefore ⊢
    have hfail : castDecimalAsRealAct F b col.data (col.IsNull f) csc.OverflowAsWarning f
        = RowAct.fail e := by
      rcases castDecimalAsRealAct_cases F b col csc.OverflowAsWarning f with
        ⟨_, _, he⟩ | ⟨_, _, _, he⟩ | ⟨_, _, v, _, _, he⟩ | ⟨_, _, e', _, he, h⟩
      · rw [hfe] at he; cases he
      · rw [hfe] at he; cases he
      · rw [hfe] at he; cases he
      · rw [hfe] at he; cases he
        rw [h]
        rcases hfatal with ho | ho <;> simp [ho]
    have hrow : ∀ j, j < f →
        (castDecimalAsRealAct F b col.data (col.IsNull j) csc.OverflowAsWarning j).isFail
          = false ∧
        (castDecimalAsRealAct F b col.data (col.IsNull j) csc.OverflowAsWarning j).warning
          = castDecimalAsRealError F b col j := by
      intro j hj
      rcases castDecimalAsRealAct_cases F b col csc.OverflowAsWarning j with
        ⟨_, h, he⟩ | ⟨_, _, h, he⟩ | ⟨_, _, v, _, h, he⟩ | ⟨_, _, e', _, he, h⟩
      · rw [h, he]; exact ⟨rfl, rfl⟩
      · rw [h, he]; exact ⟨rfl, rfl⟩
      · rw [h, he]; exact ⟨rfl, rfl⟩
      · obtain ⟨ho, hw⟩ := hbefore j e' hj he
        rw [h, ho, hw, he]
        exact ⟨rfl, rfl⟩
    obtain ⟨m1, m2, m3⟩ := merged_first_fail (castDecimalAsRealAct F b col.data) result col
      input.NumRows csc f e hf hfail (fun j hj => (hrow j hj).1)
    refine ⟨m1, m2, ?_⟩
    rw [m3, List.range_eq_range']
    congr 1
    apply List.filterMap_congr
    intro j hj
    have hj' := (List.mem_range'_1.mp hj).2
    exact (hrow j (by omega)).2

theorem abort_at_first_offending_row_witness :
    ((builtinCastIntAsDurationSig.vecEvalDuration exampleNumberToDuration
        ⟨false, 0, 0, 0, constChild ⟨[false, false, false], [9000000, 60, 10]⟩⟩
        (examplePool Int) warnCtx (exampleChunk 3) ⟨[], []⟩).err = some (Error.other 60) ∧
      (builtinCastIntAsDurationSig.vecEvalDuration exampleNumberToDuration
        ⟨false, 0, 0, 0, constChild ⟨[false, false, false], [9000000, 60, 10]⟩⟩
        (examplePool Int) warnCtx (exampleChunk 3) ⟨[], []⟩).sc.warnings
        = [Error.overflow 9000000]) ∧
    ((builtinCastDecimalAsRealSig.vecEvalReal exampleToFloat64 exampleDecimalAsReal
        (examplePool MyDecimal) strictCtx (exampleChunk 4) ⟨[], []⟩).err
        = some (Error.overflow 1) ∧
      (builtinCastDecimalAsRealSig.vecEvalReal exampleToFloat64 exampleDecimalAsReal
        (examplePool MyDecimal) strictCtx (exampleChunk 4) ⟨[], []⟩).sc.warnings = []) := by
  have h1 := abort_at_first_offending_row.1 exampleNumberToDuration
    ⟨false, 0, 0, 0, constChild ⟨[false, false, false], [9000000, 60, 10]⟩⟩
    (examplePool Int) warnCtx (exampleChunk 3) ⟨[], []⟩ ⟨[], []⟩ 1 (Error.other 60)
    rfl rfl (by decide) (by decide) (by decide) (Or.inl rfl)
    (by
      intro j e' hj h
      have hj0 : j = 0 := by omega
      subst hj0
      rw [show castIntAsDurationError exampleNumberToDuration
          ⟨false, 0, 0, 0, constChild ⟨[false, false, false], [9000000, 60, 10]⟩⟩
          ((constChild (⟨[false, false, false], [9000000, 60, 10]⟩ : Column Int)) warnCtx
            (exampleChunk 3) ⟨[], []⟩).col 0
          = some (Error.overflow 9000000) from by decide] at h
      cases h
      exact ⟨rfl, rfl⟩)
  have h2 := abort_at_first_offending_row.2 exampleToFloat64 exampleDecimalAsReal
    (examplePool MyDecimal) strictCtx (exampleChunk 4) ⟨[], []⟩ ⟨[], []⟩ 3 (Error.overflow 1)
    rfl rfl (by decide) (by decide) (by decide) (Or.inr rfl)
    (by
      intro j e' hj h
      have hj0 : j = 0 ∨ j = 1 ∨ j = 2 := by omega
      rcases hj0 with hj0 | hj0 | hj0 <;> subst hj0
      · rw [show castDecimalAsRealError exampleToFloat64 exampleDecimalAsReal
            (exampleDecimalAsReal.arg0 strictCtx (exampleChunk 4) ⟨[], []⟩).col 0
            = none from by decide] at h
        cases h
      · rw [show castDecimalAsRealError exampleToFloat64 exampleDecimalAsReal
            (exampleDecimalAsReal.arg0 strictCtx (exampleChunk 4) ⟨[], []⟩).col 1
            = none from by decide] at h
        cases h
      · rw [show castDecimalAsRealError exampleToFloat64 exampleDecimalAsReal
            (exampleDecimalAsReal.arg0 strictCtx (exampleChunk 4) ⟨[], []⟩).col 2
            = none from by decide] at h
        cases h)
  exact ⟨⟨h1.1, h1.2.2⟩, ⟨h2.1, h2.2.2⟩⟩

/-! ## Null rows are never converted (C18) -/

/-- Two row actions that agree on the rows of the range, at the null bits and the
overflow mode the loop starts from, give the same loop. -/
theorem actLoop_congr {β : Type} (act1 act2 : Bool → Bool → Nat → RowAct β) (k lo : Nat)
    (s : Column β × StatementContext)
    (h : ∀ i, lo ≤ i → i < lo + k →
      act1 (s.1.IsNull i) s.2.OverflowAsWarning i = act2 (s.1.IsNull i) s.2.OverflowAsWarning i) :
    actLoop act1 k lo s = actLoop act2 k lo s := by
  induction k generalizing lo s with
  | zero => rfl
  | succ k ih =>
    have h0 := h lo (le_refl _) (by omega)
    rcases hstep : (act2 (s.1.IsNull lo) s.2.OverflowAsWarning lo).apply lo s with ⟨r, s'⟩
    have hstep1 : (act1 (s.1.IsNull lo) s.2.OverflowAsWarning lo).apply lo s = (r, s') := by
      rw [h0]; exact hstep
    cases r with
    | some e =>
      rw [actLoop_succ_err act1 k lo s s' e hstep1, actLoop_succ_err act2 k lo s s' e hstep]
    | none =>
      rw [actLoop_succ_ok act1 k lo s s' hstep1, actLoop_succ_ok act2 k lo s s' hstep]
      apply ih
      intro i hi1 hi2
      obtain ⟨_, _, f3, f4⟩ :=
        RowAct.apply_frame (act2 (s.1.IsNull lo) s.2.OverflowAsWarning lo) lo s
      rw [hstep] at f3 f4
      simp only at f3 f4
      rw [(f4 i (by omega)).1, f3]
      exact h i (by omega) (by omega)

/-- The merge of the null bits reads the null bits of its source only. -/
theorem Column.MergeNulls_congr {α β : Type} (c : Column β) (src src' : Column α)
    (h : src'.nullBitmap = src.nullBitmap) : c.MergeNulls src' = c.MergeNulls src := by
  unfold Column.MergeNulls Column.IsNull
  rw [h]

/-- The loop of a handler over two child outputs with the same null bits, for row
actions that agree on the rows that are not null. -/
theorem merged_congr {α β : Type} [Inhabited β] (act1 act2 : Bool → Bool → Nat → RowAct β)
    (result : Column β) (buf buf' : Column α) (n : Nat) (sc : StatementContext)
    (hbm : buf'.nullBitmap = buf.nullBitmap)
    (h : ∀ i, i < n →
      act1 (buf.IsNull i) sc.OverflowAsWarning i = act2 (buf.IsNull i) sc.OverflowAsWarning i) :
    actLoop act1 n 0 ((result.resize n false).MergeNulls buf', sc) =
      actLoop act2 n 0 ((result.resize n false).MergeNulls buf, sc) := by
  rw [Column.MergeNulls_congr _ buf buf' hbm]
  apply actLoop_congr
  intro i _ hi
  obtain ⟨_, _, m3⟩ := resize_MergeNulls result buf n
  simp only [m3 i (by omega)]
  exact h i (by omega)

/-- A batch whose rows are all null: the loop ends normally, the statement context is
untouched and every row of the destination is null. -/
theorem merged_all_null {α β : Type} [Inhabited β] (act : Bool → Bool → Nat → RowAct β)
    (result : Column β) (buf : Column α) (n : Nat) (sc : StatementContext)
    (hskip : ∀ i w, act true w i = RowAct.skip)
    (hnull : ∀ i, i < n → buf.IsNull i = true) :
    (actLoop act n 0 ((result.resize n false).MergeNulls buf, sc)).1 = none ∧
    (actLoop act n 0 ((result.resize n false).MergeNulls buf, sc)).2.2 = sc ∧
    ∀ i, i < n →
      (actLoop act n 0 ((result.resize n false).MergeNulls buf, sc)).2.1.IsNull i = true := by
  have hok : (actLoop act n 0 ((result.resize n false).MergeNulls buf, sc)).1 = none := by
    rw [merged_ok_iff]
    intro i hi
    rw [hnull i hi, hskip]
    rfl
  obtain ⟨n1, n2⟩ := merged_no_null act result buf n n (le_refl _) sc
    (by intro i hi; rw [hnull i hi, hskip]; rfl) hok
  exact ⟨hok, n2, fun i hi => by rw [n1 i hi, hnull i hi]⟩

/-- C18 (null rows are never converted).  Int → Duration, Decimal → Real and
Time → Duration, on a batch of `n` rows for which the allocator hands out a buffer.

Independence: replace the child by another child that also succeeds, leaves the same
statement context and writes the same null bits and, at every row that is not null, the
same value; the values stored under null bits may differ in any way.  Then the handler
returns the same outcome: the same error or success, the same destination column, the
same statement context (so the same warnings) and the same allocator state.

All-null batch: if every row of the child's output is null, the handler succeeds,
whatever the overflow mode; the statement context is exactly the child's (no warning is
recorded); and every row of the destination is null. -/
theorem null_rows_never_converted :
    ((∀ (NumberToDuration : Int → Int → Except Error Duration) (b : baseBuiltinCastFunc Int)
        (child' : VecEval Int) (pool : columnBufferAllocator Int) (sc : StatementContext)
        (input : Chunk) (result buf0 : Column Int),
        pool.next = Except.ok buf0 →
        (b.arg0 sc input buf0).err = none →
        (child' sc input buf0).err = none →
        (child' sc input buf0).sc = (b.arg0 sc input buf0).sc →
        (child' sc input buf0).col.nullBitmap = (b.arg0 sc input buf0).col.nullBitmap →
        (b.arg0 sc input buf0).col.HasRows input.NumRows →
        (child' sc input buf0).col.HasRows input.NumRows →
        (∀ i, i < input.NumRows → (b.arg0 sc input buf0).col.IsNull i = false →
          (child' sc input buf0).col.value i = (b.arg0 sc input buf0).col.value i) →
        builtinCastIntAsDurationSig.vecEvalDuration NumberToDuration { b with arg0 := child' }
            pool sc input result =
          builtinCastIntAsDurationSig.vecEvalDuration NumberToDuration b pool sc input
            result) ∧
      (∀ (NumberToDuration : Int → Int → Except Error Duration) (b : baseBuiltinCastFunc Int)
        (pool : columnBufferAllocator Int) (sc : StatementContext) (input : Chunk)
        (result buf0 : Column Int),
        pool.next = Except.ok buf0 →
        (b.arg0 sc input buf0).err = none →
        (b.arg0 sc input buf0).col.HasRows input.NumRows →
        (∀ i, i < input.NumRows → (b.arg0 sc input buf0).col.IsNull i = true) →
        (builtinCastIntAsDurationSig.vecEvalDuration NumberToDuration b pool sc input
          result).err = none ∧
        (builtinCastIntAsDurationSig.vecEvalDuration NumberToDuration b pool sc input
          result).sc = (b.arg0 sc input buf0).sc ∧
        ∀ i, i < input.NumRows →
          (builtinCastIntAsDurationSig.vecEvalDuration NumberToDuration b pool sc input
            result).result.IsNull i = true)) ∧
    ((∀ (ToFloat64 : MyDecimal → Except Error Float64) (b : baseBuiltinCastFunc MyDecimal)
        (child' : VecEval MyDecimal) (pool : columnBufferAllocator MyDecimal)
        (sc : StatementContext) (input : Chunk) (result : Column Float64)
        (buf0 : Column MyDecimal),
        pool.next = Except.ok buf0 →
        (b.arg0 sc input buf0).err = none →
        (child' sc input buf0).err = none →
        (child' sc input buf0).sc = (b.arg0 sc input buf0).sc →
        (child' sc input buf0).col.nullBitmap = (b.arg0 sc input buf0).col.nullBitmap →
        (b.arg0 sc input buf0).col.HasRows input.NumRows →
        (child' sc input buf0).col.HasRows input.NumRows →
        (∀ i, i < input.NumRows → (b.arg0 sc input buf0).col.IsNull i = false →
          (child' sc input buf0).col.value i = (b.arg0 sc input buf0).col.value i) →
        builtinCastDecimalAsRealSig.vecEvalReal ToFloat64 { b with arg0 := child' } pool sc
            input result =
          builtinCastDecimalAsRealSig.vecEvalReal ToFloat64 b pool sc input result) ∧
      (∀ (ToFloat64 : MyDecimal → Except Error Float64) (b : baseBuiltinCastFunc MyDecimal)
        (pool : columnBufferAllocator MyDecimal) (sc : StatementContext) (input : Chunk)
        (result : Column Float64) (buf0 : Column MyDecimal),
        pool.next = Except.ok buf0 →
        (b.arg0 sc input buf0).err = none →
        (b.arg0 sc input buf0).col.HasRows input.NumRows →
        (∀ i, i < input.NumRows → (b.arg0 sc input buf0).col.IsNull i = true) →
        (builtinCastDecimalAsRealSig.vecEvalReal ToFloat64 b pool sc input result).err
          = none ∧
        (builtinCastDecimalAsRealSig.vecEvalReal ToFloat64 b pool sc input result).sc
          = (b.arg0 sc input buf0).sc ∧
        ∀ i, i < input.NumRows →
          (builtinCastDecimalAsRealSig.vecEvalReal ToFloat64 b pool sc input
            result).result.IsNull i = true)) ∧
    ((∀ (ConvertToDuration : Time → Except Error Duration)
        (RoundFrac : Duration → Int → Except Error Duration) (b : baseBuiltinCastFunc Time)
        (child' : VecEval Time) (pool : columnBufferAllocator Time) (sc : StatementContext)
        (input : Chunk) (result : Column Int) (buf0 : Column Time),
        pool.next = Except.ok buf0 →
        (b.arg0 sc input buf0).err = none →
        (child' sc input buf0).err = none →
        (child' sc input buf0).sc = (b.arg0 sc input buf0).sc →
        (child' sc input buf0).col.nullBitmap = (b.arg0 sc input buf0).col.nullBitmap →
        (b.arg0 sc input buf0).col.HasRows input.NumRows →
        (child' sc input buf0).col.HasRows input.NumRows →
        (∀ i, i < input.NumRows → (b.arg0 sc input buf0).col.IsNull i = false →
          (child' sc input buf0).col.value i = (b.arg0 sc input buf0).col.value i) →
        builtinCastTimeAsDurationSig.vecEvalDuration ConvertToDuration RoundFrac
            { b with arg0 := child' } pool sc input result =
          builtinCastTimeAsDurationSig.vecEvalDuration ConvertToDuration RoundFrac b pool sc
            input result) ∧
      (∀ (ConvertToDuration : Time → Except Error Duration)
        (RoundFrac : Duration → Int → Except Error Duration) (b : baseBuiltinCastFunc Time)
        (pool : columnBufferAllocator Time) (sc : StatementContext) (input : Chunk)
        (result : Column Int) (buf0 : Column Time),
        pool.next = Except.ok buf0 →
        (b.arg0 sc input buf0).err = none →
        (b.arg0 sc input buf0).col.HasRows input.NumRows →
        (∀ i, i < input.NumRows → (b.arg0 sc input buf0).col.IsNull i = true) →
        (builtinCastTimeAsDurationSig.vecEvalDuration ConvertToDuration RoundFrac b pool sc
          input result).err = none ∧
        (builtinCastTimeAsDurationSig.vecEvalDuration ConvertToDuration RoundFrac b pool sc
          input result).sc = (b.arg0 sc input buf0).sc ∧
        ∀ i, i < input.NumRows →
          (builtinCastTimeAsDurationSig.vecEvalDuration ConvertToDuration RoundFrac b pool sc
            input result).result.IsNull i = true)) := by
  refine ⟨⟨?_, ?_⟩, ⟨?_, ?_⟩, ⟨?_, ?_⟩⟩
  · intro N b child' pool sc input result buf0 hget herr herr' hsc hbm _ _ hval
    rw [vecEvalDuration_int_ok N { b with arg0 := child' } pool sc input result buf0 hget herr',
      vecEvalDuration_int_ok N b pool sc input result buf0 hget herr]
    dsimp only
    have key := merged_congr
      (castIntAsDurationAct N { b with arg0 := child' } (child' sc input buf0).col.data)
      (castIntAsDurationAct N b (b.arg0 sc input buf0).col.data) result
      (b.arg0 sc input buf0).col (child' sc input buf0).col input.NumRows
      (b.arg0 sc input buf0).sc hbm (by
        intro i hi
        cases hn : (b.arg0 sc input buf0).col.IsNull i with
        | true => rfl
        | false =>
          have hv := hval i hi hn
          unfold Column.value at hv
          unfold castIntAsDurationAct
          simp only [Bool.false_eq_true, if_false]
          rw [show (child' sc input buf0).col.data.getD i 0
            = (b.arg0 sc input buf0).col.data.getD i 0 from hv])
    rw [hsc, key]
    rfl
  · intro N b pool sc input result buf0 hget herr _ hnull
    rw [vecEvalDuration_int_ok N b pool sc input result buf0 hget herr]
    exact merged_all_null _ result _ _ _ (fun i w => rfl) hnull
  · intro F b child' pool sc input result buf0 hget herr herr' hsc hbm _ _ hval
    rw [vecEvalReal_decimal_ok F { b with arg0 := child' } pool sc input result buf0 hget herr',
      vecEvalReal_decimal_ok F b pool sc input result buf0 hget herr]
    dsimp only
    have key := merged_congr
      (castDecimalAsRealAct F { b with arg0 := child' } (child' sc input buf0).col.data)
      (castDecimalAsRealAct F b (b.arg0 sc input buf0).col.data) result
      (b.arg0 sc input buf0).col (child' sc input buf0).col input.NumRows
      (b.arg0 sc input buf0).sc hbm (by
        intro i hi
        cases hn : (b.arg0 sc input buf0).col.IsNull i with
        | true => rfl
        | false =>
          have hv := hval i hi hn
          unfold Column.value at hv
          unfold castDecimalAsRealAct
          simp only [Bool.false_eq_true, if_false]
          rw [hv])
    rw [hsc, key]
    rfl
  · intro F b pool sc input result buf0 hget herr _ hnull
    rw [vecEvalReal_decimal_ok F b pool sc input result buf0 hget herr]
    exact merged_all_null _ result _ _ _ (fun i w => rfl) hnull
  · intro C R b child' pool sc input result buf0 hget herr herr' hsc hbm hrows hrows' hval
    rw [vecEvalDuration_time_ok C R { b with arg0 := child' } pool sc input result buf0 hget
        herr',
      vecEvalDuration_time_ok C R b pool sc input result buf0 hget herr]
    dsimp only
    have key := merged_congr
      (fun isNull (_ : Bool) i => castTimeAsDurationAct C R { b with arg0 := child' }
        (child' sc input buf0).col.data isNull i)
      (fun isNull (_ : Bool) i => castTimeAsDurationAct C R b
        (b.arg0 sc input buf0).col.data isNull i) result
      (b.arg0 sc input buf0).col (child' sc input buf0).col input.NumRows
      (b.arg0 sc input buf0).sc hbm (by
        intro i hi
        cases hn : (b.arg0 sc input buf0).col.IsNull i with
        | true => rfl
        | false =>
          have hv := hval i hi hn
          unfold Column.value at hv
          unfold castTimeAsDurationAct
          simp only [Bool.false_eq_true, if_false]
          rw [hv])
    rw [hrows.2, hrows'.2, hsc, key]
    rfl
  · intro C R b pool sc input result buf0 hget herr hrows hnull
    rw [vecEvalDuration_time_ok C R b pool sc input result buf0 hget herr]
    dsimp only
    rw [hrows.2]
    obtain ⟨a1, _, a3⟩ := merged_all_null
      (fun isNull (_ : Bool) i => castTimeAsDurationAct C R b
        (b.arg0 sc input buf0).col.data isNull i) result (b.arg0 sc input buf0).col
      input.NumRows (b.arg0 sc input buf0).sc (fun i w => rfl) hnull
    exact ⟨a1, rfl, a3⟩

theorem null_rows_never_converted_witness :
    builtinCastIntAsDurationSig.vecEvalDuration exampleNumberToDuration
        ⟨false, 0, 0, 0, constChild ⟨[false, true, false], [123456, 9000000, 10]⟩⟩
        (examplePool Int) strictCtx (exampleChunk 3) ⟨[], []⟩ =
      builtinCastIntAsDurationSig.vecEvalDuration exampleNumberToDuration
        ⟨false, 0, 0, 0, constChild ⟨[false, true, false], [123456, 60, 10]⟩⟩
        (examplePool Int) strictCtx (exampleChunk 3) ⟨[], []⟩ ∧
    (builtinCastDecimalAsRealSig.vecEvalReal exampleToFloat64
        ⟨false, 0, 0, 0, constChild ⟨[true, true], [⟨false, 1, 400⟩, ⟨false, 1, -3⟩]⟩⟩
        (examplePool MyDecimal) strictCtx (exampleChunk 2) ⟨[], []⟩).err = none ∧
    (builtinCastTimeAsDurationSig.vecEvalDuration exampleConvertToDuration exampleRoundFrac
        ⟨false, 0, 9, 0, constChild ⟨[true], [⟨2019, 13, 4, 12, 34, 56, 500000, 0, 6⟩]⟩⟩
        (examplePool Time) strictCtx (exampleChunk 1) ⟨[], []⟩).err = none := by
  refine ⟨?_, ?_, ?_⟩
  · exact null_rows_never_converted.1.1 exampleNumberToDuration
      ⟨false, 0, 0, 0, constChild ⟨[false, true, false], [123456, 60, 10]⟩⟩
      (constChild ⟨[false, true, false], [123456, 9000000, 10]⟩)
      (examplePool Int) strictCtx (exampleChunk 3) ⟨[], []⟩ ⟨[], []⟩
      rfl rfl rfl rfl rfl (by decide) (by decide)
      (by
        intro i hi hn
        have hi3 : i = 0 ∨ i = 1 ∨ i = 2 := by
          have : i < 3 := hi
          omega
        rcases hi3 with h | h | h <;> subst h
        · rfl
        · exact absurd hn (by decide)
        · rfl)
  · exact (null_rows_never_converted.2.1.2 exampleToFloat64
      ⟨false, 0, 0, 0, constChild ⟨[true, true], [⟨false, 1, 400⟩, ⟨false, 1, -3⟩]⟩⟩
      (examplePool MyDecimal) strictCtx (exampleChunk 2) ⟨[], []⟩ ⟨[], []⟩
      rfl rfl (by decide)
      (by
        intro i hi
        have hi2 : i = 0 ∨ i = 1 := by
          have : i < 2 := hi
          omega
        rcases hi2 with h | h <;> subst h <;> rfl)).1
  · exact (null_rows_never_converted.2.2.2 exampleConvertToDuration exampleRoundFrac
      ⟨false, 0, 9, 0, constChild ⟨[true], [⟨2019, 13, 4, 12, 34, 56, 500000, 0, 6⟩]⟩⟩
      (examplePool Time) strictCtx (exampleChunk 1) ⟨[], []⟩ ⟨[], []⟩
      rfl rfl (by decide)
      (by
        intro i hi
        have hi1 : i = 0 := by
          have : i < 1 := hi
          omega
        subst hi1
        rfl)).1

/-! ## Capability flags (C16) -/

/-- An error returned by Int → Duration was returned by the allocator, by the child, or
by `NumberToDuration` on the value of a row that is not null. -/
theorem vecEvalDuration_int_err_origin (NumberToDuration : Int → Int → Except Error Duration)
    (b : baseBuiltinCastFunc Int) (pool : columnBufferAllocator Int) (sc : StatementContext)
    (input : Chunk) (result : Column Int) (e : Error)
    (h : (builtinCastIntAsDurationSig.vecEvalDuration NumberToDuration b pool sc input
      result).err = some e) :
    pool.next = Except.error e ∨
    ∃ buf0, pool.next = Except.ok buf0 ∧
      ((b.arg0 sc input buf0).err = some e ∨
        ((b.arg0 sc input buf0).err = none ∧
          ∃ i, i < input.NumRows ∧ (b.arg0 sc input buf0).col.IsNull i = false ∧
            NumberToDuration ((b.arg0 sc input buf0).col.value i) (int8 b.tpDecimal)
              = Except.error e)) := by
  cases hp : pool.next with
  | error e' =>
    rw [vecEvalDuration_int_get_err NumberToDuration b pool sc input result e' hp] at h
    simp only [Option.some.injEq] at h
    left
    rw [h]
  | ok buf0 =>
    right
    refine ⟨buf0, rfl, ?_⟩
    cases hc : (b.arg0 sc input buf0).err with
    | some e' =>
      rw [vecEvalDuration_int_child_err NumberToDuration b pool sc input result buf0 e' hp hc]
        at h
      simp only [Option.some.injEq] at h
      left
      rw [h]
    | none =>
      right
      refine ⟨rfl, ?_⟩
      rw [vecEvalDuration_int_ok NumberToDuration b pool sc input result buf0 hp hc] at h
      simp only at h
      obtain ⟨f, hf, hfail, _⟩ := merged_err _ result _ _ _ e h
      refine ⟨f, hf, ?_⟩
      rcases castIntAsDurationAct_cases NumberToDuration b (b.arg0 sc input buf0).col
          (b.arg0 sc input buf0).sc.OverflowAsWarning f with
        ⟨_, hs, _⟩ | ⟨_, d, _, hs, _⟩ | ⟨hn, e', hN, _, hs⟩
      · rw [hs] at hfail; cases hfail
      · rw [hs] at hfail; cases hfail
      · rw [hs] at hfail
        split at hfail
        · cases hfail
        · cases hfail
          exact ⟨hn, hN⟩

/-- An error returned by Decimal → Real was returned by the allocator, by the child, or
by `ToFloat64` on the value of a row that is not null. -/
theorem vecEvalReal_decimal_err_origin (ToFloat64 : MyDecimal → Except Error Float64)
    (b : baseBuiltinCastFunc MyDecimal) (pool : columnBufferAllocator MyDecimal)
    (sc : StatementContext) (input : Chunk) (result : Column Float64) (e : Error)
    (h : (builtinCastDecimalAsRealSig.vecEvalReal ToFloat64 b pool sc input result).err
      = some e) :
    pool.next = Except.error e ∨
    ∃ buf0, pool.next = Except.ok buf0 ∧
      ((b.arg0 sc input buf0).err = some e ∨
        ((b.arg0 sc input buf0).err = none ∧
          ∃ i, i < input.NumRows ∧ (b.arg0 sc input buf0).col.IsNull i = false ∧
            ToFloat64 ((b.arg0 sc input buf0).col.value i) = Except.error e)) := by
  cases hp : pool.next with
  | error e' =>
    rw [vecEvalReal_decimal_get_err ToFloat64 b pool sc input result e' hp] at h
    simp only [Option.some.injEq] at h
    left
    rw [h]
  | ok buf0 =>
    right
    refine ⟨buf0, rfl, ?_⟩
    cases hc : (b.arg0 sc input buf0).err with
    | some e' =>
      rw [vecEvalReal_decimal_child_err ToFloat64 b pool sc input result buf0 e' hp hc] at h
      simp only [Option.some.injEq] at h
      left
      rw [h]
    | none =>
      right
      refine ⟨rfl, ?_⟩
      rw [vecEvalReal_decimal_ok ToFloat64 b pool sc input result buf0 hp hc] at h
      simp only at h
      obtain ⟨f, hf, hfail, _⟩ := merged_err _ result _ _ _ e h
      refine ⟨f, hf, ?_⟩
      rcases castDecimalAsRealAct_cases ToFloat64 b (b.arg0 sc input buf0).col
          (b.arg0 sc input buf0).sc.OverflowAsWarning f with
        ⟨_, hs, _⟩ | ⟨_, _, hs, _⟩ | ⟨_, _, v, _, hs, _⟩ | ⟨hn, _, e', hF, _, hs⟩
      · rw [hs] at hfail; cases hfail
      · rw [hs] at hfail; cases hfail
      · rw [hs] at hfail; cases hfail
      · rw [hs] at hfail
        split at hfail
        · cases hfail
        · cases hfail
          exact ⟨hn, hF⟩

/-- An error returned by Int → Real was returned by the allocator or by the child. -/
theorem vecEvalReal_int_err_origin (b : baseBuiltinCastFunc Int)
    (pool : columnBufferAllocator Int) (sc : StatementContext) (input : Chunk)
    (result : Column Float64) (e : Error)
    (h : (builtinCastIntAsRealSig.vecEvalReal b pool sc input result).err = some e) :
    pool.next = Except.error e ∨
    ∃ buf0, pool.next = Except.ok buf0 ∧ (b.arg0 sc input buf0).err = some e := by
  cases hp : pool.next with
  | error e' =>
    rw [vecEvalReal_int_get_err b pool sc input result e' hp] at h
    simp only [Option.some.injEq] at h
    left
    rw [h]
  | ok buf0 =>
    right
    refine ⟨buf0, rfl, ?_⟩
    cases hc : (b.arg0 sc input buf0).err with
    | some e' =>
      rw [vecEvalReal_int_child_err b pool sc input result buf0 e' hp hc] at h
      simp only [Option.some.injEq] at h
      rw [h]
    | none =>
      exfalso
      rw [vecEvalReal_int_ok b pool sc input result buf0 hp hc] at h
      simp only at h
      have hok := (merged_ok_iff
        (fun isNull (_ : Bool) i => castIntAsRealAct b (b.arg0 sc input buf0).col.data isNull i)
        result (b.arg0 sc input buf0).col input.NumRows (b.arg0 sc input buf0).sc).mpr
        (fun i _ => castIntAsRealAct_isFail b _ _ i)
      rw [hok] at h
      cases h

/-- An error returned by Time → Duration was returned by the allocator, by the child, or
by `ConvertToDuration` or `RoundFrac` on the value of a row of the child's output. -/
theorem vecEvalDuration_time_err_origin (ConvertToDuration : Time → Except Error Duration)
    (RoundFrac : Duration → Int → Except Error Duration) (b : baseBuiltinCastFunc Time)
    (pool : columnBufferAllocator Time) (sc : StatementContext) (input : Chunk)
    (result : Column Int) (e : Error)
    (h : (builtinCastTimeAsDurationSig.vecEvalDuration ConvertToDuration RoundFrac b pool sc
      input result).err = some e) :
    pool.next = Except.error e ∨
    ∃ buf0, pool.next = Except.ok buf0 ∧
      ((b.arg0 sc input buf0).err = some e ∨
        ((b.arg0 sc input buf0).err = none ∧
          ∃ i, i < (b.arg0 sc input buf0).col.data.length ∧
            (ConvertToDuration ((b.arg0 sc input buf0).col.value i) = Except.error e ∨
              ∃ d, ConvertToDuration ((b.arg0 sc input buf0).col.value i) = Except.ok d ∧
                RoundFrac d (int8 b.tpDecimal) = Except.error e))) := by
  cases hp : pool.next with
  | error e' =>
    rw [vecEvalDuration_time_get_err ConvertToDuration RoundFrac b pool sc input result e' hp]
      at h
    simp only [Option.some.injEq] at h
    left
    rw [h]
  | ok buf0 =>
    right
    refine ⟨buf0, rfl, ?_⟩
    cases hc : (b.arg0 sc input buf0).err with
    | some e' =>
      rw [vecEvalDuration_time_child_err ConvertToDuration RoundFrac b pool sc input result
        buf0 e' hp hc] at h
      simp only [Option.some.injEq] at h
      left
      rw [h]
    | none =>
      right
      refine ⟨rfl, ?_⟩
      rw [vecEvalDuration_time_ok ConvertToDuration RoundFrac b pool sc input result buf0 hp hc]
        at h
      simp only at h
      rcases hL : actLoop
          (fun isNull (_ : Bool) i => castTimeAsDurationAct ConvertToDuration RoundFrac b
            (b.arg0 sc input buf0).col.data isNull i)
          (b.arg0 sc input buf0).col.data.length 0
          ((result.resize input.NumRows false).MergeNulls (b.arg0 sc input buf0).col,
            (b.arg0 sc input buf0).sc) with ⟨e1, s1⟩
      rw [hL] at h
      simp only at h
      subst h
      obtain ⟨f, _, hf, hfail, _⟩ := actLoop_err _ _ _ _ _ _ hL
      refine ⟨f, by omega, ?_⟩
      simp only [castTimeAsDurationAct] at hfail
      unfold Column.value
      split at hfail
      · cases hfail
      · split at hfail
        · cases hfail
          left
          assumption
        · split at hfail
          · cases hfail
            right
            exact ⟨_, by assumption, by assumption⟩
          · cases hfail

/-- The error of Int → Int is the error of its child. -/
theorem vecEvalInt_err (b : baseBuiltinCastFunc Int) (sc : StatementContext) (input : Chunk)
    (result : Column Int) :
    (builtinCastIntAsIntSig.vecEvalInt b sc input result).err
      = (b.arg0 sc input result).err := by
  unfold builtinCastIntAsIntSig.vecEvalInt
  cases h : (b.arg0 sc input result).err with
  | some e => simp only [h]
  | none =>
    simp only [h]
    split <;> rfl

/-- The error of Real → Real is the error of its child. -/
theorem vecEvalReal_real_err (b : baseBuiltinCastFunc Float64) (sc : StatementContext)
    (input : Chunk) (result : Column Float64) :
    (builtinCastRealAsRealSig.vecEvalReal b sc input result).err
      = (b.arg0 sc input result).err := by
  unfold builtinCastRealAsRealSig.vecEvalReal
  cases h : (b.arg0 sc input result).err with
  | some e => simp only [h]
  | none =>
    simp only [h]
    split
    · rfl
    · exact (castRealAsReal_loop _ _ _).1

/-- C16 as stated fails in its last part.  Int → Int and Int → Duration have
`vectorized()` true, and return the "not implemented" error when their argument is a
cast without a vectorized implementation (here `builtinCastStringAsIntSig`). -/
theorem capability_flags_counterexample :
    CastSig.vectorized .builtinCastIntAsIntSig = true ∧
    (builtinCastIntAsIntSig.vecEvalInt ⟨false, 0, 0, 0, exampleStringAsIntChild⟩ warnCtx
      (exampleChunk 2) ⟨[], []⟩).err = some Error.notImplemented ∧
    CastSig.vectorized .builtinCastIntAsDurationSig = true ∧
    (builtinCastIntAsDurationSig.vecEvalDuration exampleNumberToDuration
      ⟨false, 0, 0, 0, exampleStringAsIntChild⟩ (examplePool Int) warnCtx (exampleChunk 2)
      ⟨[], []⟩).err = some Error.notImplemented := by
  decide

/-- C16, amended (capability flags).

* For every cast signature of the file, `vectorized()` is false if and only if the
  signature's `vecEval*` method returns the "not implemented" error on every input and
  leaves the destination column as it was.
* `vectorized()` is true exactly for Int → Duration, Int → Int, Int → Real, Real → Real,
  Time → Duration and Decimal → Real.
* None of those six raises the "not implemented" error itself: when one of them returns
  it, the error was returned by the allocator, by the child expression, or (Int →
  Duration, Decimal → Real, Time → Duration) by a conversion routine on the value of a
  row. -/
theorem capability_flags :
    (∀ s : CastSig, s.vectorized = false ↔
      ∀ (rt : CastRoutines) (b : baseBuiltinCastFunc s.argType.carrier)
        (pool : columnBufferAllocator s.argType.carrier) (sc : StatementContext)
        (input : Chunk) (result : Column s.retType.carrier),
        (s.vecEval rt b pool sc input result).err = some Error.notImplemented ∧
        (s.vecEval rt b pool sc input result).result = result) ∧
    (∀ s : CastSig, s.vectorized = true ↔
        s = .builtinCastIntAsDurationSig ∨
        s = .builtinCastIntAsIntSig ∨
        s = .builtinCastIntAsRealSig ∨
        s = .builtinCastRealAsRealSig ∨
        s = .builtinCastTimeAsDurationSig ∨
        s = .builtinCastDecimalAsRealSig) ∧
    (∀ (NumberToDuration : Int → Int → Except Error Duration) (b : baseBuiltinCastFunc Int)
      (pool : columnBufferAllocator Int) (sc : StatementContext) (input : Chunk)
      (result : Column Int),
      (builtinCastIntAsDurationSig.vecEvalDuration NumberToDuration b pool sc input
        result).err = some Error.notImplemented →
      pool.next = Except.error Error.notImplemented ∨
      ∃ buf0, pool.next = Except.ok buf0 ∧
        ((b.arg0 sc input buf0).err = some Error.notImplemented ∨
          ((b.arg0 sc input buf0).err = none ∧
            ∃ i, i < input.NumRows ∧ (b.arg0 sc input buf0).col.IsNull i = false ∧
              NumberToDuration ((b.arg0 sc input buf0).col.value i) (int8 b.tpDecimal)
                = Except.error Error.notImplemented))) ∧
    (∀ (b : baseBuiltinCastFunc Int) (sc : StatementContext) (input : Chunk)
      (result : Column Int),
      (builtinCastIntAsIntSig.vecEvalInt b sc input result).err
        = some Error.notImplemented →
      (b.arg0 sc input result).err = some Error.notImplemented) ∧
    (∀ (b : baseBuiltinCastFunc Int) (pool : columnBufferAllocator Int)
      (sc : StatementContext) (input : Chunk) (result : Column Float64),
      (builtinCastIntAsRealSig.vecEvalReal b pool sc input result).err
        = some Error.notImplemented →
      pool.next = Except.error Error.notImplemented ∨
      ∃ buf0, pool.next = Except.ok buf0 ∧
        (b.arg0 sc input buf0).err = some Error.notImplemented) ∧
    (∀ (b : baseBuiltinCastFunc Float64) (sc : StatementContext) (input : Chunk)
      (result : Column Float64),
      (builtinCastRealAsRealSig.vecEvalReal b sc input result).err
        = some Error.notImplemented →
      (b.arg0 sc input result).err = some Error.notImplemented) ∧
    (∀ (ConvertToDuration : Time → Except Error Duration)
      (RoundFrac : Duration → Int → Except Error Duration) (b : baseBuiltinCastFunc Time)
      (pool : columnBufferAllocator Time) (sc : StatementContext) (input : Chunk)
      (result : Column Int),
      (builtinCastTimeAsDurationSig.vecEvalDuration ConvertToDuration RoundFrac b pool sc
        input result).err = some Error.notImplemented →
      pool.next = Except.error Error.notImplemented ∨
      ∃ buf0, pool.next = Except.ok buf0 ∧
        ((b.arg0 sc input buf0).err = some Error.notImplemented ∨
          ((b.arg0 sc input buf0).err = none ∧
            ∃ i, i < (b.arg0 sc input buf0).col.data.length ∧
              (ConvertToDuration ((b.arg0 sc input buf0).col.value i)
                  = Except.error Error.notImplemented ∨
                ∃ d, ConvertToDuration ((b.arg0 sc input buf0).col.value i) = Except.ok d ∧
                  RoundFrac d (int8 b.tpDecimal) = Except.error Error.notImplemented)))) ∧
    (∀ (ToFloat64 : MyDecimal → Except Error Float64) (b : baseBuiltinCastFunc MyDecimal)
      (pool : columnBufferAllocator MyDecimal) (sc : StatementContext) (input : Chunk)
      (result : Column Float64),
      (builtinCastDecimalAsRealSig.vecEvalReal ToFloat64 b pool sc input result).err
        = some Error.notImplemented →
      pool.next = Except.error Error.notImplemented ∨
      ∃ buf0, pool.next = Except.ok buf0 ∧
        ((b.arg0 sc input buf0).err = some Error.notImplemented ∨
          ((b.arg0 sc input buf0).err = none ∧
            ∃ i, i < input.NumRows ∧ (b.arg0 sc input buf0).col.IsNull i = false ∧
              ToFloat64 ((b.arg0 sc input buf0).col.value i)
                = Except.error Error.notImplemented))) := by
  refine ⟨?_, ?_, ?_, ?_, ?_, ?_, ?_, ?_⟩
  · intro s
    cases s with
    | builtinCastIntAsDurationSig =>
      constructor
      · intro h
        cases h
      · intro h
        exact absurd (h exampleRoutines ⟨false, 0, 0, 0, failingChild (Error.other 0)⟩
        ⟨Except.error (Error.other 0), 0, 0⟩ warnCtx (exampleChunk 0) ⟨[], []⟩).1 (by decide)
    | builtinCastIntAsIntSig =>
      constructor
      · intro h
        cases h
      · intro h
        exact absurd (h exampleRoutines ⟨false, 0, 0, 0, failingChild (Error.other 0)⟩
        (examplePool Int) warnCtx (exampleChunk 0) ⟨[], []⟩).1 (by decide)
    | builtinCastIntAsRealSig =>
      constructor
      · intro h
        cases h
      · intro h
        exact absurd (h exampleRoutines ⟨false, 0, 0, 0, failingChild (Error.other 0)⟩
        ⟨Except.error (Error.other 0), 0, 0⟩ warnCtx (exampleChunk 0) ⟨[], []⟩).1 (by decide)
    | builtinCastRealAsRealSig =>
      constructor
      · intro h
        cases h
      · intro h
        exact absurd (h exampleRoutines ⟨false, 0, 0, 0, failingChild (Error.other 0)⟩
        (examplePool Float64) warnCtx (exampleChunk 0) ⟨[], []⟩).1 (by decide)
    | builtinCastTimeAsDurationSig =>
      constructor
      · intro h
        cases h
      · intro h
        exact absurd (h exampleRoutines ⟨false, 0, 0, 0, failingChild (Error.other 0)⟩
        ⟨Except.error (Error.other 0), 0, 0⟩ warnCtx (exampleChunk 0) ⟨[], []⟩).1 (by decide)
    | builtinCastDecimalAsRealSig =>
      constructor
      · intro h
        cases h
      · intro h
        exact absurd (h exampleRoutines ⟨false, 0, 0, 0, failingChild (Error.other 0)⟩
        ⟨Except.error (Error.other 0), 0, 0⟩ warnCtx (exampleChunk 0) ⟨[], []⟩).1 (by decide)
    | _ =>
      constructor
      · intro _ rt b pool sc input result
        exact ⟨rfl, rfl⟩
      · intro _
        rfl
  · intro s
    cases s <;> decide
  · intro N b pool sc input result h
    exact vecEvalDuration_int_err_origin N b pool sc input result _ h
  · intro b sc input result h
    rw [vecEvalInt_err] at h
    exact h
  · intro b pool sc input result h
    exact vecEvalReal_int_err_origin b pool sc input result _ h
  · intro b sc input result h
    rw [vecEvalReal_real_err] at h
    exact h
  · intro C R b pool sc input result h
    exact vecEvalDuration_time_err_origin C R b pool sc input result _ h
  · intro F b pool sc input result h
    exact vecEvalReal_decimal_err_origin F b pool sc input result _ h

theorem capability_flags_witness :
    (exampleStringAsIntChild warnCtx (exampleChunk 2) ⟨[], []⟩).err
      = some Error.notImplemented ∧
    ((examplePool Int).next = Except.error Error.notImplemented ∨
      ∃ buf0, (examplePool Int).next = Except.ok buf0 ∧
        (exampleStringAsIntChild strictCtx (exampleChunk 2) buf0).err
          = some Error.notImplemented) :=
  ⟨capability_flags.2.2.2.1 ⟨false, 0, 0, 0, exampleStringAsIntChild⟩ warnCtx (exampleChunk 2)
      ⟨[], []⟩ (by decide),
    capability_flags.2.2.2.2.1 ⟨false, 32, 0, 32, exampleStringAsIntChild⟩ (examplePool Int)
      strictCtx (exampleChunk 2) ⟨[], []⟩ (by decide)⟩

/-! ## Rounding of Time → Duration (C13) -/

/-- Time → Duration on a batch on which the handler succeeds: a row that is not null,
whose time of day is extracted as `d` and rounded to `r`, holds `r` in nanoseconds. -/
theorem vecEvalDuration_time_value (ConvertToDuration : Time → Except Error Duration)
    (RoundFrac : Duration → Int → Except Error Duration) (b : baseBuiltinCastFunc Time)
    (pool : columnBufferAllocator Time) (sc : StatementContext) (input : Chunk)
    (result : Column Int) (buf0 : Column Time)
    (hget : pool.next = Except.ok buf0) (herr : (b.arg0 sc input buf0).err = none)
    (hrows : (b.arg0 sc input buf0).col.HasRows input.NumRows)
    (i : Nat) (hi : i < input.NumRows) (hn : (b.arg0 sc input buf0).col.IsNull i = false)
    (d r : Duration) (hC : ConvertToDuration ((b.arg0 sc input buf0).col.value i) = Except.ok d)
    (hR : RoundFrac d (int8 b.tpDecimal) = Except.ok r)
    (hok : (builtinCastTimeAsDurationSig.vecEvalDuration ConvertToDuration RoundFrac b pool sc
      input result).err = none) :
    (builtinCastTimeAsDurationSig.vecEvalDuration ConvertToDuration RoundFrac b pool sc
      input result).result.IsNull i = false ∧
    (builtinCastTimeAsDurationSig.vecEvalDuration ConvertToDuration RoundFrac b pool sc
      input result).result.value i = r.Duration := by
  rw [vecEvalDuration_time_ok ConvertToDuration RoundFrac b pool sc input result buf0 hget herr]
    at hok ⊢
  simp only [hrows.2] at hok ⊢
  generalize (b.arg0 sc input buf0).col = col at hn hC hok ⊢
  generalize (b.arg0 sc input buf0).sc = csc at hok ⊢
  have hact : castTimeAsDurationAct ConvertToDuration RoundFrac b col.data (col.IsNull i) i
      = RowAct.store r.Duration := by
    unfold Column.value at hC
    unfold castTimeAsDurationAct
    rw [hn]
    simp only [Bool.false_eq_true, if_false, hC, hR]
  obtain ⟨p1, _, _⟩ := merged_ok
    (fun isNull (_ : Bool) i =>
      castTimeAsDurationAct ConvertToDuration RoundFrac b col.data isNull i)
    result col input.NumRows input.NumRows (le_refl _) csc hok
  obtain ⟨_, q2, q3⟩ := p1 i hi
  refine ⟨?_, ?_⟩
  · rw [q2, hact, hn]; rfl
  · rw [Column.value_eq, q3 r.Duration hact]; rfl

/-- C13 as stated fails.  The datetime `2019-11-04 12:34:56.5` is cast to Duration with 0
fractional digits, the time of day being extracted as the spec says.  With a rounding
that breaks the tie away from zero the handler stores `12:34:57`; with one that breaks it
to even it stores `12:34:56`.  Both are roundings in the sense of the spec;
`12:35:00`, three seconds and a half away, is not one, and is stored in neither case. -/
theorem castTimeAsDuration_rounding_counterexample :
    ((builtinCastTimeAsDurationSig.vecEvalDuration Time.ConvertToDuration exampleRoundFrac
        exampleTimeAsDuration (examplePool Time) warnCtx (exampleChunk 2) ⟨[], []⟩).err = none ∧
      (builtinCastTimeAsDurationSig.vecEvalDuration Time.ConvertToDuration exampleRoundFrac
        exampleTimeAsDuration (examplePool Time) warnCtx (exampleChunk 2)
        ⟨[], []⟩).result.IsNull 0 = false ∧
      (builtinCastTimeAsDurationSig.vecEvalDuration Time.ConvertToDuration exampleRoundFrac
        exampleTimeAsDuration (examplePool Time) warnCtx (exampleChunk 2)
        ⟨[], []⟩).result.value 0 = (12 * 3600 + 34 * 60 + 57) * 1000000000 ∧
      (builtinCastTimeAsDurationSig.vecEvalDuration Time.ConvertToDuration exampleRoundFrac
        exampleTimeAsDuration (examplePool Time) warnCtx (exampleChunk 2)
        ⟨[], []⟩).result.value 0 ≠ (12 * 3600 + 35 * 60 + 0) * 1000000000) ∧
    ((builtinCastTimeAsDurationSig.vecEvalDuration Time.ConvertToDuration exampleRoundFracEven
        exampleTimeAsDuration (examplePool Time) warnCtx (exampleChunk 2) ⟨[], []⟩).err = none ∧
      (builtinCastTimeAsDurationSig.vecEvalDuration Time.ConvertToDuration exampleRoundFracEven
        exampleTimeAsDuration (examplePool Time) warnCtx (exampleChunk 2)
        ⟨[], []⟩).result.IsNull 0 = false ∧
      (builtinCastTimeAsDurationSig.vecEvalDuration Time.ConvertToDuration exampleRoundFracEven
        exampleTimeAsDuration (examplePool Time) warnCtx (exampleChunk 2)
        ⟨[], []⟩).result.value 0 = (12 * 3600 + 34 * 60 + 56) * 1000000000 ∧
      (builtinCastTimeAsDurationSig.vecEvalDuration Time.ConvertToDuration exampleRoundFracEven
        exampleTimeAsDuration (examplePool Time) warnCtx (exampleChunk 2)
        ⟨[], []⟩).result.value 0 ≠ (12 * 3600 + 35 * 60 + 0) * 1000000000) ∧
    (Duration.IsRoundFrac ⟨(12 * 3600 + 34 * 60 + 56) * 1000000000 + 500000000, 6⟩ 0
        ⟨(12 * 3600 + 34 * 60 + 57) * 1000000000, 0⟩ ∧
      Duration.IsRoundFrac ⟨(12 * 3600 + 34 * 60 + 56) * 1000000000 + 500000000, 6⟩ 0
        ⟨(12 * 3600 + 34 * 60 + 56) * 1000000000, 0⟩ ∧
      ¬ Duration.IsRoundFrac ⟨(12 * 3600 + 34 * 60 + 56) * 1000000000 + 500000000, 6⟩ 0
        ⟨(12 * 3600 + 35 * 60 + 0) * 1000000000, 0⟩) := by
  decide

/-- C13, amended (rounding of Time → Duration).  Take any rounding routine.  On a batch on
which the child succeeded and wrote one row per input row, with a destination of 0
fractional digits, let row `i` be not null and hold a datetime whose time of day is
`12:34:56.5`.  If no conversion of the batch fails, and what the routine returns for the
time of day of row `i` is a rounding of it to 0 digits (a whole number of seconds at most
half a second away), then the handler succeeds and row `i` of the destination is not null
and holds `12:34:56` or `12:34:57`, in nanoseconds: one of the two whole seconds nearest
to `12:34:56.5`, whichever way the routine breaks the tie.  It does not hold
`12:35:00`. -/
theorem castTimeAsDuration_rounding
    (RoundFrac : Duration → Int → Except Error Duration) (b : baseBuiltinCastFunc Time)
    (pool : columnBufferAllocator Time) (sc : StatementContext) (input : Chunk)
    (result : Column Int) (buf0 : Column Time) (i : Nat)
    (hget : pool.next = Except.ok buf0)
    (herr : (b.arg0 sc input buf0).err = none)
    (hrows : (b.arg0 sc input buf0).col.HasRows input.NumRows)
    (h0 : b.tpDecimal = 0)
    (hi : i < input.NumRows)
    (hn : (b.arg0 sc input buf0).col.IsNull i = false)
    (h1 : ((b.arg0 sc input buf0).col.value i).hour = 12)
    (h2 : ((b.arg0 sc input buf0).col.value i).minute = 34)
    (h3 : ((b.arg0 sc input buf0).col.value i).second = 56)
    (h4 : ((b.arg0 sc input buf0).col.value i).microsecond = 500000)
    (hnofail : ∀ j, j < input.NumRows →
      castTimeAsDurationError Time.ConvertToDuration RoundFrac b (b.arg0 sc input buf0).col j
        = none)
    (hround : ∀ d r, Time.ConvertToDuration ((b.arg0 sc input buf0).col.value i) = Except.ok d →
      RoundFrac d 0 = Except.ok r → Duration.IsRoundFrac d 0 r) :
    (builtinCastTimeAsDurationSig.vecEvalDuration Time.ConvertToDuration RoundFrac b pool sc
      input result).err = none ∧
    (builtinCastTimeAsDurationSig.vecEvalDuration Time.ConvertToDuration RoundFrac b pool sc
      input result).result.IsNull i = false ∧
    ((builtinCastTimeAsDurationSig.vecEvalDuration Time.ConvertToDuration RoundFrac b pool sc
        input result).result.value i = (12 * 3600 + 34 * 60 + 56) * 1000000000 ∨
      (builtinCastTimeAsDurationSig.vecEvalDuration Time.ConvertToDuration RoundFrac b pool sc
        input result).result.value i = (12 * 3600 + 34 * 60 + 57) * 1000000000) ∧
    (builtinCastTimeAsDurationSig.vecEvalDuration Time.ConvertToDuration RoundFrac b pool sc
      input result).result.value i ≠ (12 * 3600 + 35 * 60 + 0) * 1000000000 := by
  have hok : (builtinCastTimeAsDurationSig.vecEvalDuration Time.ConvertToDuration RoundFrac
      b pool sc input result).err = none := by
    rw [vecEvalDuration_time_ok Time.ConvertToDuration RoundFrac b pool sc input result buf0
      hget herr]
    simp only [hrows.2]
    rw [merged_ok_iff]
    intro j hj
    rcases castTimeAsDurationAct_cases Time.ConvertToDuration RoundFrac b
        (b.arg0 sc input buf0).col j with ⟨h, _⟩ | ⟨v, h, _⟩ | ⟨e, _, he⟩
    · rw [h]; rfl
    · rw [h]; rfl
    · rw [hnofail j hj] at he
      cases he
  have hC : Time.ConvertToDuration ((b.arg0 sc input buf0).col.value i)
      = Except.ok ⟨45296500000000, ((b.arg0 sc input buf0).col.value i).fsp⟩ := by
    unfold Time.ConvertToDuration
    rw [h1, h2, h3, h4]
    rfl
  have h8 : int8 b.tpDecimal = 0 := by rw [h0]; decide
  have hex : ∃ r, RoundFrac ⟨45296500000000, ((b.arg0 sc input buf0).col.value i).fsp⟩ 0
      = Except.ok r := by
    have hnf := hnofail i hi
    unfold castTimeAsDurationError at hnf
    unfold Column.value at hC
    rw [hn] at hnf
    simp only [Bool.false_eq_true, if_false, hC, h8] at hnf
    cases hR : RoundFrac ⟨45296500000000, ((b.arg0 sc input buf0).col.data.getD i default).fsp⟩
        0 with
    | error e =>
      rw [hR] at hnf
      cases hnf
    | ok r => exact ⟨r, hR⟩
  obtain ⟨r, hR⟩ := hex
  obtain ⟨v1, v2⟩ := vecEvalDuration_time_value Time.ConvertToDuration RoundFrac b
    pool sc input result buf0 hget herr hrows i hi hn _ r hC (by rw [h8]; exact hR) hok
  obtain ⟨r1, r2, r3⟩ := hround _ r hC hR
  have hu : ((10 ^ (9 - (0 : Int).toNat) : Nat) : Int) = 1000000000 := by decide
  rw [hu] at r1 r2 r3
  simp only at r1 r2 r3
  refine ⟨hok, v1, ?_, ?_⟩
  · rw [v2]
    omega
  · rw [v2]
    omega

theorem castTimeAsDuration_rounding_witness :
    ((builtinCastTimeAsDurationSig.vecEvalDuration Time.ConvertToDuration exampleRoundFracEven
        exampleTimeAsDuration (examplePool Time) strictCtx (exampleChunk 2)
        ⟨[], []⟩).result.value 0 = (12 * 3600 + 34 * 60 + 56) * 1000000000 ∨
      (builtinCastTimeAsDurationSig.vecEvalDuration Time.ConvertToDuration exampleRoundFracEven
        exampleTimeAsDuration (examplePool Time) strictCtx (exampleChunk 2)
        ⟨[], []⟩).result.value 0 = (12 * 3600 + 34 * 60 + 57) * 1000000000) ∧
    (builtinCastTimeAsDurationSig.vecEvalDuration Time.ConvertToDuration exampleRoundFracEven
      exampleTimeAsDuration (examplePool Time) strictCtx (exampleChunk 2)
      ⟨[], []⟩).result.value 0 ≠ (12 * 3600 + 35 * 60 + 0) * 1000000000 :=
  (castTimeAsDuration_rounding exampleRoundFracEven exampleTimeAsDuration (examplePool Time)
    strictCtx (exampleChunk 2) ⟨[], []⟩ ⟨[], []⟩ 0 rfl rfl (by decide) rfl (by decide) rfl rfl
    rfl rfl rfl
    (by
      intro j hj
      have hj2 : j = 0 ∨ j = 1 := by
        have : j < 2 := hj
        omega
      rcases hj2 with h | h <;> subst h <;> decide)
    (by
      intro d r hd hr
      cases hd
      have hr2 : exampleRoundFracEven ⟨45296500000000, 6⟩ 0
          = Except.ok r := hr
      rw [show exampleRoundFracEven ⟨45296500000000, 6⟩ 0
          = Except.ok ⟨45296000000000, 0⟩ from rfl] at hr2
      cases hr2
      decide)).2.2

/-! ## The vectorized handlers and the row-at-a-time path of the spec (C15) -/

/-- The row fallback of a scalar cast that never clamps, as a loop of row actions. -/
theorem rowFallback_eq_actLoop {α β : Type} [Inhabited α] [Inhabited β]
    (scalarCast : Bool → α → OverflowOutcome β)
    (hcl : ∀ w v, (scalarCast w v).isClamped = false)
    (src : Column α) (n : Nat) (sc : StatementContext) (result : Column β) :
    rowFallback scalarCast src n sc result =
      actLoop (fun isNull warn i =>
          if isNull then RowAct.skip else (scalarCast warn (src.value i)).toRowAct)
        n 0 ((result.resize n false).MergeNulls src, sc) := by
  unfold rowFallback actLoop
  congr 1
  funext i s
  cases hn : s.1.IsNull i with
  | true => rfl
  | false =>
    simp only [Bool.false_eq_true, if_false]
    have hc := hcl s.2.OverflowAsWarning (src.value i)
    cases hsc : scalarCast s.2.OverflowAsWarning (src.value i) with
    | Value v => rfl
    | Clamped v w => rw [hsc] at hc; cases hc
    | Null w => rfl
    | Error e => rfl

/-- The row fallback of a scalar cast that always gives a value: it succeeds, leaves the
statement context as it was, keeps the null bits of the source and stores the value of
the cast in every row that is not null. -/
theorem rowFallback_value {α β : Type} [Inhabited α] [Inhabited β]
    (scalarCast : Bool → α → OverflowOutcome β) (f : α → β)
    (hval : ∀ w v, scalarCast w v = OverflowOutcome.Value (f v))
    (src : Column α) (n : Nat) (sc : StatementContext) (result : Column β) :
    (rowFallback scalarCast src n sc result).1 = none ∧
    (rowFallback scalarCast src n sc result).2.2 = sc ∧
    ∀ i, i < n →
      (rowFallback scalarCast src n sc result).2.1.IsNull i = src.IsNull i ∧
      (src.IsNull i = false →
        (rowFallback scalarCast src n sc result).2.1.value i = f (src.value i)) := by
  rw [rowFallback_eq_actLoop scalarCast (by intro w v; rw [hval]; rfl)]
  have hnf : ∀ i, i < n →
      ((fun (isNull warn : Bool) (i : Nat) =>
        if isNull then RowAct.skip else (scalarCast warn (src.value i)).toRowAct)
        (src.IsNull i) sc.OverflowAsWarning i).isFail = false := by
    intro i _
    simp only [hval]
    split <;> rfl
  have hnn : ∀ i, i < n →
      ((fun (isNull warn : Bool) (i : Nat) =>
        if isNull then RowAct.skip else (scalarCast warn (src.value i)).toRowAct)
        (src.IsNull i) sc.OverflowAsWarning i).isNull = false := by
    intro i _
    simp only [hval]
    split <;> rfl
  have hok := (merged_ok_iff
    (fun (isNull warn : Bool) (i : Nat) =>
      if isNull then RowAct.skip else (scalarCast warn (src.value i)).toRowAct)
    result src n sc).mpr hnf
  obtain ⟨n1, n2⟩ := merged_no_null
    (fun (isNull warn : Bool) (i : Nat) =>
      if isNull then RowAct.skip else (scalarCast warn (src.value i)).toRowAct)
    result src n n (le_refl _) sc hnn hok
  obtain ⟨p1, _, _⟩ := merged_ok
    (fun (isNull warn : Bool) (i : Nat) =>
      if isNull then RowAct.skip else (scalarCast warn (src.value i)).toRowAct)
    result src n n (le_refl _) sc hok
  refine ⟨hok, n2, ?_⟩
  intro i hi
  refine ⟨n1 i hi, ?_⟩
  intro hnull
  have h3 := (p1 i hi).2.2 (f (src.value i)) (by
    simp only [hnull, hval]
    rfl)
  rw [Column.value_eq, h3]
  rfl

/-- Int → Duration and its scalar cast act alike on a row whose conversion, if it fails
in warning mode, fails with an overflow error. -/
theorem castIntAsDurationAct_scalar (NumberToDuration : Int → Int → Except Error Duration)
    (b : baseBuiltinCastFunc Int) (col : Column Int) (warn : Bool) (i : Nat)
    (h : warn = true → ∀ e, castIntAsDurationError NumberToDuration b col i = some e →
      ErrOverflow.Equal e = true) :
    castIntAsDurationAct NumberToDuration b col.data (col.IsNull i) warn i =
      if col.IsNull i then RowAct.skip
      else (scalarCastIntAsDuration NumberToDuration b warn (col.value i)).toRowAct := by
  unfold castIntAsDurationAct scalarCastIntAsDuration Column.value
  unfold castIntAsDurationError at h
  cases hn : col.IsNull i with
  | true => rfl
  | false =>
    simp only [hn, Bool.false_eq_true, if_false] at h ⊢
    cases hN : NumberToDuration (col.data.getD i 0) (int8 b.tpDecimal) with
    | ok d => rfl
    | error e =>
      rw [hN] at h
      simp only [Except.map, convAct, overflowPolicy]
      cases warn with
      | false =>
        simp only [Bool.false_eq_true, if_false]
        split <;> rfl
      | true =>
        rw [h rfl e rfl]
        rfl

/-- Decimal → Real and its scalar cast act alike on every row. -/
theorem castDecimalAsRealAct_scalar (ToFloat64 : MyDecimal → Except Error Float64)
    (b : baseBuiltinCastFunc MyDecimal) (col : Column MyDecimal) (warn : Bool) (i : Nat) :
    castDecimalAsRealAct ToFloat64 b col.data (col.IsNull i) warn i =
      if col.IsNull i then RowAct.skip
      else (scalarCastDecimalAsReal ToFloat64 b warn (col.value i)).toRowAct := by
  unfold castDecimalAsRealAct scalarCastDecimalAsReal Column.value
  cases hn : col.IsNull i with
  | true => rfl
  | false =>
    simp only [Bool.false_eq_true, if_false]
    cases hc : ((b.inUnion && HasUnsignedFlag b.tpFlag) &&
        (col.data.getD i default).IsNegative) with
    | true => simp only [if_true]; rfl
    | false =>
      simp only [Bool.false_eq_true, if_false]
      cases hF : ToFloat64 (col.data.getD i default) with
      | ok v => rfl
      | error e =>
        simp only [convAct, overflowPolicy]
        cases ErrOverflow.Equal e <;> cases warn <;> rfl

/-- Time → Duration and its scalar cast act alike on every row. -/
theorem castTimeAsDurationAct_scalar (ConvertToDuration : Time → Except Error Duration)
    (RoundFrac : Duration → Int → Except Error Duration) (b : baseBuiltinCastFunc Time)
    (col : Column Time) (warn : Bool) (i : Nat) :
    castTimeAsDurationAct ConvertToDuration RoundFrac b col.data (col.IsNull i) i =
      if col.IsNull i then RowAct.skip
      else (scalarCastTimeAsDuration ConvertToDuration RoundFrac b warn
        (col.value i)).toRowAct := by
  unfold castTimeAsDurationAct scalarCastTimeAsDuration Column.value
  cases hn : col.IsNull i with
  | true => rfl
  | false =>
    simp only [Bool.false_eq_true, if_false]
    cases hC : ConvertToDuration (col.data.getD i default) with
    | error e => rfl
    | ok d =>
      simp only
      cases hR : RoundFrac d (int8 b.tpDecimal) with
      | error e => rfl
      | ok d2 => rfl

/-- Int → Real and its scalar cast act alike on every row. -/
theorem castIntAsRealAct_scalar (b : baseBuiltinCastFunc Int) (col : Column Int)
    (warn : Bool) (i : Nat) :
    castIntAsRealAct b col.data (col.IsNull i) i =
      if col.IsNull i then RowAct.skip
      else (scalarCastIntAsReal b warn (col.value i)).toRowAct := by
  unfold castIntAsRealAct scalarCastIntAsReal Column.value
  cases hn : col.IsNull i with
  | true => rfl
  | false =>
    rw [show col.data.getD i default = col.data.getD i 0 from rfl]
    simp only [Bool.false_eq_true, if_false]
    generalize col.data.getD i 0 = v
    cases hu : b.inUnion <;> cases ht : HasUnsignedFlag b.tpFlag <;>
      cases ha : HasUnsignedFlag b.argFlag <;>
      by_cases hv : v < 0 <;>
      simp [hv, OverflowOutcome.toRowAct]

/-- Int → Int against the row fallback of its scalar cast. -/
theorem vecEvalInt_sameOutput (b : baseBuiltinCastFunc Int) (sc : StatementContext)
    (input : Chunk) (result dest : Column Int)
    (herr : (b.arg0 sc input result).err = none) :
    SameOutput input.NumRows
      (builtinCastIntAsIntSig.vecEvalInt b sc input result).err
      (builtinCastIntAsIntSig.vecEvalInt b sc input result).col
      (builtinCastIntAsIntSig.vecEvalInt b sc input result).sc
      (rowFallback (scalarCastIntAsInt b) (b.arg0 sc input result).col input.NumRows
        (b.arg0 sc input result).sc dest).1
      (rowFallback (scalarCastIntAsInt b) (b.arg0 sc input result).col input.NumRows
        (b.arg0 sc input result).sc dest).2.1
      (rowFallback (scalarCastIntAsInt b) (b.arg0 sc input result).col input.NumRows
        (b.arg0 sc input result).sc dest).2.2 := by
  obtain ⟨f1, f2, f3⟩ := rowFallback_value (scalarCastIntAsInt b)
    (fun v => if (b.inUnion && HasUnsignedFlag b.tpFlag) && decide (v < 0) then 0 else v)
    (by
      intro w v
      unfold scalarCastIntAsInt
      cases hcond : ((b.inUnion && HasUnsignedFlag b.tpFlag) && decide (v < 0)) <;>
        simp only [hcond, if_true, Bool.false_eq_true, if_false])
    (b.arg0 sc input result).col input.NumRows (b.arg0 sc input result).sc dest
  cases hc : (b.inUnion && HasUnsignedFlag b.tpFlag) with
  | false =>
    rw [vecEvalInt_copy b sc input result herr hc]
    refine ⟨f1.symm, f2.symm, ?_⟩
    intro i hi
    refine ⟨(f3 i hi).1.symm, ?_⟩
    intro hn
    rw [(f3 i hi).2 hn, hc]
    rfl
  | true =>
    rw [vecEvalInt_clamp b sc input result herr hc]
    refine ⟨f1.symm, f2.symm, ?_⟩
    intro i hi
    refine ⟨(f3 i hi).1.symm, ?_⟩
    intro hn
    have hn' : (b.arg0 sc input result).col.IsNull i = false := hn
    rw [(f3 i hi).2 hn', hc]
    unfold Column.value
    simp only [Bool.true_and]
    rw [List.getD_eq_getElem?_getD, List.getD_eq_getElem?_getD, List.getElem?_map]
    cases (b.arg0 sc input result).col.data[i]? with
    | none => rfl
    | some v =>
      simp only [Option.map_some', Option.getD_some, decide_eq_true_eq]

/-- Real → Real against the row fallback of its scalar cast. -/
theorem vecEvalReal_real_sameOutput (b : baseBuiltinCastFunc Float64) (sc : StatementContext)
    (input : Chunk) (result dest : Column Float64)
    (herr : (b.arg0 sc input result).err = none) :
    SameOutput input.NumRows
      (builtinCastRealAsRealSig.vecEvalReal b sc input result).err
      (builtinCastRealAsRealSig.vecEvalReal b sc input result).col
      (builtinCastRealAsRealSig.vecEvalReal b sc input result).sc
      (rowFallback (scalarCastRealAsReal b) (b.arg0 sc input result).col input.NumRows
        (b.arg0 sc input result).sc dest).1
      (rowFallback (scalarCastRealAsReal b) (b.arg0 sc input result).col input.NumRows
        (b.arg0 sc input result).sc dest).2.1
      (rowFallback (scalarCastRealAsReal b) (b.arg0 sc input result).col input.NumRows
        (b.arg0 sc input result).sc dest).2.2 := by
  obtain ⟨f1, f2, f3⟩ := rowFallback_value (scalarCastRealAsReal b)
    (fun v => if (b.inUnion && HasUnsignedFlag b.tpFlag) && v.ltZero then Float64.zero else v)
    (by
      intro w v
      unfold scalarCastRealAsReal
      cases hcond : ((b.inUnion && HasUnsignedFlag b.tpFlag) && v.ltZero) <;>
        simp only [hcond, if_true, Bool.false_eq_true, if_false])
    (b.arg0 sc input result).col input.NumRows (b.arg0 sc input result).sc dest
  cases hc : (b.inUnion && HasUnsignedFlag b.tpFlag) with
  | false =>
    rw [vecEvalReal_real_copy b sc input result herr hc]
    refine ⟨f1.symm, f2.symm, ?_⟩
    intro i hi
    refine ⟨(f3 i hi).1.symm, ?_⟩
    intro hn
    rw [(f3 i hi).2 hn, hc]
    rfl
  | true =>
    rw [vecEvalReal_real_clamp b sc input result herr hc]
    obtain ⟨l1, l2, _, l4⟩ := castRealAsReal_loop input.NumRows 0 (b.arg0 sc input result).col
    have hnull : ∀ i, (forLoop castRealAsRealBody input.NumRows 0
        (b.arg0 sc input result).col).2.IsNull i = (b.arg0 sc input result).col.IsNull i := by
      intro i
      unfold Column.IsNull
      rw [l2]
    refine ⟨l1.trans f1.symm, f2.symm, ?_⟩
    intro i hi
    simp only
    refine ⟨(hnull i).trans (f3 i hi).1.symm, ?_⟩
    intro hn
    rw [hnull i] at hn
    rw [(f3 i hi).2 hn, hc, Column.value_eq, l4 i]
    simp only [Bool.true_and]
    by_cases hlt : ((b.arg0 sc input result).col.value i).ltZero = true
    · rw [if_pos ⟨Nat.zero_le _, by omega, hn, hlt⟩, if_pos hlt]
      rw [Column.value_eq] at hlt
      cases hd : (b.arg0 sc input result).col.data[i]? with
      | none =>
        rw [hd] at hlt
        exact absurd hlt (by decide)
      | some v => rfl
    · rw [if_neg (fun h => hlt h.2.2.2), if_neg hlt, Column.value_eq]


/-- The row-at-a-time evaluation through a buffer, path by path, against an outcome that
returns the errors of the acquisition and of the child in the same way. -/
theorem sameOutput_buffered {α β : Type} [Inhabited α] [Inhabited β] (vec : Outcome α β)
    (scalarCast : Bool → α → OverflowOutcome β) (b : baseBuiltinCastFunc α)
    (pool : columnBufferAllocator α) (sc : StatementContext) (input : Chunk)
    (result : Column β)
    (h1 : ∀ e, pool.next = Except.error e →
      vec.err = some e ∧ vec.result = result ∧ vec.sc = sc)
    (h2 : ∀ buf0 e, pool.next = Except.ok buf0 → (b.arg0 sc input buf0).err = some e →
      vec.err = some e ∧ vec.result = result ∧ vec.sc = (b.arg0 sc input buf0).sc)
    (h3 : ∀ buf0, pool.next = Except.ok buf0 → (b.arg0 sc input buf0).err = none →
      SameOutput input.NumRows vec.err vec.result vec.sc
        (rowFallback scalarCast (b.arg0 sc input buf0).col input.NumRows
          (b.arg0 sc input buf0).sc result).1
        (rowFallback scalarCast (b.arg0 sc input buf0).col input.NumRows
          (b.arg0 sc input buf0).sc result).2.1
        (rowFallback scalarCast (b.arg0 sc input buf0).col input.NumRows
          (b.arg0 sc input buf0).sc result).2.2) :
    SameOutput input.NumRows vec.err vec.result vec.sc
      (rowFallbackBuffered scalarCast b pool sc input result).err
      (rowFallbackBuffered scalarCast b pool sc input result).result
      (rowFallbackBuffered scalarCast b pool sc input result).sc := by
  cases hp : pool.next with
  | error e =>
    obtain ⟨a1, a2, a3⟩ := h1 e hp
    simp only [rowFallbackBuffered, columnBufferAllocator.get, hp]
    rw [a1, a2, a3]
    exact ⟨rfl, rfl, fun _ _ => ⟨rfl, fun _ => rfl⟩⟩
  | ok buf0 =>
    cases hc : (b.arg0 sc input buf0).err with
    | some e =>
      obtain ⟨a1, a2, a3⟩ := h2 buf0 e hp hc
      simp only [rowFallbackBuffered, columnBufferAllocator.get, hp, hc]
      rw [a1, a2, a3]
      exact ⟨rfl, rfl, fun _ _ => ⟨rfl, fun _ => rfl⟩⟩
    | none =>
      simp only [rowFallbackBuffered, columnBufferAllocator.get, hp, hc]
      exact h3 buf0 hp hc

/-- C15 as stated fails against the scalar path of the spec.  Int → Duration in warning
mode, one row holding `60` (60 seconds: an invalid encoding, which is not an overflow):
the vectorized handler returns the error; the row-at-a-time evaluation succeeds, nulls the
row and records a warning. -/
theorem vectorized_fallback_counterexample :
    (builtinCastIntAsDurationSig.vecEvalDuration exampleNumberToDuration
      ⟨false, 0, 0, 0, constChild ⟨[false], [60]⟩⟩ (examplePool Int) warnCtx (exampleChunk 1)
      ⟨[], []⟩).err = some (Error.other 60) ∧
    (rowFallbackBuffered
      (scalarCastIntAsDuration exampleNumberToDuration
        ⟨false, 0, 0, 0, constChild ⟨[false], [60]⟩⟩)
      ⟨false, 0, 0, 0, constChild ⟨[false], [60]⟩⟩ (examplePool Int) warnCtx (exampleChunk 1)
      ⟨[], []⟩).err = none ∧
    (rowFallbackBuffered
      (scalarCastIntAsDuration exampleNumberToDuration
        ⟨false, 0, 0, 0, constChild ⟨[false], [60]⟩⟩)
      ⟨false, 0, 0, 0, constChild ⟨[false], [60]⟩⟩ (examplePool Int) warnCtx (exampleChunk 1)
      ⟨[], []⟩).result.IsNull 0 = true ∧
    (rowFallbackBuffered
      (scalarCastIntAsDuration exampleNumberToDuration
        ⟨false, 0, 0, 0, constChild ⟨[false], [60]⟩⟩)
      ⟨false, 0, 0, 0, constChild ⟨[false], [60]⟩⟩ (examplePool Int) warnCtx (exampleChunk 1)
      ⟨[], []⟩).sc.warnings = [Error.other 60] := by
  decide

/-- C15, amended (the vectorized handlers against the row-at-a-time path of the spec).
For each of the six signatures with a vectorized handler and every batch, the vectorized
handler and the row-at-a-time evaluation of the signature's scalar cast give the same
error outcome, the same statement context (so the same warnings), the same null bits and
the same values at the rows that are not null; for Int → Duration, provided that in
warning mode every conversion of the batch that fails does so with an overflow error.

The batch is any input, statement context, allocator state and destination column: the
acquisition of the buffer or the evaluation of the child may fail.  Time → Duration loops
over the rows the child wrote, so the child is taken to write one row per input row. -/
theorem vectorized_fallback_equivalence :
    (∀ (b : baseBuiltinCastFunc Int) (sc : StatementContext) (input : Chunk)
      (result : Column Int),
      SameOutput input.NumRows
        (builtinCastIntAsIntSig.vecEvalInt b sc input result).err
        (builtinCastIntAsIntSig.vecEvalInt b sc input result).col
        (builtinCastIntAsIntSig.vecEvalInt b sc input result).sc
        (rowFallbackInPlace (scalarCastIntAsInt b) b sc input result).err
        (rowFallbackInPlace (scalarCastIntAsInt b) b sc input result).col
        (rowFallbackInPlace (scalarCastIntAsInt b) b sc input result).sc) ∧
    (∀ (b : baseBuiltinCastFunc Int) (pool : columnBufferAllocator Int)
      (sc : StatementContext) (input : Chunk) (result : Column Float64),
      SameOutput input.NumRows
        (builtinCastIntAsRealSig.vecEvalReal b pool sc input result).err
        (builtinCastIntAsRealSig.vecEvalReal b pool sc input result).result
        (builtinCastIntAsRealSig.vecEvalReal b pool sc input result).sc
        (rowFallbackBuffered (scalarCastIntAsReal b) b pool sc input result).err
        (rowFallbackBuffered (scalarCastIntAsReal b) b pool sc input result).result
        (rowFallbackBuffered (scalarCastIntAsReal b) b pool sc input result).sc) ∧
    (∀ (b : baseBuiltinCastFunc Float64) (sc : StatementContext) (input : Chunk)
      (result : Column Float64),
      SameOutput input.NumRows
        (builtinCastRealAsRealSig.vecEvalReal b sc input result).err
        (builtinCastRealAsRealSig.vecEvalReal b sc input result).col
        (builtinCastRealAsRealSig.vecEvalReal b sc input result).sc
        (rowFallbackInPlace (scalarCastRealAsReal b) b sc input result).err
        (rowFallbackInPlace (scalarCastRealAsReal b) b sc input result).col
        (rowFallbackInPlace (scalarCastRealAsReal b) b sc input result).sc) ∧
    (∀ (ToFloat64 : MyDecimal → Except Error Float64) (b : baseBuiltinCastFunc MyDecimal)
      (pool : columnBufferAllocator MyDecimal) (sc : StatementContext) (input : Chunk)
      (result : Column Float64),
      SameOutput input.NumRows
        (builtinCastDecimalAsRealSig.vecEvalReal ToFloat64 b pool sc input result).err
        (builtinCastDecimalAsRealSig.vecEvalReal ToFloat64 b pool sc input result).result
        (builtinCastDecimalAsRealSig.vecEvalReal ToFloat64 b pool sc input result).sc
        (rowFallbackBuffered (scalarCastDecimalAsReal ToFloat64 b) b pool sc input result).err
        (rowFallbackBuffered (scalarCastDecimalAsReal ToFloat64 b) b pool sc input
          result).result
        (rowFallbackBuffered (scalarCastDecimalAsReal ToFloat64 b) b pool sc input
          result).sc) ∧
    (∀ (NumberToDuration : Int → Int → Except Error Duration) (b : baseBuiltinCastFunc Int)
      (pool : columnBufferAllocator Int) (sc : StatementContext) (input : Chunk)
      (result : Column Int),
      (∀ buf0, pool.next = Except.ok buf0 → (b.arg0 sc input buf0).err = none →
        (b.arg0 sc input buf0).sc.OverflowAsWarning = true →
        ∀ i e, i < input.NumRows →
          castIntAsDurationError NumberToDuration b (b.arg0 sc input buf0).col i = some e →
          ErrOverflow.Equal e = true) →
      SameOutput input.NumRows
        (builtinCastIntAsDurationSig.vecEvalDuration NumberToDuration b pool sc input
          result).err
        (builtinCastIntAsDurationSig.vecEvalDuration NumberToDuration b pool sc input
          result).result
        (builtinCastIntAsDurationSig.vecEvalDuration NumberToDuration b pool sc input
          result).sc
        (rowFallbackBuffered (scalarCastIntAsDuration NumberToDuration b) b pool sc input
          result).err
        (rowFallbackBuffered (scalarCastIntAsDuration NumberToDuration b) b pool sc input
          result).result
        (rowFallbackBuffered (scalarCastIntAsDuration NumberToDuration b) b pool sc input
          result).sc) ∧
    (∀ (ConvertToDuration : Time → Except Error Duration)
      (RoundFrac : Duration → Int → Except Error Duration) (b : baseBuiltinCastFunc Time)
      (pool : columnBufferAllocator Time) (sc : StatementContext) (input : Chunk)
      (result : Column Int),
      (∀ buf0, pool.next = Except.ok buf0 → (b.arg0 sc input buf0).err = none →
        (b.arg0 sc input buf0).col.HasRows input.NumRows) →
      SameOutput input.NumRows
        (builtinCastTimeAsDurationSig.vecEvalDuration ConvertToDuration RoundFrac b pool sc
          input result).err
        (builtinCastTimeAsDurationSig.vecEvalDuration ConvertToDuration RoundFrac b pool sc
          input result).result
        (builtinCastTimeAsDurationSig.vecEvalDuration ConvertToDuration RoundFrac b pool sc
          input result).sc
        (rowFallbackBuffered (scalarCastTimeAsDuration ConvertToDuration RoundFrac b) b pool
          sc input result).err
        (rowFallbackBuffered (scalarCastTimeAsDuration ConvertToDuration RoundFrac b) b pool
          sc input result).result
        (rowFallbackBuffered (scalarCastTimeAsDuration ConvertToDuration RoundFrac b) b pool
          sc input result).sc) := by
  refine ⟨?_, ?_, ?_, ?_, ?_, ?_⟩
  · intro b sc input result
    cases hc : (b.arg0 sc input result).err with
    | some e =>
      rw [vecEvalInt_child_err b sc input result e hc]
      simp only [rowFallbackInPlace, hc]
      exact ⟨rfl, rfl, fun _ _ => ⟨rfl, fun _ => rfl⟩⟩
    | none =>
      have h := vecEvalInt_sameOutput b sc input result (b.arg0 sc input result).col hc
      simp only [rowFallbackInPlace, hc]
      exact h
  · intro b pool sc input result
    apply sameOutput_buffered
    · intro e hp
      rw [vecEvalReal_int_get_err b pool sc input result e hp]
      exact ⟨rfl, rfl, rfl⟩
    · intro buf0 e hp hc
      rw [vecEvalReal_int_child_err b pool sc input result buf0 e hp hc]
      exact ⟨rfl, rfl, rfl⟩
    · intro buf0 hget herr
      rw [vecEvalReal_int_ok b pool sc input result buf0 hget herr,
        rowFallback_eq_actLoop (scalarCastIntAsReal b) (by
          intro w v
          unfold scalarCastIntAsReal
          split
          · split <;> rfl
          · rfl)]
      rw [← @merged_congr Int Float64 _
        (fun isNull (_ : Bool) i =>
          castIntAsRealAct b (b.arg0 sc input buf0).col.data isNull i)
        (fun isNull warn i => if isNull then RowAct.skip
          else (scalarCastIntAsReal b warn ((b.arg0 sc input buf0).col.value i)).toRowAct)
        result (b.arg0 sc input buf0).col (b.arg0 sc input buf0).col input.NumRows
        (b.arg0 sc input buf0).sc rfl (fun i _ =>
          castIntAsRealAct_scalar b (b.arg0 sc input buf0).col _ i)]
      obtain ⟨_, n2⟩ := merged_no_null_any
        (fun isNull (_ : Bool) i =>
          castIntAsRealAct b (b.arg0 sc input buf0).col.data isNull i)
        result (b.arg0 sc input buf0).col input.NumRows (b.arg0 sc input buf0).sc
        (fun i _ => castIntAsRealAct_isNull b _ _ i)
      exact ⟨rfl, n2.symm, fun _ _ => ⟨rfl, fun _ => rfl⟩⟩
  · intro b sc input result
    cases hc : (b.arg0 sc input result).err with
    | some e =>
      rw [vecEvalReal_real_child_err b sc input result e hc]
      simp only [rowFallbackInPlace, hc]
      exact ⟨rfl, rfl, fun _ _ => ⟨rfl, fun _ => rfl⟩⟩
    | none =>
      have h := vecEvalReal_real_sameOutput b sc input result (b.arg0 sc input result).col hc
      simp only [rowFallbackInPlace, hc]
      exact h
  · intro F b pool sc input result
    apply sameOutput_buffered
    · intro e hp
      rw [vecEvalReal_decimal_get_err F b pool sc input result e hp]
      exact ⟨rfl, rfl, rfl⟩
    · intro buf0 e hp hc
      rw [vecEvalReal_decimal_child_err F b pool sc input result buf0 e hp hc]
      exact ⟨rfl, rfl, rfl⟩
    · intro buf0 hget herr
      rw [vecEvalReal_decimal_ok F b pool sc input result buf0 hget herr,
        rowFallback_eq_actLoop (scalarCastDecimalAsReal F b) (by
          intro w v
          unfold scalarCastDecimalAsReal
          split
          · rfl
          · cases F v with
            | ok x => rfl
            | error e =>
              simp only [overflowPolicy]
              cases ErrOverflow.Equal e <;> cases w <;> rfl)]
      rw [← @merged_congr MyDecimal Float64 _
        (castDecimalAsRealAct F b (b.arg0 sc input buf0).col.data)
        (fun isNull warn i => if isNull then RowAct.skip
          else (scalarCastDecimalAsReal F b warn
            ((b.arg0 sc input buf0).col.value i)).toRowAct)
        result (b.arg0 sc input buf0).col (b.arg0 sc input buf0).col input.NumRows
        (b.arg0 sc input buf0).sc rfl (fun i _ =>
          castDecimalAsRealAct_scalar F b (b.arg0 sc input buf0).col _ i)]
      exact ⟨rfl, rfl, fun _ _ => ⟨rfl, fun _ => rfl⟩⟩
  · intro N b pool sc input result hdom
    apply sameOutput_buffered
    · intro e hp
      rw [vecEvalDuration_int_get_err N b pool sc input result e hp]
      exact ⟨rfl, rfl, rfl⟩
    · intro buf0 e hp hc
      rw [vecEvalDuration_int_child_err N b pool sc input result buf0 e hp hc]
      exact ⟨rfl, rfl, rfl⟩
    · intro buf0 hget herr
      rw [vecEvalDuration_int_ok N b pool sc input result buf0 hget herr,
        rowFallback_eq_actLoop (scalarCastIntAsDuration N b) (by
          intro w v
          unfold scalarCastIntAsDuration overflowPolicy
          split
          · rfl
          · split <;> rfl)]
      rw [← @merged_congr Int Int _
        (castIntAsDurationAct N b (b.arg0 sc input buf0).col.data)
        (fun isNull warn i => if isNull then RowAct.skip
          else (scalarCastIntAsDuration N b warn
            ((b.arg0 sc input buf0).col.value i)).toRowAct)
        result (b.arg0 sc input buf0).col (b.arg0 sc input buf0).col input.NumRows
        (b.arg0 sc input buf0).sc rfl (fun i hi =>
          castIntAsDurationAct_scalar N b (b.arg0 sc input buf0).col _ i
            (fun hw e he => hdom buf0 hget herr hw i e hi he))]
      exact ⟨rfl, rfl, fun _ _ => ⟨rfl, fun _ => rfl⟩⟩
  · intro C R b pool sc input result hrows
    apply sameOutput_buffered
    · intro e hp
      rw [vecEvalDuration_time_get_err C R b pool sc input result e hp]
      exact ⟨rfl, rfl, rfl⟩
    · intro buf0 e hp hc
      rw [vecEvalDuration_time_child_err C R b pool sc input result buf0 e hp hc]
      exact ⟨rfl, rfl, rfl⟩
    · intro buf0 hget herr
      rw [vecEvalDuration_time_ok C R b pool sc input result buf0 hget herr,
        rowFallback_eq_actLoop (scalarCastTimeAsDuration C R b) (by
          intro w v
          unfold scalarCastTimeAsDuration
          split
          · rfl
          · split <;> rfl)]
      rw [(hrows buf0 hget herr).2, ← @merged_congr Time Int _
        (fun isNull (_ : Bool) i => castTimeAsDurationAct C R b
          (b.arg0 sc input buf0).col.data isNull i)
        (fun isNull warn i => if isNull then RowAct.skip
          else (scalarCastTimeAsDuration C R b warn
            ((b.arg0 sc input buf0).col.value i)).toRowAct)
        result (b.arg0 sc input buf0).col (b.arg0 sc input buf0).col input.NumRows
        (b.arg0 sc input buf0).sc rfl (fun i _ =>
          castTimeAsDurationAct_scalar C R b (b.arg0 sc input buf0).col _ i)]
      obtain ⟨_, n2⟩ := merged_no_null_any
        (fun isNull (_ : Bool) i => castTimeAsDurationAct C R b
          (b.arg0 sc input buf0).col.data isNull i)
        result (b.arg0 sc input buf0).col input.NumRows (b.arg0 sc input buf0).sc
        (fun i _ => castTimeAsDurationAct_isNull C R b _ _ i)
      exact ⟨rfl, n2.symm, fun _ _ => ⟨rfl, fun _ => rfl⟩⟩

theorem vectorized_fallback_equivalence_witness :
    SameOutput 4
      (builtinCastIntAsDurationSig.vecEvalDuration exampleNumberToDuration exampleIntAsDuration
        (examplePool Int) warnCtx (exampleChunk 4) ⟨[], []⟩).err
      (builtinCastIntAsDurationSig.vecEvalDuration exampleNumberToDuration exampleIntAsDuration
        (examplePool Int) warnCtx (exampleChunk 4) ⟨[], []⟩).result
      (builtinCastIntAsDurationSig.vecEvalDuration exampleNumberToDuration exampleIntAsDuration
        (examplePool Int) warnCtx (exampleChunk 4) ⟨[], []⟩).sc
      (rowFallbackBuffered (scalarCastIntAsDuration exampleNumberToDuration exampleIntAsDuration)
        exampleIntAsDuration (examplePool Int) warnCtx (exampleChunk 4) ⟨[], []⟩).err
      (rowFallbackBuffered (scalarCastIntAsDuration exampleNumberToDuration exampleIntAsDuration)
        exampleIntAsDuration (examplePool Int) warnCtx (exampleChunk 4) ⟨[], []⟩).result
      (rowFallbackBuffered (scalarCastIntAsDuration exampleNumberToDuration exampleIntAsDuration)
        exampleIntAsDuration (examplePool Int) warnCtx (exampleChunk 4) ⟨[], []⟩).sc ∧
    SameOutput 2
      (builtinCastTimeAsDurationSig.vecEvalDuration exampleConvertToDuration exampleRoundFrac
        exampleTimeAsDuration (examplePool Time) strictCtx (exampleChunk 2) ⟨[], []⟩).err
      (builtinCastTimeAsDurationSig.vecEvalDuration exampleConvertToDuration exampleRoundFrac
        exampleTimeAsDuration (examplePool Time) strictCtx (exampleChunk 2) ⟨[], []⟩).result
      (builtinCastTimeAsDurationSig.vecEvalDuration exampleConvertToDuration exampleRoundFrac
        exampleTimeAsDuration (examplePool Time) strictCtx (exampleChunk 2) ⟨[], []⟩).sc
      (rowFallbackBuffered
        (scalarCastTimeAsDuration exampleConvertToDuration exampleRoundFrac
          exampleTimeAsDuration)
        exampleTimeAsDuration (examplePool Time) strictCtx (exampleChunk 2) ⟨[], []⟩).err
      (rowFallbackBuffered
        (scalarCastTimeAsDuration exampleConvertToDuration exampleRoundFrac
          exampleTimeAsDuration)
        exampleTimeAsDuration (examplePool Time) strictCtx (exampleChunk 2) ⟨[], []⟩).result
      (rowFallbackBuffered
        (scalarCastTimeAsDuration exampleConvertToDuration exampleRoundFrac
          exampleTimeAsDuration)
        exampleTimeAsDuration (examplePool Time) strictCtx (exampleChunk 2) ⟨[], []⟩).sc :=
  ⟨vectorized_fallback_equivalence.2.2.2.2.1 exampleNumberToDuration exampleIntAsDuration
      (examplePool Int) warnCtx (exampleChunk 4) ⟨[], []⟩
      (by
        intro buf0 hp _ _ i e hi he
        have hb : buf0 = ⟨[], []⟩ := (Except.ok.inj hp).symm
        subst hb
        have hi4 : i = 0 ∨ i = 1 ∨ i = 2 ∨ i = 3 := by
          have : i < 4 := hi
          omega
        rcases hi4 with h | h | h | h <;> subst h
        · rw [show castIntAsDurationError exampleNumberToDuration exampleIntAsDuration
              (exampleIntAsDuration.arg0 warnCtx (exampleChunk 4) ⟨[], []⟩).col 0 = none
              from by decide] at he
          cases he
        · rw [show castIntAsDurationError exampleNumberToDuration exampleIntAsDuration
              (exampleIntAsDuration.arg0 warnCtx (exampleChunk 4) ⟨[], []⟩).col 1 = none
              from by decide] at he
          cases he
        · rw [show castIntAsDurationError exampleNumberToDuration exampleIntAsDuration
              (exampleIntAsDuration.arg0 warnCtx (exampleChunk 4) ⟨[], []⟩).col 2
              = some (Error.overflow 9000000) from by decide] at he
          cases he
          rfl
        · rw [show castIntAsDurationError exampleNumberToDuration exampleIntAsDuration
              (exampleIntAsDuration.arg0 warnCtx (exampleChunk 4) ⟨[], []⟩).col 3 = none
              from by decide] at he
          cases he),
    vectorized_fallback_equivalence.2.2.2.2.2 exampleConvertToDuration exampleRoundFrac
      exampleTimeAsDuration (examplePool Time) strictCtx (exampleChunk 2) ⟨[], []⟩
      (by
        intro buf0 _ _
        exact ⟨rfl, rfl⟩)⟩

end expression
